import Mathlib

/-!
# EC2 waiter status probes

A shallow embedding of `aws/internal/service/ec2/waiter/status.go`.  The expand and
flatten functions and the validators of the two SageMaker resource files are embedded
further down, under their own headings.

Conventions of the embedding:

* a Go pointer `*T` is an `Option T` (`none` is the nil pointer);
* a Go `error` is an `Option GoError` (`none` is the nil error);
* a Go `interface{}` is an `Iface`, so that a nil interface and an interface
  holding a nil pointer stay distinct, as they are in Go;
* every probe is a closure over a connection and its keys that performs one
  lookup; the lookup is passed in as a function of the keys (the connection
  is folded into that function) and returns the Go pair `(result, err)`;
* a nil-pointer dereference is the run-time panic `GoPanic.nilDereference`.
-/

set_option autoImplicit false

/-! ## Go values -/

/-- A Go `error` value, with the shapes the probes distinguish. -/
inductive GoError where
  /-- An `awserr.Error` carrying an error code and a message. -/
  | awsErr (code message : String)
  /-- A `*resource.NotFoundError`. -/
  | notFoundError (message : String)
  /-- An error made by `fmt.Errorf` without `%w`, or by `errors.New`. -/
  | errorf (message : String)
  /-- An error made by `fmt.Errorf` with `%w`: a message around an inner error. -/
  | wrapped (message : String) (inner : GoError)
  deriving DecidableEq, Repr

/-- A Go `interface{}` value: the nil interface, or an interface holding a value. -/
inductive Iface (α : Type) where
  | nil
  | of (a : α)
  deriving DecidableEq, Repr

/-- A run-time panic of the Go program. -/
inductive GoPanic where
  | nilDereference
  /-- A failed single-value type assertion `x.(T)`. -/
  | interfaceConversion
  deriving DecidableEq, Repr

/-- The triple `(interface{}, string, error)` a `resource.StateRefreshFunc` returns. -/
structure RefreshResult (α : Type) where
  payload : Iface α
  status : String
  err : Option GoError
  deriving DecidableEq, Repr

namespace aws

/-- Go `aws.StringValue`: the pointed-to string, or `""` for a nil pointer. -/
def StringValue (v : Option String) : String :=
  match v with
  | some s => s
  | none => ""

/-- Go `aws.BoolValue`: the pointed-to boolean, or `false` for a nil pointer. -/
def BoolValue (v : Option Bool) : Bool :=
  match v with
  | some b => b
  | none => false

/-- Go `aws.Int64Value`: the pointed-to integer, or `0` for a nil pointer. -/
def Int64Value (v : Option Int) : Int :=
  match v with
  | some n => n
  | none => 0

/-- Go `aws.StringSlice`: a slice of pointers to the given strings. -/
def StringSlice (src : List String) : List (Option String) :=
  src.map some

end aws

namespace strconv

/-- Go `strconv.FormatBool`. -/
def FormatBool (b : Bool) : String :=
  if b then "true" else "false"

end strconv

namespace tfawserr

/-- Modelled from the spec: `tfawserr.ErrCodeEquals` is not in the source tree.
It recognises the "distinguished error code" of a not-found condition: the first
`awserr.Error` in the error's chain is compared with the given code; a nil error
and an error without an `awserr.Error` in its chain give `false`. -/
def ErrCodeEqualsErr (err : GoError) (code : String) : Bool :=
  match err with
  | .awsErr c _ => c == code
  | .notFoundError _ => false
  | .errorf _ => false
  | .wrapped _ inner => ErrCodeEqualsErr inner code

/-- Modelled from the spec: `tfawserr.ErrCodeEquals` on a possibly nil error. -/
def ErrCodeEquals (err : Option GoError) (code : String) : Bool :=
  match err with
  | none => false
  | some e => ErrCodeEqualsErr e code

end tfawserr

namespace tfresource

/-- Modelled from the spec: `tfresource.NotFound` is not in the source tree.
It reports whether the error's chain holds a `*resource.NotFoundError`. -/
def NotFoundErr (err : GoError) : Bool :=
  match err with
  | .awsErr _ _ => false
  | .notFoundError _ => true
  | .errorf _ => false
  | .wrapped _ inner => NotFoundErr inner

/-- Modelled from the spec: `tfresource.NotFound` on a possibly nil error. -/
def NotFound (err : Option GoError) : Bool :=
  match err with
  | none => false
  | some e => NotFoundErr e

end tfresource

/-! ## The EC2 API shapes the probes read

Only the fields `status.go` reads are kept, with an identifier where the API
type has one. -/

namespace ec2

structure CarrierGateway where
  CarrierGatewayId : Option String
  State : Option String
  deriving DecidableEq, Repr

structure LocalGatewayRouteTableVpcAssociation where
  LocalGatewayRouteTableVpcAssociationId : Option String
  State : Option String
  deriving DecidableEq, Repr

structure DescribeLocalGatewayRouteTableVpcAssociationsOutput where
  LocalGatewayRouteTableVpcAssociations : List (Option LocalGatewayRouteTableVpcAssociation)
  deriving DecidableEq, Repr

structure ClientVpnEndpointStatus where
  Code : Option String
  Message : Option String
  deriving DecidableEq, Repr

structure ClientVpnEndpoint where
  ClientVpnEndpointId : Option String
  Status : Option ClientVpnEndpointStatus
  deriving DecidableEq, Repr

structure DescribeClientVpnEndpointsOutput where
  ClientVpnEndpoints : List (Option ClientVpnEndpoint)
  deriving DecidableEq, Repr

structure ClientVpnAuthorizationRuleStatus where
  Code : Option String
  Message : Option String
  deriving DecidableEq, Repr

structure AuthorizationRule where
  DestinationCidr : Option String
  Status : Option ClientVpnAuthorizationRuleStatus
  deriving DecidableEq, Repr

structure DescribeClientVpnAuthorizationRulesOutput where
  AuthorizationRules : List (Option AuthorizationRule)
  deriving DecidableEq, Repr

structure AssociationStatus where
  Code : Option String
  Message : Option String
  deriving DecidableEq, Repr

structure TargetNetwork where
  AssociationId : Option String
  Status : Option AssociationStatus
  deriving DecidableEq, Repr

structure DescribeClientVpnTargetNetworksOutput where
  ClientVpnTargetNetworks : List (Option TargetNetwork)
  deriving DecidableEq, Repr

structure ClientVpnRouteStatus where
  Code : Option String
  Message : Option String
  deriving DecidableEq, Repr

structure ClientVpnRoute where
  DestinationCidr : Option String
  Status : Option ClientVpnRouteStatus
  deriving DecidableEq, Repr

structure DescribeClientVpnRoutesOutput where
  Routes : List (Option ClientVpnRoute)
  deriving DecidableEq, Repr

structure IamInstanceProfile where
  Arn : Option String
  deriving DecidableEq, Repr

structure Instance where
  InstanceId : Option String
  IamInstanceProfile : Option IamInstanceProfile
  deriving DecidableEq, Repr

structure Route where
  DestinationCidrBlock : Option String
  deriving DecidableEq, Repr

structure RouteTable where
  RouteTableId : Option String
  deriving DecidableEq, Repr

structure RouteTableAssociationState where
  State : Option String
  deriving DecidableEq, Repr

structure RouteTableAssociation where
  RouteTableAssociationId : Option String
  AssociationState : Option RouteTableAssociationState
  deriving DecidableEq, Repr

structure SecurityGroup where
  GroupId : Option String
  deriving DecidableEq, Repr

structure Subnet where
  SubnetId : Option String
  MapCustomerOwnedIpOnLaunch : Option Bool
  MapPublicIpOnLaunch : Option Bool
  deriving DecidableEq, Repr

structure TransitGatewayPrefixListReference where
  PrefixListId : Option String
  State : Option String
  deriving DecidableEq, Repr

structure TransitGatewayRouteTablePropagation where
  TransitGatewayAttachmentId : Option String
  State : Option String
  deriving DecidableEq, Repr

structure VpcPeeringConnectionStateReason where
  Code : Option String
  Message : Option String
  deriving DecidableEq, Repr

structure VpcPeeringConnection where
  VpcPeeringConnectionId : Option String
  Status : Option VpcPeeringConnectionStateReason
  deriving DecidableEq, Repr

structure VpcAttachment where
  VpcId : Option String
  State : Option String
  deriving DecidableEq, Repr

structure Host where
  HostId : Option String
  State : Option String
  deriving DecidableEq, Repr

structure ManagedPrefixList where
  PrefixListId : Option String
  State : Option String
  deriving DecidableEq, Repr

structure VpcEndpoint where
  VpcEndpointId : Option String
  State : Option String
  deriving DecidableEq, Repr

/-- Modelled from the spec: the SDK constant `ec2.CarrierGatewayStateDeleted`
is not in the source tree; a carrier gateway that is gone reports "deleted". -/
def CarrierGatewayStateDeleted : String := "deleted"

/-- Modelled from the spec: the SDK constant
`ec2.RouteTableAssociationStateCodeDisassociated` is not in the source tree. -/
def RouteTableAssociationStateCodeDisassociated : String := "disassociated"

/-- Modelled from the spec: the SDK constant
`ec2.VpcPeeringConnectionStateReasonCodeFailed` is not in the source tree. -/
def VpcPeeringConnectionStateReasonCodeFailed : String := "failed"

/-- Modelled from the spec: the SDK constant
`ec2.VpcPeeringConnectionStateReasonCodeDeleted` is not in the source tree. -/
def VpcPeeringConnectionStateReasonCodeDeleted : String := "deleted"

/-- Modelled from the spec: the SDK constant
`ec2.VpcPeeringConnectionStateReasonCodeExpired` is not in the source tree. -/
def VpcPeeringConnectionStateReasonCodeExpired : String := "expired"

/-- Modelled from the spec: the SDK constant
`ec2.VpcPeeringConnectionStateReasonCodeRejected` is not in the source tree. -/
def VpcPeeringConnectionStateReasonCodeRejected : String := "rejected"

end ec2

namespace tfec2

/-- The error-code constants of the `tfec2` package that the probes compare
against.  Their declarations are not in the source tree, so the probes take
them as a parameter and every result holds for any values. -/
structure ErrCodes where
  ErrCodeInvalidCarrierGatewayIDNotFound : String
  ErrCodeClientVpnEndpointIdNotFound : String
  ErrCodeClientVpnAuthorizationRuleNotFound : String
  ErrCodeClientVpnAssociationIdNotFound : String
  ErrCodeClientVpnRouteNotFound : String
  ErrCodeInvalidInstanceIDNotFound : String
  ErrCodeInvalidSubnetIDNotFound : String
  ErrCodeInvalidVpcIDNotFound : String
  ErrCodeInvalidVpcPeeringConnectionIDNotFound : String
  InvalidVpnGatewayIDNotFound : String
  deriving DecidableEq, Repr

end tfec2

/-! ## The probes of `waiter/status.go` -/

namespace waiter

def carrierGatewayStateNotFound : String := "NotFound"
def carrierGatewayStateUnknown : String := "Unknown"

/-- The probe `CarrierGatewayState`: fetches the carrier gateway and its state. -/
def CarrierGatewayState (codes : tfec2.ErrCodes)
    (CarrierGatewayByID : String → Option ec2.CarrierGateway × Option GoError)
    (carrierGatewayID : String) : RefreshResult (Option ec2.CarrierGateway) :=
  let found := CarrierGatewayByID carrierGatewayID
  let carrierGateway := found.1
  let err := found.2
  if tfawserr.ErrCodeEquals err codes.ErrCodeInvalidCarrierGatewayIDNotFound then
    ⟨.nil, carrierGatewayStateNotFound, none⟩
  else if err ≠ none then
    ⟨.nil, carrierGatewayStateUnknown, err⟩
  else
    match carrierGateway with
    | none => ⟨.nil, carrierGatewayStateNotFound, none⟩
    | some cg =>
      let state := aws.StringValue cg.State
      if state = ec2.CarrierGatewayStateDeleted then
        ⟨.nil, carrierGatewayStateNotFound, none⟩
      else
        ⟨.of (some cg), state, none⟩

/-- The input of `DescribeLocalGatewayRouteTableVpcAssociations`. -/
structure DescribeLocalGatewayRouteTableVpcAssociationsInput where
  LocalGatewayRouteTableVpcAssociationIds : List (Option String)
  deriving DecidableEq, Repr

/-- The `for ... range` loop of `LocalGatewayRouteTableVpcAssociationState`:
nil entries are skipped, the first entry with the requested ID ends the loop. -/
def LocalGatewayRouteTableVpcAssociationState.scan
    (localGatewayRouteTableVpcAssociationID : String) :
    List (Option ec2.LocalGatewayRouteTableVpcAssociation) →
      Option ec2.LocalGatewayRouteTableVpcAssociation
  | [] => none
  | none :: rest => scan localGatewayRouteTableVpcAssociationID rest
  | some outputAssociation :: rest =>
    if aws.StringValue outputAssociation.LocalGatewayRouteTableVpcAssociationId
        = localGatewayRouteTableVpcAssociationID then
      some outputAssociation
    else
      scan localGatewayRouteTableVpcAssociationID rest

/-- The probe `LocalGatewayRouteTableVpcAssociationState`.  A nil `output` with a nil
error is dereferenced by the loop header and panics. -/
def LocalGatewayRouteTableVpcAssociationState
    (DescribeLocalGatewayRouteTableVpcAssociations :
      DescribeLocalGatewayRouteTableVpcAssociationsInput →
        Option ec2.DescribeLocalGatewayRouteTableVpcAssociationsOutput × Option GoError)
    (localGatewayRouteTableVpcAssociationID : String) :
    Except GoPanic (RefreshResult (Option ec2.LocalGatewayRouteTableVpcAssociation)) :=
  let input : DescribeLocalGatewayRouteTableVpcAssociationsInput :=
    ⟨aws.StringSlice [localGatewayRouteTableVpcAssociationID]⟩
  let called := DescribeLocalGatewayRouteTableVpcAssociations input
  let output := called.1
  let err := called.2
  if err ≠ none then
    .ok ⟨.nil, "", err⟩
  else
    match output with
    | none => .error .nilDereference
    | some out =>
      let association := LocalGatewayRouteTableVpcAssociationState.scan
        localGatewayRouteTableVpcAssociationID out.LocalGatewayRouteTableVpcAssociations
      match association with
      | none => .ok ⟨.of none, ec2.RouteTableAssociationStateCodeDisassociated, none⟩
      | some a => .ok ⟨.of (some a), aws.StringValue a.State, none⟩

def ClientVpnEndpointStatusNotFound : String := "NotFound"
def ClientVpnEndpointStatusUnknown : String := "Unknown"

/-- The input of `DescribeClientVpnEndpoints`. -/
structure DescribeClientVpnEndpointsInput where
  ClientVpnEndpointIds : List (Option String)
  deriving DecidableEq, Repr

/-- The probe `ClientVpnEndpointStatus`: fetches the Client VPN endpoint and its status. -/
def ClientVpnEndpointStatus (codes : tfec2.ErrCodes)
    (DescribeClientVpnEndpoints :
      DescribeClientVpnEndpointsInput →
        Option ec2.DescribeClientVpnEndpointsOutput × Option GoError)
    (endpointID : String) : RefreshResult (Option ec2.ClientVpnEndpoint) :=
  let called := DescribeClientVpnEndpoints ⟨aws.StringSlice [endpointID]⟩
  let result := called.1
  let err := called.2
  if tfawserr.ErrCodeEquals err codes.ErrCodeClientVpnEndpointIdNotFound then
    ⟨.nil, ClientVpnEndpointStatusNotFound, none⟩
  else if err ≠ none then
    ⟨.nil, ClientVpnEndpointStatusUnknown, err⟩
  else
    match result with
    | none => ⟨.nil, ClientVpnEndpointStatusNotFound, none⟩
    | some res =>
      match res.ClientVpnEndpoints with
      | [] => ⟨.nil, ClientVpnEndpointStatusNotFound, none⟩
      | none :: _ => ⟨.nil, ClientVpnEndpointStatusNotFound, none⟩
      | some endpoint :: _ =>
        match endpoint.Status with
        | none => ⟨.of (some endpoint), ClientVpnEndpointStatusUnknown, none⟩
        | some status =>
          match status.Code with
          | none => ⟨.of (some endpoint), ClientVpnEndpointStatusUnknown, none⟩
          | some _ => ⟨.of (some endpoint), aws.StringValue status.Code, none⟩

def ClientVpnAuthorizationRuleStatusNotFound : String := "NotFound"
def ClientVpnAuthorizationRuleStatusUnknown : String := "Unknown"

/-- The probe `ClientVpnAuthorizationRuleStatus`: fetches the Client VPN authorization
rule and its status. -/
def ClientVpnAuthorizationRuleStatus (codes : tfec2.ErrCodes)
    (ClientVpnAuthorizationRuleByID :
      String → Option ec2.DescribeClientVpnAuthorizationRulesOutput × Option GoError)
    (authorizationRuleID : String) : RefreshResult (Option ec2.AuthorizationRule) :=
  let found := ClientVpnAuthorizationRuleByID authorizationRuleID
  let result := found.1
  let err := found.2
  if tfawserr.ErrCodeEquals err codes.ErrCodeClientVpnAuthorizationRuleNotFound then
    ⟨.nil, ClientVpnAuthorizationRuleStatusNotFound, none⟩
  else if err ≠ none then
    ⟨.nil, ClientVpnAuthorizationRuleStatusUnknown, err⟩
  else
    match result with
    | none => ⟨.nil, ClientVpnAuthorizationRuleStatusNotFound, none⟩
    | some res =>
      match res.AuthorizationRules with
      | [] => ⟨.nil, ClientVpnAuthorizationRuleStatusNotFound, none⟩
      | none :: _ => ⟨.nil, ClientVpnAuthorizationRuleStatusNotFound, none⟩
      | some rule :: _ =>
        if res.AuthorizationRules.length > 1 then
          ⟨.nil, ClientVpnAuthorizationRuleStatusUnknown,
            some (.errorf ("internal error: found " ++ toString res.AuthorizationRules.length
              ++ " results for Client VPN authorization rule (" ++ authorizationRuleID
              ++ ") status, need 1"))⟩
        else
          match rule.Status with
          | none => ⟨.of (some rule), ClientVpnAuthorizationRuleStatusUnknown, none⟩
          | some status =>
            match status.Code with
            | none => ⟨.of (some rule), ClientVpnAuthorizationRuleStatusUnknown, none⟩
            | some _ => ⟨.of (some rule), aws.StringValue status.Code, none⟩

def ClientVpnNetworkAssociationStatusNotFound : String := "NotFound"
def ClientVpnNetworkAssociationStatusUnknown : String := "Unknown"

/-- The input of `DescribeClientVpnTargetNetworks`. -/
structure DescribeClientVpnTargetNetworksInput where
  ClientVpnEndpointId : Option String
  AssociationIds : List (Option String)
  deriving DecidableEq, Repr

/-- The probe `ClientVpnNetworkAssociationStatus`. -/
def ClientVpnNetworkAssociationStatus (codes : tfec2.ErrCodes)
    (DescribeClientVpnTargetNetworks :
      DescribeClientVpnTargetNetworksInput →
        Option ec2.DescribeClientVpnTargetNetworksOutput × Option GoError)
    (cvnaID : String) (cvepID : String) : RefreshResult (Option ec2.TargetNetwork) :=
  let called := DescribeClientVpnTargetNetworks ⟨some cvepID, [some cvnaID]⟩
  let result := called.1
  let err := called.2
  if tfawserr.ErrCodeEquals err codes.ErrCodeClientVpnAssociationIdNotFound
      || tfawserr.ErrCodeEquals err codes.ErrCodeClientVpnEndpointIdNotFound then
    ⟨.nil, ClientVpnNetworkAssociationStatusNotFound, none⟩
  else if err ≠ none then
    ⟨.nil, ClientVpnNetworkAssociationStatusUnknown, err⟩
  else
    match result with
    | none => ⟨.nil, ClientVpnNetworkAssociationStatusNotFound, none⟩
    | some res =>
      match res.ClientVpnTargetNetworks with
      | [] => ⟨.nil, ClientVpnNetworkAssociationStatusNotFound, none⟩
      | none :: _ => ⟨.nil, ClientVpnNetworkAssociationStatusNotFound, none⟩
      | some network :: _ =>
        match network.Status with
        | none => ⟨.of (some network), ClientVpnNetworkAssociationStatusUnknown, none⟩
        | some status =>
          match status.Code with
          | none => ⟨.of (some network), ClientVpnNetworkAssociationStatusUnknown, none⟩
          | some _ => ⟨.of (some network), aws.StringValue status.Code, none⟩

def ClientVpnRouteStatusNotFound : String := "NotFound"
def ClientVpnRouteStatusUnknown : String := "Unknown"

/-- The probe `ClientVpnRouteStatus`: fetches the Client VPN route and its status. -/
def ClientVpnRouteStatus (codes : tfec2.ErrCodes)
    (ClientVpnRouteByID : String → Option ec2.DescribeClientVpnRoutesOutput × Option GoError)
    (routeID : String) : RefreshResult (Option ec2.ClientVpnRoute) :=
  let found := ClientVpnRouteByID routeID
  let result := found.1
  let err := found.2
  if tfawserr.ErrCodeEquals err codes.ErrCodeClientVpnRouteNotFound then
    ⟨.nil, ClientVpnRouteStatusNotFound, none⟩
  else if err ≠ none then
    ⟨.nil, ClientVpnRouteStatusUnknown, err⟩
  else
    match result with
    | none => ⟨.nil, ClientVpnRouteStatusNotFound, none⟩
    | some res =>
      match res.Routes with
      | [] => ⟨.nil, ClientVpnRouteStatusNotFound, none⟩
      | none :: _ => ⟨.nil, ClientVpnRouteStatusNotFound, none⟩
      | some rule :: _ =>
        if res.Routes.length > 1 then
          ⟨.nil, ClientVpnRouteStatusUnknown,
            some (.errorf ("internal error: found " ++ toString res.Routes.length
              ++ " results for Client VPN route (" ++ routeID ++ ") status, need 1"))⟩
        else
          match rule.Status with
          | none => ⟨.of (some rule), ClientVpnRouteStatusUnknown, none⟩
          | some status =>
            match status.Code with
            | none => ⟨.of (some rule), ClientVpnRouteStatusUnknown, none⟩
            | some _ => ⟨.of (some rule), aws.StringValue status.Code, none⟩

/-- The probe `InstanceIamInstanceProfile`: fetches the instance and the name of its IAM
instance profile.  `tfiam.InstanceProfileARNToName` is not in the source tree and is
taken as a parameter. -/
def InstanceIamInstanceProfile (codes : tfec2.ErrCodes)
    (InstanceByID : String → Option ec2.Instance × Option GoError)
    (InstanceProfileARNToName : String → String × Option GoError)
    (id : String) : RefreshResult (Option ec2.Instance) :=
  let found := InstanceByID id
  let inst := found.1
  let err := found.2
  if tfawserr.ErrCodeEquals err codes.ErrCodeInvalidInstanceIDNotFound then
    ⟨.nil, "", none⟩
  else if err ≠ none then
    ⟨.nil, "", err⟩
  else
    match inst with
    | none => ⟨.nil, "", none⟩
    | some i =>
      match i.IamInstanceProfile with
      | none => ⟨.of (some i), "", none⟩
      | some profile =>
        match profile.Arn with
        | none => ⟨.of (some i), "", none⟩
        | some _ =>
          let converted := InstanceProfileARNToName (aws.StringValue profile.Arn)
          let name := converted.1
          let err := converted.2
          if err ≠ none then
            ⟨.of (some i), "", err⟩
          else
            ⟨.of (some i), name, none⟩

def RouteStatusReady : String := "ready"

/-- The probe `RouteStatus`. -/
def RouteStatus (routeFinder : String → String → Option ec2.Route × Option GoError)
    (routeTableID destination : String) : RefreshResult (Option ec2.Route) :=
  let found := routeFinder routeTableID destination
  let output := found.1
  let err := found.2
  if tfresource.NotFound err then
    ⟨.nil, "", none⟩
  else if err ≠ none then
    ⟨.nil, "", err⟩
  else
    ⟨.of output, RouteStatusReady, none⟩

def RouteTableStatusReady : String := "ready"

/-- The probe `RouteTableStatus`. -/
def RouteTableStatus (RouteTableByID : String → Option ec2.RouteTable × Option GoError)
    (id : String) : RefreshResult (Option ec2.RouteTable) :=
  let found := RouteTableByID id
  let output := found.1
  let err := found.2
  if tfresource.NotFound err then
    ⟨.nil, "", none⟩
  else if err ≠ none then
    ⟨.nil, "", err⟩
  else
    ⟨.of output, RouteTableStatusReady, none⟩

/-- The probe `RouteTableAssociationState`.  The final `return` reads
`output.AssociationState` and then `output.AssociationState.State` without a nil
check: a nil `output` or a nil `AssociationState` panics. -/
def RouteTableAssociationState
    (RouteTableAssociationByID : String → Option ec2.RouteTableAssociation × Option GoError)
    (id : String) : Except GoPanic (RefreshResult (Option ec2.RouteTableAssociationState)) :=
  let found := RouteTableAssociationByID id
  let output := found.1
  let err := found.2
  if tfresource.NotFound err then
    .ok ⟨.nil, "", none⟩
  else if err ≠ none then
    .ok ⟨.nil, "", err⟩
  else
    match output with
    | none => .error .nilDereference
    | some out =>
      match out.AssociationState with
      | none => .error .nilDereference
      | some associationState =>
        .ok ⟨.of (some associationState), aws.StringValue associationState.State, none⟩

def SecurityGroupStatusCreated : String := "Created"
def SecurityGroupStatusNotFound : String := "NotFound"
def SecurityGroupStatusUnknown : String := "Unknown"

/-- The probe `SecurityGroupStatus`: fetches the security group and its status. -/
def SecurityGroupStatus (SecurityGroupByID : String → Option ec2.SecurityGroup × Option GoError)
    (id : String) : RefreshResult (Option ec2.SecurityGroup) :=
  let found := SecurityGroupByID id
  let group := found.1
  let err := found.2
  if tfresource.NotFound err then
    ⟨.nil, SecurityGroupStatusNotFound, none⟩
  else if err ≠ none then
    ⟨.nil, SecurityGroupStatusUnknown, err⟩
  else
    ⟨.of group, SecurityGroupStatusCreated, none⟩

/-- The probe `SubnetMapCustomerOwnedIpOnLaunch`: fetches the subnet and its
`MapCustomerOwnedIpOnLaunch`. -/
def SubnetMapCustomerOwnedIpOnLaunch (codes : tfec2.ErrCodes)
    (SubnetByID : String → Option ec2.Subnet × Option GoError)
    (id : String) : RefreshResult (Option ec2.Subnet) :=
  let found := SubnetByID id
  let subnet := found.1
  let err := found.2
  if tfawserr.ErrCodeEquals err codes.ErrCodeInvalidSubnetIDNotFound then
    ⟨.nil, "false", none⟩
  else if err ≠ none then
    ⟨.nil, "false", err⟩
  else
    match subnet with
    | none => ⟨.nil, "false", none⟩
    | some s =>
      ⟨.of (some s), strconv.FormatBool (aws.BoolValue s.MapCustomerOwnedIpOnLaunch), none⟩

/-- The probe `SubnetMapPublicIpOnLaunch`: fetches the subnet and its `MapPublicIpOnLaunch`. -/
def SubnetMapPublicIpOnLaunch (codes : tfec2.ErrCodes)
    (SubnetByID : String → Option ec2.Subnet × Option GoError)
    (id : String) : RefreshResult (Option ec2.Subnet) :=
  let found := SubnetByID id
  let subnet := found.1
  let err := found.2
  if tfawserr.ErrCodeEquals err codes.ErrCodeInvalidSubnetIDNotFound then
    ⟨.nil, "false", none⟩
  else if err ≠ none then
    ⟨.nil, "false", err⟩
  else
    match subnet with
    | none => ⟨.nil, "false", none⟩
    | some s =>
      ⟨.of (some s), strconv.FormatBool (aws.BoolValue s.MapPublicIpOnLaunch), none⟩

/-- The probe `TransitGatewayPrefixListReferenceState`. -/
def TransitGatewayPrefixListReferenceState
    (TransitGatewayPrefixListReference :
      String → String → Option ec2.TransitGatewayPrefixListReference × Option GoError)
    (transitGatewayRouteTableID : String) (prefixListID : String) :
    RefreshResult (Option ec2.TransitGatewayPrefixListReference) :=
  let found := TransitGatewayPrefixListReference transitGatewayRouteTableID prefixListID
  let transitGatewayPrefixListReference := found.1
  let err := found.2
  if err ≠ none then
    ⟨.nil, "", err⟩
  else
    match transitGatewayPrefixListReference with
    | none => ⟨.nil, "", none⟩
    | some r => ⟨.of (some r), aws.StringValue r.State, none⟩

/-- The probe `TransitGatewayRouteTablePropagationState`. -/
def TransitGatewayRouteTablePropagationState
    (TransitGatewayRouteTablePropagation :
      String → String → Option ec2.TransitGatewayRouteTablePropagation × Option GoError)
    (transitGatewayRouteTableID : String) (transitGatewayAttachmentID : String) :
    RefreshResult (Option ec2.TransitGatewayRouteTablePropagation) :=
  let found := TransitGatewayRouteTablePropagation transitGatewayRouteTableID
    transitGatewayAttachmentID
  let transitGatewayRouteTablePropagation := found.1
  let err := found.2
  if err ≠ none then
    ⟨.nil, "", err⟩
  else
    match transitGatewayRouteTablePropagation with
    | none => ⟨.nil, "", none⟩
    | some r => ⟨.of (some r), aws.StringValue r.State, none⟩

/-- The probe `VpcAttribute`: fetches the VPC and its attribute value. -/
def VpcAttribute (codes : tfec2.ErrCodes)
    (finderVpcAttribute : String → String → Option Bool × Option GoError)
    (id : String) (attributeName : String) : RefreshResult (Option Bool) :=
  let found := finderVpcAttribute id attributeName
  let attributeValue := found.1
  let err := found.2
  if tfawserr.ErrCodeEquals err codes.ErrCodeInvalidVpcIDNotFound then
    ⟨.nil, "", none⟩
  else if err ≠ none then
    ⟨.nil, "", err⟩
  else
    match attributeValue with
    | none => ⟨.nil, "", none⟩
    | some b => ⟨.of (some b), strconv.FormatBool (aws.BoolValue (some b)), none⟩

def vpcPeeringConnectionStatusNotFound : String := "NotFound"
def vpcPeeringConnectionStatusUnknown : String := "Unknown"

/-- The probe `VpcPeeringConnectionStatus`: fetches the VPC peering connection and its
status.  The second component is what the call writes to the log
(`log.Printf` in the `failed` case of the `switch`, which then falls through). -/
def VpcPeeringConnectionStatus (codes : tfec2.ErrCodes)
    (VpcPeeringConnectionByID : String → Option ec2.VpcPeeringConnection × Option GoError)
    (vpcPeeringConnectionID : String) :
    RefreshResult (Option ec2.VpcPeeringConnection) × List String :=
  let found := VpcPeeringConnectionByID vpcPeeringConnectionID
  let vpcPeeringConnection := found.1
  let err := found.2
  if tfawserr.ErrCodeEquals err codes.ErrCodeInvalidVpcPeeringConnectionIDNotFound then
    (⟨.nil, vpcPeeringConnectionStatusNotFound, none⟩, [])
  else if err ≠ none then
    (⟨.nil, vpcPeeringConnectionStatusUnknown, err⟩, [])
  else
    match vpcPeeringConnection with
    | none => (⟨.nil, vpcPeeringConnectionStatusNotFound, none⟩, [])
    | some pc =>
      match pc.Status with
      | none => (⟨.nil, vpcPeeringConnectionStatusNotFound, none⟩, [])
      | some status =>
        let statusCode := aws.StringValue status.Code
        if statusCode = ec2.VpcPeeringConnectionStateReasonCodeFailed then
          (⟨.nil, vpcPeeringConnectionStatusNotFound, none⟩,
            ["[WARN] VPC Peering Connection (" ++ vpcPeeringConnectionID ++ "): " ++ statusCode
              ++ ": " ++ aws.StringValue status.Message])
        else if statusCode = ec2.VpcPeeringConnectionStateReasonCodeDeleted
            ∨ statusCode = ec2.VpcPeeringConnectionStateReasonCodeExpired
            ∨ statusCode = ec2.VpcPeeringConnectionStateReasonCodeRejected then
          (⟨.nil, vpcPeeringConnectionStatusNotFound, none⟩, [])
        else
          (⟨.of (some pc), statusCode, none⟩, [])

def attachmentStateNotFound : String := "NotFound"
def attachmentStateUnknown : String := "Unknown"

/-- The probe `VpnGatewayVpcAttachmentState`: fetches the attachment between the VPN
gateway and the VPC, and its state. -/
def VpnGatewayVpcAttachmentState (codes : tfec2.ErrCodes)
    (VpnGatewayVpcAttachment : String → String → Option ec2.VpcAttachment × Option GoError)
    (vpnGatewayID vpcID : String) : RefreshResult (Option ec2.VpcAttachment) :=
  let found := VpnGatewayVpcAttachment vpnGatewayID vpcID
  let vpcAttachment := found.1
  let err := found.2
  if tfawserr.ErrCodeEquals err codes.InvalidVpnGatewayIDNotFound then
    ⟨.nil, attachmentStateNotFound, none⟩
  else if err ≠ none then
    ⟨.nil, attachmentStateUnknown, err⟩
  else
    match vpcAttachment with
    | none => ⟨.nil, attachmentStateNotFound, none⟩
    | some a => ⟨.of (some a), aws.StringValue a.State, none⟩

/-- The probe `HostState`.  A nil `output` with a nil error is dereferenced and panics. -/
def HostState (HostByID : String → Option ec2.Host × Option GoError)
    (id : String) : Except GoPanic (RefreshResult (Option ec2.Host)) :=
  let found := HostByID id
  let output := found.1
  let err := found.2
  if tfresource.NotFound err then
    .ok ⟨.nil, "", none⟩
  else if err ≠ none then
    .ok ⟨.nil, "", err⟩
  else
    match output with
    | none => .error .nilDereference
    | some out => .ok ⟨.of (some out), aws.StringValue out.State, none⟩

/-- The probe `ManagedPrefixListState`.  A nil `output` with a nil error is dereferenced
and panics. -/
def ManagedPrefixListState
    (ManagedPrefixListByID : String → Option ec2.ManagedPrefixList × Option GoError)
    (id : String) : Except GoPanic (RefreshResult (Option ec2.ManagedPrefixList)) :=
  let found := ManagedPrefixListByID id
  let output := found.1
  let err := found.2
  if tfresource.NotFound err then
    .ok ⟨.nil, "", none⟩
  else if err ≠ none then
    .ok ⟨.nil, "", err⟩
  else
    match output with
    | none => .error .nilDereference
    | some out => .ok ⟨.of (some out), aws.StringValue out.State, none⟩

/-- The probe `VpcEndpointState`.  A nil `output` with a nil error is dereferenced and
panics. -/
def VpcEndpointState (VpcEndpointByID : String → Option ec2.VpcEndpoint × Option GoError)
    (id : String) : Except GoPanic (RefreshResult (Option ec2.VpcEndpoint)) :=
  let found := VpcEndpointByID id
  let output := found.1
  let err := found.2
  if tfresource.NotFound err then
    .ok ⟨.nil, "", none⟩
  else if err ≠ none then
    .ok ⟨.nil, "", err⟩
  else
    match output with
    | none => .error .nilDereference
    | some out => .ok ⟨.of (some out), aws.StringValue out.State, none⟩

def VpcEndpointRouteTableAssociationStatusReady : String := "ready"

/-- The probe `VpcEndpointRouteTableAssociationStatus`: the finder returns an error only,
and the payload of a successful lookup is the empty string. -/
def VpcEndpointRouteTableAssociationStatus
    (VpcEndpointRouteTableAssociationExists : String → String → Option GoError)
    (vpcEndpointID routeTableID : String) : RefreshResult String :=
  let err := VpcEndpointRouteTableAssociationExists vpcEndpointID routeTableID
  if tfresource.NotFound err then
    ⟨.nil, "", none⟩
  else if err ≠ none then
    ⟨.nil, "", err⟩
  else
    ⟨.of "", VpcEndpointRouteTableAssociationStatusReady, none⟩

end waiter

namespace tfec2

/-- The values the `tfec2` error-code constants have in the provider; used to run the
probes on concrete inputs. -/
def providerErrCodes : ErrCodes where
  ErrCodeInvalidCarrierGatewayIDNotFound := "InvalidCarrierGatewayID.NotFound"
  ErrCodeClientVpnEndpointIdNotFound := "InvalidClientVpnEndpointId.NotFound"
  ErrCodeClientVpnAuthorizationRuleNotFound := "InvalidClientVpnEndpointAuthorizationRuleNotFound"
  ErrCodeClientVpnAssociationIdNotFound := "InvalidClientVpnAssociationId.NotFound"
  ErrCodeClientVpnRouteNotFound := "InvalidClientVpnRouteNotFound"
  ErrCodeInvalidInstanceIDNotFound := "InvalidInstanceID.NotFound"
  ErrCodeInvalidSubnetIDNotFound := "InvalidSubnetID.NotFound"
  ErrCodeInvalidVpcIDNotFound := "InvalidVpcID.NotFound"
  ErrCodeInvalidVpcPeeringConnectionIDNotFound := "InvalidVpcPeeringConnectionID.NotFound"
  InvalidVpnGatewayIDNotFound := "InvalidVpnGatewayID.NotFound"

end tfec2

/-! ## The Poll Driver

The driver that runs a probe on a timer is supplied by the plugin framework and is
not in the source tree; it is modelled from section 4.2 of the specification. -/

namespace PollDriver

/-- Modelled from the spec: the `PollSpec` of section 3, which is not in the source
tree: target status set, optional pending-status set, timeout, base poll interval, an
optional backoff (growth of the interval up to a cap) and an optional minimum-timeout
floor.  Time is counted in whole units. -/
structure PollSpec where
  target : List String
  pending : Option (List String)
  timeout : Nat
  interval : Nat
  backoff : Option (Nat × Nat)
  minTimeout : Option Nat
  deriving DecidableEq, Repr

/-- Modelled from the spec: the terminal errors of section 7 that the driver itself
raises or passes on; the driver is not in the source tree. -/
inductive PollError (α : Type) where
  /-- The `Failure` outcome: the probe returned a hard error, which is propagated. -/
  | probeError (err : GoError)
  /-- The `UnexpectedStatusError`: a pending-set is configured and the status is outside
  both the target and the pending set. -/
  | unexpectedStatus (status : String) (payload : Iface α)
  /-- The `TimeoutError`, with the last observed status and payload. -/
  | timeout (lastStatus : String) (lastPayload : Iface α)
  deriving DecidableEq, Repr

/-- Modelled from the spec: the `PollResult` of section 3, which is not in the source
tree: the payload at the moment the status first matched a target value, or a typed
error. -/
inductive PollResult (α : Type) where
  | target (payload : Iface α)
  | failed (error : PollError α)
  deriving DecidableEq, Repr

/-- Modelled from the spec: the budget of the wait, the configured timeout raised to
the minimum-timeout floor when one is set; the driver is not in the source tree. -/
def PollSpec.budget (spec : PollSpec) : Nat :=
  match spec.minTimeout with
  | none => spec.timeout
  | some floor => max spec.timeout floor

/-- Modelled from the spec: the interval of the next sleep, grown by the backoff factor
up to its cap when a backoff is set; the driver is not in the source tree. -/
def PollSpec.nextInterval (spec : PollSpec) (current : Nat) : Nat :=
  match spec.backoff with
  | none => current
  | some (factor, cap) => min (current * factor) cap

/-- Modelled from the spec: the transition algorithm of section 4.2, one tick per
unit of fuel; the driver is not in the source tree.  `probe n` is what the probe returns
on its invocation number `n` (counted from 0); the result is paired with the number of
probe invocations made.  Per tick: (1) invoke the probe, a probe error is propagated;
(2) a status in the target set ends the wait with the payload; (3) with a pending-set
configured, a status outside it is an unexpected-status error; (4) otherwise sleep for
the current interval and (5) give up with a timeout once the elapsed time exceeds the
budget.  `none` means the fuel ran out before the driver stopped. -/
def tick {α : Type} (spec : PollSpec) (probe : Nat → RefreshResult α) :
    Nat → Nat → Nat → Nat → Option (PollResult α × Nat)
  | 0, _, _, _ => none
  | fuel + 1, invocations, elapsed, interval =>
    let observed := probe invocations
    match observed.err with
    | some err => some (.failed (.probeError err), invocations + 1)
    | none =>
      if observed.status ∈ spec.target then
        some (.target observed.payload, invocations + 1)
      else if spec.pending.isSome ∧ observed.status ∉ spec.pending.getD [] then
        some (.failed (.unexpectedStatus observed.status observed.payload), invocations + 1)
      else if elapsed + interval > spec.budget then
        some (.failed (.timeout observed.status observed.payload), invocations + 1)
      else
        tick spec probe fuel (invocations + 1) (elapsed + interval) (spec.nextInterval interval)

/-- Modelled from the spec: the inbound interface `StartWait` of section 6, the driver
started at time 0 with no invocation made and the base interval; the driver is not in
the source tree. -/
def StartWait {α : Type} (spec : PollSpec) (probe : Nat → RefreshResult α) (fuel : Nat) :
    Option (PollResult α × Nat) :=
  tick spec probe fuel 0 0 spec.interval

end PollDriver

/-! ## SageMaker resources: configuration values and API shapes

An embedding of the expand and flatten functions of
`aws/resource_aws_sagemaker_flow_definition.go` and
`aws/resource_aws_sagemaker_app_image_config.go`.

* a value of the resource data, a Go `interface{}`, is a `TfValue`;
* a Go `map[string]interface{}` is a `TfMap`, the partial function from keys to values,
  so that two maps are equal exactly when they hold the same keys with the same values;
* a Go slice is a `List`; the nil slice and the empty slice are both `[]` (the functions
  embedded here only take the length of a slice or range over it);
* Go `int` and `int64` are both 64 bits wide on the provider's platforms and the
  conversion `int64(v)` keeps the value, so both are `Int` and the conversion is the
  identity; the two dynamic types stay distinct as `TfValue.int` and `TfValue.int64`;
* a failed single-value type assertion is the panic `GoPanic.interfaceConversion`. -/

/-- A value of the resource data as held in a Go `interface{}`. -/
inductive TfValue where
  /-- The nil interface. -/
  | nil
  /-- A Go `string`. -/
  | string (v : String)
  /-- A Go `int`. -/
  | int (v : Int)
  /-- A Go `int64`. -/
  | int64 (v : Int)
  /-- A Go `[]interface{}`. -/
  | list (v : List TfValue)
  /-- A Go `map[string]interface{}`. -/
  | map (v : String → Option TfValue)
  /-- A Go `[]map[string]interface{}`. -/
  | maps (v : List (String → Option TfValue))
  /-- A `*schema.Set` of strings, as the list of its members. -/
  | set (v : List String)

/-- A Go `map[string]interface{}`. -/
abbrev TfMap := String → Option TfValue

namespace TfMap

/-- The empty map literal `map[string]interface{}{}`. -/
def empty : TfMap :=
  fun _ => none

/-- The assignment `m[key] = value`. -/
def set (m : TfMap) (key : String) (value : TfValue) : TfMap :=
  fun k => if k = key then some value else m k

/-- The index expression `m[key]`: the nil interface for a missing key. -/
def index (m : TfMap) (key : String) : TfValue :=
  match m key with
  | some v => v
  | none => .nil

end TfMap

namespace TfValue

/-- The comparison `x == nil` on an interface value. -/
def isNil : TfValue → Bool
  | .nil => true
  | _ => false

/-- The two-value type assertion `v, ok := x.(string)`. -/
def string? : TfValue → Option String
  | .string v => some v
  | _ => none

/-- The two-value type assertion `v, ok := x.(int)`. -/
def int? : TfValue → Option Int
  | .int v => some v
  | _ => none

/-- The two-value type assertion `v, ok := x.([]interface{})`. -/
def list? : TfValue → Option (List TfValue)
  | .list v => some v
  | _ => none

/-- The two-value type assertion `v, ok := x.(map[string]interface{})`. -/
def map? : TfValue → Option TfMap
  | .map v => some v
  | _ => none

/-- The two-value type assertion `v, ok := x.(*schema.Set)`. -/
def set? : TfValue → Option (List String)
  | .set v => some v
  | _ => none

/-- The single-value type assertion `x.(string)`, which panics on another type. -/
def assertString (x : TfValue) : Except GoPanic String :=
  match x.string? with
  | some v => .ok v
  | none => .error .interfaceConversion

/-- The single-value type assertion `x.(int)`, which panics on another type. -/
def assertInt (x : TfValue) : Except GoPanic Int :=
  match x.int? with
  | some v => .ok v
  | none => .error .interfaceConversion

/-- The single-value type assertion `x.(map[string]interface{})`, which panics on
another type. -/
def assertMap (x : TfValue) : Except GoPanic TfMap :=
  match x.map? with
  | some v => .ok v
  | none => .error .interfaceConversion

end TfValue

namespace sagemaker

structure FlowDefinitionOutputConfig where
  KmsKeyId : Option String := none
  S3OutputPath : Option String := none
  deriving DecidableEq, Repr

structure HumanLoopRequestSource where
  AwsManagedHumanLoopRequestSource : Option String := none
  deriving DecidableEq, Repr

structure USD where
  Cents : Option Int := none
  Dollars : Option Int := none
  TenthFractionsOfACent : Option Int := none
  deriving DecidableEq, Repr

structure PublicWorkforceTaskPrice where
  AmountInUsd : Option USD := none
  deriving DecidableEq, Repr

structure HumanLoopConfig where
  HumanTaskUiArn : Option String := none
  PublicWorkforceTaskPrice : Option PublicWorkforceTaskPrice := none
  TaskAvailabilityLifetimeInSeconds : Option Int := none
  TaskCount : Option Int := none
  TaskDescription : Option String := none
  TaskKeywords : List (Option String) := []
  TaskTimeLimitInSeconds : Option Int := none
  TaskTitle : Option String := none
  WorkteamArn : Option String := none
  deriving DecidableEq, Repr

structure KernelSpec where
  DisplayName : Option String := none
  Name : Option String := none
  deriving DecidableEq, Repr

end sagemaker

/-- The function `expandSagemakerFlowDefinitionOutputConfig`. -/
def expandSagemakerFlowDefinitionOutputConfig (l : List TfValue) :
    Except GoPanic (Option sagemaker.FlowDefinitionOutputConfig) :=
  match l with
  | [] => .ok none
  | first :: _ =>
    if first.isNil then
      .ok none
    else do
      let m ← first.assertMap
      let s3OutputPath ← (m.index "s3_output_path").assertString
      let config : sagemaker.FlowDefinitionOutputConfig := { S3OutputPath := some s3OutputPath }
      match (m.index "kms_key_id").string? with
      | some v =>
        if v ≠ "" then
          .ok (some { config with KmsKeyId := some v })
        else
          .ok (some config)
      | none => .ok (some config)

/-- The function `flattenSagemakerFlowDefinitionOutputConfig`. -/
def flattenSagemakerFlowDefinitionOutputConfig
    (config : Option sagemaker.FlowDefinitionOutputConfig) : List TfMap :=
  match config with
  | none => []
  | some c =>
    let m := (TfMap.empty.set "kms_key_id" (.string (aws.StringValue c.KmsKeyId))).set
      "s3_output_path" (.string (aws.StringValue c.S3OutputPath))
    [m]

/-- The function `expandSagemakerFlowDefinitionHumanLoopRequestSource`. -/
def expandSagemakerFlowDefinitionHumanLoopRequestSource (l : List TfValue) :
    Except GoPanic (Option sagemaker.HumanLoopRequestSource) :=
  match l with
  | [] => .ok none
  | first :: _ =>
    if first.isNil then
      .ok none
    else do
      let m ← first.assertMap
      let source ← (m.index "aws_managed_human_loop_request_source").assertString
      let config : sagemaker.HumanLoopRequestSource :=
        { AwsManagedHumanLoopRequestSource := some source }
      .ok (some config)

/-- The function `flattenSagemakerFlowDefinitionHumanLoopRequestSource`. -/
def flattenSagemakerFlowDefinitionHumanLoopRequestSource
    (config : Option sagemaker.HumanLoopRequestSource) : List TfMap :=
  match config with
  | none => []
  | some c =>
    let m := TfMap.empty.set "aws_managed_human_loop_request_source"
      (.string (aws.StringValue c.AwsManagedHumanLoopRequestSource))
    [m]

/-- The function `expandSagemakerFlowDefinitionAmountInUsd`. -/
def expandSagemakerFlowDefinitionAmountInUsd (l : List TfValue) :
    Except GoPanic (Option sagemaker.USD) :=
  match l with
  | [] => .ok none
  | first :: _ =>
    if first.isNil then
      .ok none
    else do
      let m ← first.assertMap
      let config : sagemaker.USD := {}
      let config :=
        match (m.index "cents").int? with
        | some v => { config with Cents := some v }
        | none => config
      let config :=
        match (m.index "dollars").int? with
        | some v => { config with Dollars := some v }
        | none => config
      let config :=
        match (m.index "tenth_fractions_of_a_cent").int? with
        | some v => { config with TenthFractionsOfACent := some v }
        | none => config
      .ok (some config)

/-- The function `flattenSagemakerFlowDefinitionAmountInUsd`. -/
def flattenSagemakerFlowDefinitionAmountInUsd (config : Option sagemaker.USD) : List TfMap :=
  match config with
  | none => []
  | some c =>
    let m := TfMap.empty
    let m :=
      match c.Cents with
      | some _ => m.set "cents" (.int64 (aws.Int64Value c.Cents))
      | none => m
    let m :=
      match c.Dollars with
      | some _ => m.set "dollars" (.int64 (aws.Int64Value c.Dollars))
      | none => m
    let m :=
      match c.TenthFractionsOfACent with
      | some _ =>
        m.set "tenth_fractions_of_a_cent" (.int64 (aws.Int64Value c.TenthFractionsOfACent))
      | none => m
    [m]

/-- The function `expandSagemakerFlowDefinitionPublicWorkforceTaskPrice`. -/
def expandSagemakerFlowDefinitionPublicWorkforceTaskPrice (l : List TfValue) :
    Except GoPanic (Option sagemaker.PublicWorkforceTaskPrice) :=
  match l with
  | [] => .ok none
  | first :: _ =>
    if first.isNil then
      .ok none
    else do
      let m ← first.assertMap
      let config : sagemaker.PublicWorkforceTaskPrice := {}
      match (m.index "amount_in_usd").list? with
      | some v =>
        if v.length > 0 then do
          let amount ← expandSagemakerFlowDefinitionAmountInUsd v
          .ok (some { config with AmountInUsd := amount })
        else
          .ok (some config)
      | none => .ok (some config)

/-- The function `expandSagemakerFlowDefinitionHumanLoopConfig`.  The helper
`expandStringSet` is not in the source tree and is taken as a parameter. -/
def expandSagemakerFlowDefinitionHumanLoopConfig
    (expandStringSet : List String → List (Option String)) (l : List TfValue) :
    Except GoPanic (Option sagemaker.HumanLoopConfig) :=
  match l with
  | [] => .ok none
  | first :: _ =>
    if first.isNil then
      .ok none
    else do
      let m ← first.assertMap
      let humanTaskUiArn ← (m.index "human_task_ui_arn").assertString
      let taskCount ← (m.index "task_count").assertInt
      let taskDescription ← (m.index "task_description").assertString
      let taskTitle ← (m.index "task_title").assertString
      let workteamArn ← (m.index "workteam_arn").assertString
      let config : sagemaker.HumanLoopConfig :=
        { HumanTaskUiArn := some humanTaskUiArn
          TaskCount := some taskCount
          TaskDescription := some taskDescription
          TaskTitle := some taskTitle
          WorkteamArn := some workteamArn }
      let config ←
        match (m.index "public_workforce_task_price").list? with
        | some v =>
          if v.length > 0 then do
            let price ← expandSagemakerFlowDefinitionPublicWorkforceTaskPrice v
            pure { config with PublicWorkforceTaskPrice := price }
          else
            pure config
        | none => pure config
      let config :=
        match (m.index "task_keywords").set? with
        | some v =>
          if v.length > 0 then
            { config with TaskKeywords := expandStringSet v }
          else
            config
        | none => config
      let config :=
        match (m.index "task_availability_lifetime_in_seconds").int? with
        | some v => { config with TaskAvailabilityLifetimeInSeconds := some v }
        | none => config
      let config :=
        match (m.index "task_time_limit_in_seconds").int? with
        | some v => { config with TaskTimeLimitInSeconds := some v }
        | none => config
      .ok (some config)

/-- The `for ... range` loop of
`expandSagemakerAppImageConfigKernelGatewayImageConfigKernelSpecs`: an entry that is not
a map is skipped, every other entry appends one kernel spec. -/
def expandSagemakerAppImageConfigKernelGatewayImageConfigKernelSpecs.loop :
    List TfValue → Except GoPanic (List (Option sagemaker.KernelSpec))
  | [] => .ok []
  | tfMapRaw :: rest =>
    match tfMapRaw.map? with
    | none => loop rest
    | some tfMap => do
      let name ← (tfMap.index "name").assertString
      let kernelSpec : sagemaker.KernelSpec := { Name := some name }
      let kernelSpec :=
        match (tfMap.index "display_name").string? with
        | some v =>
          if v ≠ "" then
            { kernelSpec with DisplayName := some v }
          else
            kernelSpec
        | none => kernelSpec
      let kernelSpecs ← loop rest
      .ok (some kernelSpec :: kernelSpecs)

/-- The function `expandSagemakerAppImageConfigKernelGatewayImageConfigKernelSpecs`. -/
def expandSagemakerAppImageConfigKernelGatewayImageConfigKernelSpecs (tfList : List TfValue) :
    Except GoPanic (List (Option sagemaker.KernelSpec)) :=
  if tfList.length = 0 then
    .ok []
  else
    expandSagemakerAppImageConfigKernelGatewayImageConfigKernelSpecs.loop tfList

/-- The function `flattenSagemakerAppImageConfigKernelGatewayImageConfigKernelSpecs`.  A
nil entry of the slice is dereferenced by `raw.Name` and panics. -/
def flattenSagemakerAppImageConfigKernelGatewayImageConfigKernelSpecs :
    List (Option sagemaker.KernelSpec) → Except GoPanic (List TfMap)
  | [] => .ok []
  | none :: _ => .error .nilDereference
  | some raw :: rest => do
    let kernelSpec := TfMap.empty
    let kernelSpec := kernelSpec.set "name" (.string (aws.StringValue raw.Name))
    let kernelSpec :=
      match raw.DisplayName with
      | some _ => kernelSpec.set "display_name" (.string (aws.StringValue raw.DisplayName))
      | none => kernelSpec
    let res ← flattenSagemakerAppImageConfigKernelGatewayImageConfigKernelSpecs rest
    .ok (kernelSpec :: res)

/-! ## Validators of the SageMaker resource schemas

The `ValidateFunc`s of the schemas are built from `validation.All`,
`validation.StringLenBetween` and `validation.StringMatch` of the plugin SDK and from
regular expressions compiled by Go's `regexp` package.  A regular expression is embedded
as its parse tree, matched by Brzozowski derivatives. -/

/-- Go builtin `len` on a string: the number of bytes of its UTF-8 encoding. -/
def len (s : String) : Nat :=
  s.utf8ByteSize

namespace regexp

/-- The parse tree of a regular expression, with the operators the patterns of the
schemas use.  A character class, a literal character, `.` and a negated class are all
`charClass` with the test for membership. -/
inductive Expr where
  /-- Matches no string. -/
  | noMatch
  /-- Matches the empty string. -/
  | emptyMatch
  /-- Matches one character of the class. -/
  | charClass (member : Char → Bool)
  /-- The alternation `a|b`. -/
  | alternate (a b : Expr)
  /-- The concatenation `ab`. -/
  | concat (a b : Expr)
  /-- The repetition `a*`. -/
  | star (a : Expr)

namespace Expr

/-- The character range `lo-hi` of a class, compared by code point. -/
def range (lo hi : Char) (c : Char) : Bool :=
  decide (lo ≤ c) && decide (c ≤ hi)

/-- A literal character. -/
def char (c : Char) : Expr :=
  .charClass (fun x => decide (x = c))

/-- A literal string, the concatenation of its characters. -/
def literal (cs : List Char) : Expr :=
  match cs with
  | [] => .emptyMatch
  | c :: rest => .concat (char c) (literal rest)

/-- The option `a?`. -/
def quest (a : Expr) : Expr :=
  .alternate a .emptyMatch

/-- The pattern `.` without the `s` flag: any character but a newline. -/
def anyCharNotNL : Expr :=
  .charClass (fun x => decide (x ≠ '\n'))

/-- The pattern `.` with the `s` flag: any character. -/
def anyChar : Expr :=
  .charClass (fun _ => true)

/-- Whether the expression matches the empty string. -/
def nullable : Expr → Bool
  | .noMatch => false
  | .emptyMatch => true
  | .charClass _ => false
  | .alternate a b => nullable a || nullable b
  | .concat a b => nullable a && nullable b
  | .star _ => true

/-- The derivative of the expression by a character: what must match the rest of a
string that starts with the character. -/
def deriv : Expr → Char → Expr
  | .noMatch, _ => .noMatch
  | .emptyMatch, _ => .noMatch
  | .charClass member, c => if member c then .emptyMatch else .noMatch
  | .alternate a b, c => .alternate (deriv a c) (deriv b c)
  | .concat a b, c =>
    if nullable a then
      .alternate (.concat (deriv a c) b) (deriv b c)
    else
      .concat (deriv a c) b
  | .star a, c => .concat (deriv a c) (.star a)

/-- Whether the expression matches the whole of the text. -/
def matchAll : Expr → List Char → Bool
  | e, [] => nullable e
  | e, c :: rest => matchAll (deriv e c) rest

end Expr

/-- A compiled regular expression: an expression with an optional `^` in front and an
optional `$` behind (without the `m` flag: beginning and end of the text). -/
structure Regexp where
  beginText : Bool
  expr : Expr
  endText : Bool

/-- Go `(*Regexp).MatchString`: whether the text contains a match; without `^` the match
may start anywhere and without `$` it may end anywhere. -/
def Regexp.MatchString (re : Regexp) (s : String) : Bool :=
  let before := if re.beginText then Expr.emptyMatch else Expr.star Expr.anyChar
  let after := if re.endText then Expr.emptyMatch else Expr.star Expr.anyChar
  Expr.matchAll (.concat before (.concat re.expr after)) s.data

end regexp

namespace validation

/-- An error of a `schema.SchemaValidateFunc` (none of the validators used here returns a
warning). -/
inductive Error where
  /-- The error of `StringLenBetween` for the key and its bounds. -/
  | lengthOutOfRange (k : String) (min max : Nat) (v : String)
  /-- The error of `StringMatch` for the key, with the message of the validator. -/
  | noMatch (k : String) (message : String) (v : String)
  /-- The error of `IntBetween` for the key and its bounds. -/
  | notInRange (k : String) (min max : Int) (v : Int)
  /-- The error of `IntInSlice` for the key and its valid values. -/
  | notInSlice (k : String) (valid : List Int) (v : Int)
  deriving DecidableEq, Repr

/-- A `schema.SchemaValidateFunc` on a value of a `TypeString` attribute: the errors for
the value `v` of the key `k`. -/
abbrev SchemaValidateFunc := String → String → List Error

/-- The plugin SDK's `validation.StringLenBetween`. -/
def StringLenBetween (min max : Nat) : SchemaValidateFunc :=
  fun v k => if len v < min ∨ len v > max then [.lengthOutOfRange k min max v] else []

/-- The plugin SDK's `validation.StringMatch`. -/
def StringMatch (r : regexp.Regexp) (message : String) : SchemaValidateFunc :=
  fun v k => if r.MatchString v then [] else [.noMatch k message v]

/-- The plugin SDK's `validation.All`: every validator runs and the errors are
collected. -/
def All (validators : List SchemaValidateFunc) : SchemaValidateFunc :=
  fun v k => validators.foldl (fun errors validator => errors ++ validator v k) []

end validation

namespace resourceAwsSagemakerAppImageConfig

/-- The pattern `^[a-zA-Z0-9](-*[a-zA-Z0-9])*$` of "app_image_config_name". -/
def appImageConfigNamePattern : regexp.Regexp where
  beginText := true
  expr :=
    .concat
      (.charClass (fun c => regexp.Expr.range 'a' 'z' c || regexp.Expr.range 'A' 'Z' c
        || regexp.Expr.range '0' '9' c))
      (.star (.concat (.star (regexp.Expr.char '-'))
        (.charClass (fun c => regexp.Expr.range 'a' 'z' c || regexp.Expr.range 'A' 'Z' c
          || regexp.Expr.range '0' '9' c))))
  endText := true

/-- The `ValidateFunc` of the attribute "app_image_config_name". -/
def appImageConfigNameValidateFunc : validation.SchemaValidateFunc :=
  validation.All
    [validation.StringLenBetween 1 63,
      validation.StringMatch appImageConfigNamePattern
        "Valid characters are a-z, A-Z, 0-9, and - (hyphen)."]

end resourceAwsSagemakerAppImageConfig

namespace resourceAwsSagemakerFlowDefinition

/-- The pattern `^[a-z0-9](-*[a-z0-9])*$` of "flow_definition_name". -/
def flowDefinitionNamePattern : regexp.Regexp where
  beginText := true
  expr :=
    .concat
      (.charClass (fun c => regexp.Expr.range 'a' 'z' c || regexp.Expr.range '0' '9' c))
      (.star (.concat (.star (regexp.Expr.char '-'))
        (.charClass (fun c => regexp.Expr.range 'a' 'z' c || regexp.Expr.range '0' '9' c))))
  endText := true

/-- The `ValidateFunc` of the attribute "flow_definition_name". -/
def flowDefinitionNameValidateFunc : validation.SchemaValidateFunc :=
  validation.All
    [validation.StringLenBetween 1 63,
      validation.StringMatch flowDefinitionNamePattern
        "Valid characters are a-z, 0-9, and - (hyphen)."]

/-- The pattern `^(https|s3)://([^/])/?(.*)$` of "s3_output_path"; the groups only
capture and `[^/]` matches every character but `/`, a newline included. -/
def s3OutputPathPattern : regexp.Regexp where
  beginText := true
  expr :=
    .concat (.alternate (regexp.Expr.literal "https".data) (regexp.Expr.literal "s3".data))
      (.concat (regexp.Expr.literal "://".data)
        (.concat (.charClass (fun c => decide (c ≠ '/')))
          (.concat (regexp.Expr.quest (regexp.Expr.char '/'))
            (.star regexp.Expr.anyCharNotNL))))
  endText := true

/-- The `ValidateFunc` of the attribute "s3_output_path". -/
def s3OutputPathValidateFunc : validation.SchemaValidateFunc :=
  validation.All
    [validation.StringMatch s3OutputPathPattern "",
      validation.StringLenBetween 1 512]

end resourceAwsSagemakerFlowDefinition

namespace regexp.Expr

/-- The language of an expression: the texts it denotes.  `matchAll` decides it. -/
def Matches : Expr → List Char → Prop
  | .noMatch, _ => False
  | .emptyMatch, w => w = []
  | .charClass member, w => ∃ c, w = [c] ∧ member c = true
  | .alternate a b, w => Matches a w ∨ Matches b w
  | .concat a b, w => ∃ u v, w = u ++ v ∧ Matches a u ∧ Matches b v
  | .star a, w => ∃ parts : List (List Char), w = parts.flatten ∧ ∀ u ∈ parts, u ≠ [] ∧ Matches a u

end regexp.Expr

namespace validation

/-- A `schema.SchemaValidateFunc` on a value of a `TypeInt` attribute: the errors for the
value `v` of the key `k`. -/
abbrev IntSchemaValidateFunc := Int → String → List Error

/-- The plugin SDK's `validation.IntBetween`. -/
def IntBetween (min max : Int) : IntSchemaValidateFunc :=
  fun v k => if v < min ∨ v > max then [.notInRange k min max v] else []

/-- The plugin SDK's `validation.IntInSlice`: the value is compared with each valid
value in turn. -/
def IntInSlice (valid : List Int) : IntSchemaValidateFunc :=
  fun v k => if valid.any (fun validInt => decide (v = validInt)) then [] else
    [.notInSlice k valid v]

end validation

namespace resourceAwsSagemakerAppImageConfig

/-- The `Default` of the attribute "default_gid". -/
def defaultGidDefault : Int := 100

/-- The `ValidateFunc` of the attribute "default_gid". -/
def defaultGidValidateFunc : validation.IntSchemaValidateFunc :=
  validation.IntInSlice [0, 100]

/-- The `Default` of the attribute "default_uid". -/
def defaultUidDefault : Int := 1000

/-- The `ValidateFunc` of the attribute "default_uid". -/
def defaultUidValidateFunc : validation.IntSchemaValidateFunc :=
  validation.IntInSlice [0, 1000]

/-- The `Default` of the attribute "mount_path". -/
def mountPathDefault : String := "/home/sagemaker-user"

/-- The pattern `^\/.*` of "mount_path": a slash at the beginning of the text, then the
rest of the line; there is no `$`. -/
def mountPathPattern : regexp.Regexp where
  beginText := true
  expr := .concat (regexp.Expr.char '/') (.star regexp.Expr.anyCharNotNL)
  endText := false

/-- The `ValidateFunc` of the attribute "mount_path". -/
def mountPathValidateFunc : validation.SchemaValidateFunc :=
  validation.All
    [validation.StringLenBetween 1 1024,
      validation.StringMatch mountPathPattern "Must start with `/`."]

end resourceAwsSagemakerAppImageConfig

namespace resourceAwsSagemakerFlowDefinition

/-- The `Default` of the attribute "task_time_limit_in_seconds". -/
def taskTimeLimitInSecondsDefault : Int := 3600

/-- The `ValidateFunc` of the attribute "task_time_limit_in_seconds". -/
def taskTimeLimitInSecondsValidateFunc : validation.IntSchemaValidateFunc :=
  validation.IntBetween 30 28800

end resourceAwsSagemakerFlowDefinition

/-! ## SageMaker resources: the Read and Delete handlers

* the resource data `d` is a `schema.ResourceData`: its ID, whether it is newly created,
  and the attributes written by `d.Set`;
* the remote calls (`DeleteFlowDefinition`, the deletion waiter, the finders) are passed in
  as functions, and a handler reports which remote calls it made, in order;
* `log.Printf` appends a line to the log the handler returns;
* an error made by `fmt.Errorf("...: %w", err)` is `GoError.wrapped` with the formatted
  text in front of `%w` and the wrapped error. -/

namespace strings

/-- Go `strings.Contains`: whether `substr` occurs in `s`. -/
def Contains (s substr : String) : Bool :=
  s.data.tails.any (fun rest => substr.data.isPrefixOf rest)

end strings

namespace tfawserr

/-- Modelled from the spec: `tfawserr.ErrMessageContains` is not in the source tree.  The
first `awserr.Error` in the error's chain must carry the given code and a message that
contains the given text. -/
def ErrMessageContainsErr (err : GoError) (code message : String) : Bool :=
  match err with
  | .awsErr c m => c == code && strings.Contains m message
  | .notFoundError _ => false
  | .errorf _ => false
  | .wrapped _ inner => ErrMessageContainsErr inner code message

/-- Modelled from the spec: `tfawserr.ErrMessageContains` on a possibly nil error. -/
def ErrMessageContains (err : Option GoError) (code message : String) : Bool :=
  match err with
  | none => false
  | some e => ErrMessageContainsErr e code message

end tfawserr

/-- Modelled from the spec: the provider's helper `isAWSErr` is not in the source tree; it
reports an AWS error with the given code whose message contains the given text. -/
def isAWSErr (err : Option GoError) (code message : String) : Bool :=
  tfawserr.ErrMessageContains err code message

namespace sagemaker

/-- Modelled from the spec: the SDK constant `sagemaker.ErrCodeResourceNotFound` is not in
the source tree. -/
def ErrCodeResourceNotFound : String := "ResourceNotFound"

structure DeleteFlowDefinitionInput where
  FlowDefinitionName : Option String
  deriving DecidableEq, Repr

structure DeleteAppImageConfigInput where
  AppImageConfigName : Option String
  deriving DecidableEq, Repr

/-- A remote call made by a handler. -/
inductive Call where
  /-- The API call `conn.DeleteFlowDefinition`. -/
  | DeleteFlowDefinition (input : DeleteFlowDefinitionInput)
  /-- The waiter `waiter.FlowDefinitionDeleted` for the flow definition of the name. -/
  | FlowDefinitionDeleted (name : String)
  /-- The API call `conn.DeleteAppImageConfig`. -/
  | DeleteAppImageConfig (input : DeleteAppImageConfigInput)
  deriving DecidableEq, Repr

end sagemaker

namespace schema

/-- The part of a `*schema.ResourceData` the handlers use. -/
structure ResourceData where
  id : String
  isNewResource : Bool
  attributes : TfMap

namespace ResourceData

/-- The method `d.Id()`. -/
def Id (d : ResourceData) : String :=
  d.id

/-- The method `d.IsNewResource()`. -/
def IsNewResource (d : ResourceData) : Bool :=
  d.isNewResource

/-- The method `d.SetId(v)`. -/
def SetId (d : ResourceData) (v : String) : ResourceData :=
  { d with id := v }

end ResourceData

end schema

/-- What a Delete handler returns and does: its error, its log lines, and the remote calls
it made. -/
structure DeleteOutcome where
  err : Option GoError
  log : List String
  calls : List sagemaker.Call
  deriving DecidableEq, Repr

/-- What a Read handler returns and does: its error, the resource data it leaves, its log
lines, and the arguments of its calls of `d.SetId`, in order. -/
structure ReadOutcome where
  err : Option GoError
  d : schema.ResourceData
  log : List String
  setIdCalls : List String

/-- The handler `resourceAwsSagemakerFlowDefinitionDelete`. -/
def resourceAwsSagemakerFlowDefinitionDelete
    (DeleteFlowDefinition : sagemaker.DeleteFlowDefinitionInput → Option GoError)
    (FlowDefinitionDeleted : String → Option GoError)
    (d : schema.ResourceData) : DeleteOutcome :=
  let log := ["[DEBUG] Deleting SageMaker Flow Definition: " ++ d.Id]
  let input : sagemaker.DeleteFlowDefinitionInput := ⟨some d.Id⟩
  let err := DeleteFlowDefinition input
  let calls := [sagemaker.Call.DeleteFlowDefinition input]
  if tfawserr.ErrCodeEquals err sagemaker.ErrCodeResourceNotFound then
    ⟨none, log, calls⟩
  else
    match err with
    | some e =>
      ⟨some (.wrapped ("error deleting SageMaker Flow Definition (" ++ d.Id ++ "): ") e), log,
        calls⟩
    | none =>
      let calls := calls ++ [sagemaker.Call.FlowDefinitionDeleted d.Id]
      match FlowDefinitionDeleted d.Id with
      | some e =>
        ⟨some (.wrapped
          ("error waiting for SageMaker Flow Definition (" ++ d.Id ++ ") to delete: ") e), log,
          calls⟩
      | none => ⟨none, log, calls⟩

/-- The handler `resourceAwsSagemakerAppImageConfigDelete`. -/
def resourceAwsSagemakerAppImageConfigDelete
    (DeleteAppImageConfig : sagemaker.DeleteAppImageConfigInput → Option GoError)
    (d : schema.ResourceData) : DeleteOutcome :=
  let input : sagemaker.DeleteAppImageConfigInput := ⟨some d.Id⟩
  let calls := [sagemaker.Call.DeleteAppImageConfig input]
  match DeleteAppImageConfig input with
  | some e =>
    if isAWSErr (some e) sagemaker.ErrCodeResourceNotFound "does not exist" then
      ⟨none, [], calls⟩
    else
      ⟨some (.wrapped ("error deleting SageMaker App Image Config (" ++ d.Id ++ "): ") e), [],
        calls⟩
  | none => ⟨none, [], calls⟩

/-- The handler `resourceAwsSagemakerFlowDefinitionRead`, up to the end of its handling of
the lookup error.  What follows in the source (setting the attributes and the tags of the
found flow definition with `d.Set`, which never calls `d.SetId`) is `setAttributes`: from
the resource data and the found record it gives the attributes, the error returned and
the lines logged, or it panics. -/
def resourceAwsSagemakerFlowDefinitionRead {Found : Type}
    (FlowDefinitionByName : String → Option Found × Option GoError)
    (setAttributes : schema.ResourceData → Option Found →
      Except GoPanic (TfMap × Option GoError × List String))
    (d : schema.ResourceData) : Except GoPanic ReadOutcome :=
  let found := FlowDefinitionByName d.Id
  let flowDefinition := found.1
  let err := found.2
  if !d.IsNewResource && tfresource.NotFound err then
    let log := ["[WARN] SageMaker Flow Definition (" ++ d.Id ++ ") not found, removing from state"]
    let d := d.SetId ""
    .ok ⟨none, d, log, [""]⟩
  else
    match err with
    | some e =>
      .ok ⟨some (.wrapped ("error reading SageMaker Flow Definition (" ++ d.Id ++ "): ") e), d,
        [], []⟩
    | none =>
      match setAttributes d flowDefinition with
      | .error p => .error p
      | .ok (attributes, err, log) => .ok ⟨err, { d with attributes := attributes }, log, []⟩

/-- The handler `resourceAwsSagemakerAppImageConfigRead`, up to the end of its handling of
the lookup error.  What follows in the source (setting the attributes and the tags of the
found configuration with `d.Set`, which never calls `d.SetId`) is `setAttributes`, as
for the flow definition.  The warning is logged after `d.SetId("")`, so it prints the
emptied ID. -/
def resourceAwsSagemakerAppImageConfigRead {Found : Type}
    (AppImageConfigByName : String → Option Found × Option GoError)
    (setAttributes : schema.ResourceData → Option Found →
      Except GoPanic (TfMap × Option GoError × List String))
    (d : schema.ResourceData) : Except GoPanic ReadOutcome :=
  let found := AppImageConfigByName d.Id
  let image := found.1
  let err := found.2
  match err with
  | some e =>
    if isAWSErr (some e) sagemaker.ErrCodeResourceNotFound "does not exist" then
      let d := d.SetId ""
      let log :=
        ["[WARN] Unable to find SageMaker App Image Config (" ++ d.Id
          ++ "); removing from state"]
      .ok ⟨none, d, log, [""]⟩
    else
      .ok ⟨some (.wrapped ("error reading SageMaker App Image Config (" ++ d.Id ++ "): ") e), d,
        [], []⟩
  | none =>
    match setAttributes d image with
    | .error p => .error p
    | .ok (attributes, err, log) => .ok ⟨err, { d with attributes := attributes }, log, []⟩

/-! ## Claims about the probes -/

/-- C1 (counterexample): `RouteStatus`, given a lookup that fails with the route's
not-found error, returns a nil payload and a nil error but the empty status, not
"NotFound". -/
theorem RouteStatus_notFound_error_status_empty :
    tfresource.NotFound (some (GoError.notFoundError "gone")) = true
    ∧ waiter.RouteStatus (fun _ _ => (none, some (GoError.notFoundError "gone")))
        "rtb-1" "10.0.0.0/16" = ⟨.nil, "", none⟩
    ∧ (waiter.RouteStatus (fun _ _ => (none, some (GoError.notFoundError "gone")))
        "rtb-1" "10.0.0.0/16").status ≠ "NotFound" := by
  decide

/-- C1 (amended): on a lookup that fails with the resource's not-found error, the
probes that define a NotFound label (`CarrierGatewayState`, the four `ClientVpn*`
probes, `SecurityGroupStatus`, `VpcPeeringConnectionStatus`,
`VpnGatewayVpcAttachmentState`) return a nil payload, the status "NotFound" and a nil
error; the two `SubnetMap*` probes return a nil payload, the status "false" and a nil
error; `InstanceIamInstanceProfile`, `RouteStatus`, `RouteTableStatus`,
`RouteTableAssociationState`, `VpcAttribute`, `HostState`, `ManagedPrefixListState`,
`VpcEndpointState` and `VpcEndpointRouteTableAssociationStatus` return a nil payload,
the empty status and a nil error; `LocalGatewayRouteTableVpcAssociationState` and the
two `TransitGateway*` probes classify no error as not-found and return a nil payload,
the empty status and the lookup error itself. -/
theorem probes_on_notFound_error (codes : tfec2.ErrCodes) :
    (∀ find id, tfawserr.ErrCodeEquals (find id).2
          codes.ErrCodeInvalidCarrierGatewayIDNotFound = true →
      waiter.CarrierGatewayState codes find id = ⟨.nil, "NotFound", none⟩)
    ∧ (∀ call id, tfawserr.ErrCodeEquals (call ⟨aws.StringSlice [id]⟩).2
          codes.ErrCodeClientVpnEndpointIdNotFound = true →
      waiter.ClientVpnEndpointStatus codes call id = ⟨.nil, "NotFound", none⟩)
    ∧ (∀ find id, tfawserr.ErrCodeEquals (find id).2
          codes.ErrCodeClientVpnAuthorizationRuleNotFound = true →
      waiter.ClientVpnAuthorizationRuleStatus codes find id = ⟨.nil, "NotFound", none⟩)
    ∧ (∀ call cvnaID cvepID,
      (tfawserr.ErrCodeEquals (call ⟨some cvepID, [some cvnaID]⟩).2
          codes.ErrCodeClientVpnAssociationIdNotFound = true
        ∨ tfawserr.ErrCodeEquals (call ⟨some cvepID, [some cvnaID]⟩).2
          codes.ErrCodeClientVpnEndpointIdNotFound = true) →
      waiter.ClientVpnNetworkAssociationStatus codes call cvnaID cvepID = ⟨.nil, "NotFound", none⟩)
    ∧ (∀ find id, tfawserr.ErrCodeEquals (find id).2 codes.ErrCodeClientVpnRouteNotFound = true →
      waiter.ClientVpnRouteStatus codes find id = ⟨.nil, "NotFound", none⟩)
    ∧ (∀ find id, tfresource.NotFound (find id).2 = true →
      waiter.SecurityGroupStatus find id = ⟨.nil, "NotFound", none⟩)
    ∧ (∀ find id,
      tfawserr.ErrCodeEquals (find id).2 codes.ErrCodeInvalidVpcPeeringConnectionIDNotFound = true →
      waiter.VpcPeeringConnectionStatus codes find id = (⟨.nil, "NotFound", none⟩, []))
    ∧ (∀ find gw vpc, tfawserr.ErrCodeEquals (find gw vpc).2
          codes.InvalidVpnGatewayIDNotFound = true →
      waiter.VpnGatewayVpcAttachmentState codes find gw vpc = ⟨.nil, "NotFound", none⟩)
    ∧ (∀ find id, tfawserr.ErrCodeEquals (find id).2 codes.ErrCodeInvalidSubnetIDNotFound = true →
      waiter.SubnetMapCustomerOwnedIpOnLaunch codes find id = ⟨.nil, "false", none⟩)
    ∧ (∀ find id, tfawserr.ErrCodeEquals (find id).2 codes.ErrCodeInvalidSubnetIDNotFound = true →
      waiter.SubnetMapPublicIpOnLaunch codes find id = ⟨.nil, "false", none⟩)
    ∧ (∀ find toName id,
      tfawserr.ErrCodeEquals (find id).2 codes.ErrCodeInvalidInstanceIDNotFound = true →
      waiter.InstanceIamInstanceProfile codes find toName id = ⟨.nil, "", none⟩)
    ∧ (∀ find rtb dest, tfresource.NotFound (find rtb dest).2 = true →
      waiter.RouteStatus find rtb dest = ⟨.nil, "", none⟩)
    ∧ (∀ find id, tfresource.NotFound (find id).2 = true →
      waiter.RouteTableStatus find id = ⟨.nil, "", none⟩)
    ∧ (∀ find id, tfresource.NotFound (find id).2 = true →
      waiter.RouteTableAssociationState find id = .ok ⟨.nil, "", none⟩)
    ∧ (∀ find id attr, tfawserr.ErrCodeEquals (find id attr).2
          codes.ErrCodeInvalidVpcIDNotFound = true →
      waiter.VpcAttribute codes find id attr = ⟨.nil, "", none⟩)
    ∧ (∀ find id, tfresource.NotFound (find id).2 = true →
      waiter.HostState find id = .ok ⟨.nil, "", none⟩)
    ∧ (∀ find id, tfresource.NotFound (find id).2 = true →
      waiter.ManagedPrefixListState find id = .ok ⟨.nil, "", none⟩)
    ∧ (∀ find id, tfresource.NotFound (find id).2 = true →
      waiter.VpcEndpointState find id = .ok ⟨.nil, "", none⟩)
    ∧ (∀ find ep rtb, tfresource.NotFound (find ep rtb) = true →
      waiter.VpcEndpointRouteTableAssociationStatus find ep rtb = ⟨.nil, "", none⟩)
    ∧ (∀ call id e, (call ⟨aws.StringSlice [id]⟩).2 = some e →
      waiter.LocalGatewayRouteTableVpcAssociationState call id = .ok ⟨.nil, "", some e⟩)
    ∧ (∀ find rtb pl e, (find rtb pl).2 = some e →
      waiter.TransitGatewayPrefixListReferenceState find rtb pl = ⟨.nil, "", some e⟩)
    ∧ (∀ find rtb att e, (find rtb att).2 = some e →
      waiter.TransitGatewayRouteTablePropagationState find rtb att = ⟨.nil, "", some e⟩) := by
  refine ⟨?_, ?_, ?_, ?_, ?_, ?_, ?_, ?_, ?_, ?_, ?_, ?_, ?_, ?_, ?_, ?_, ?_, ?_, ?_, ?_, ?_, ?_⟩
  · intro find id h
    simp [waiter.CarrierGatewayState, waiter.carrierGatewayStateNotFound, h]
  · intro call id h
    simp [waiter.ClientVpnEndpointStatus, waiter.ClientVpnEndpointStatusNotFound, h]
  · intro find id h
    simp [waiter.ClientVpnAuthorizationRuleStatus,
      waiter.ClientVpnAuthorizationRuleStatusNotFound, h]
  · intro call cvnaID cvepID h
    simp [waiter.ClientVpnNetworkAssociationStatus,
      waiter.ClientVpnNetworkAssociationStatusNotFound, h]
  · intro find id h
    simp [waiter.ClientVpnRouteStatus, waiter.ClientVpnRouteStatusNotFound, h]
  · intro find id h
    simp [waiter.SecurityGroupStatus, waiter.SecurityGroupStatusNotFound, h]
  · intro find id h
    simp [waiter.VpcPeeringConnectionStatus, waiter.vpcPeeringConnectionStatusNotFound, h]
  · intro find gw vpc h
    simp [waiter.VpnGatewayVpcAttachmentState, waiter.attachmentStateNotFound, h]
  · intro find id h
    simp [waiter.SubnetMapCustomerOwnedIpOnLaunch, h]
  · intro find id h
    simp [waiter.SubnetMapPublicIpOnLaunch, h]
  · intro find toName id h
    simp [waiter.InstanceIamInstanceProfile, h]
  · intro find rtb dest h
    simp [waiter.RouteStatus, h]
  · intro find id h
    simp [waiter.RouteTableStatus, h]
  · intro find id h
    simp [waiter.RouteTableAssociationState, h]
  · intro find id attr h
    simp [waiter.VpcAttribute, h]
  · intro find id h
    simp [waiter.HostState, h]
  · intro find id h
    simp [waiter.ManagedPrefixListState, h]
  · intro find id h
    simp [waiter.VpcEndpointState, h]
  · intro find ep rtb h
    simp [waiter.VpcEndpointRouteTableAssociationStatus, h]
  · intro call id e h
    simp [waiter.LocalGatewayRouteTableVpcAssociationState, h]
  · intro find rtb pl e h
    simp [waiter.TransitGatewayPrefixListReferenceState, h]
  · intro find rtb att e h
    simp [waiter.TransitGatewayRouteTablePropagationState, h]

/-- C1 (witness): the amended claim at one concrete failing lookup per probe. -/
theorem probes_on_notFound_error_witness :
    waiter.CarrierGatewayState tfec2.providerErrCodes
        (fun _ => (none, some (GoError.awsErr "InvalidCarrierGatewayID.NotFound" "gone")))
        "cagw-1" = ⟨.nil, "NotFound", none⟩
    ∧ waiter.ClientVpnEndpointStatus tfec2.providerErrCodes
        (fun _ => (none, some (GoError.awsErr "InvalidClientVpnEndpointId.NotFound" "gone")))
        "cvpn-endpoint-1" = ⟨.nil, "NotFound", none⟩
    ∧ waiter.ClientVpnAuthorizationRuleStatus tfec2.providerErrCodes
        (fun _ => (none, some (GoError.wrapped "describe"
          (GoError.awsErr "InvalidClientVpnEndpointAuthorizationRuleNotFound" "gone"))))
        "cvpn-endpoint-1,10.0.0.0/16" = ⟨.nil, "NotFound", none⟩
    ∧ waiter.ClientVpnNetworkAssociationStatus tfec2.providerErrCodes
        (fun _ => (none, some (GoError.awsErr "InvalidClientVpnEndpointId.NotFound" "gone")))
        "cvpn-assoc-1" "cvpn-endpoint-1" = ⟨.nil, "NotFound", none⟩
    ∧ waiter.ClientVpnRouteStatus tfec2.providerErrCodes
        (fun _ => (none, some (GoError.awsErr "InvalidClientVpnRouteNotFound" "gone")))
        "cvpn-endpoint-1,subnet-1,10.0.0.0/16" = ⟨.nil, "NotFound", none⟩
    ∧ waiter.SecurityGroupStatus
        (fun _ => (none, some (GoError.notFoundError "gone"))) "sg-1" = ⟨.nil, "NotFound", none⟩
    ∧ waiter.VpcPeeringConnectionStatus tfec2.providerErrCodes
        (fun _ => (none, some (GoError.awsErr "InvalidVpcPeeringConnectionID.NotFound" "gone")))
        "pcx-1" = (⟨.nil, "NotFound", none⟩, [])
    ∧ waiter.VpnGatewayVpcAttachmentState tfec2.providerErrCodes
        (fun _ _ => (none, some (GoError.awsErr "InvalidVpnGatewayID.NotFound" "gone")))
        "vgw-1" "vpc-1" = ⟨.nil, "NotFound", none⟩
    ∧ waiter.SubnetMapCustomerOwnedIpOnLaunch tfec2.providerErrCodes
        (fun _ => (none, some (GoError.awsErr "InvalidSubnetID.NotFound" "gone")))
        "subnet-1" = ⟨.nil, "false", none⟩
    ∧ waiter.SubnetMapPublicIpOnLaunch tfec2.providerErrCodes
        (fun _ => (none, some (GoError.awsErr "InvalidSubnetID.NotFound" "gone")))
        "subnet-1" = ⟨.nil, "false", none⟩
    ∧ waiter.InstanceIamInstanceProfile tfec2.providerErrCodes
        (fun _ => (none, some (GoError.awsErr "InvalidInstanceID.NotFound" "gone")))
        (fun arn => (arn, none)) "i-1" = ⟨.nil, "", none⟩
    ∧ waiter.RouteStatus (fun _ _ => (none, some (GoError.notFoundError "gone")))
        "rtb-1" "10.0.0.0/16" = ⟨.nil, "", none⟩
    ∧ waiter.RouteTableStatus (fun _ => (none, some (GoError.notFoundError "gone")))
        "rtb-1" = ⟨.nil, "", none⟩
    ∧ waiter.RouteTableAssociationState (fun _ => (none, some (GoError.notFoundError "gone")))
        "rtbassoc-1" = .ok ⟨.nil, "", none⟩
    ∧ waiter.VpcAttribute tfec2.providerErrCodes
        (fun _ _ => (none, some (GoError.awsErr "InvalidVpcID.NotFound" "gone")))
        "vpc-1" "enableDnsSupport" = ⟨.nil, "", none⟩
    ∧ waiter.HostState (fun _ => (none, some (GoError.notFoundError "gone")))
        "h-1" = .ok ⟨.nil, "", none⟩
    ∧ waiter.ManagedPrefixListState (fun _ => (none, some (GoError.notFoundError "gone")))
        "pl-1" = .ok ⟨.nil, "", none⟩
    ∧ waiter.VpcEndpointState (fun _ => (none, some (GoError.notFoundError "gone")))
        "vpce-1" = .ok ⟨.nil, "", none⟩
    ∧ waiter.VpcEndpointRouteTableAssociationStatus
        (fun _ _ => some (GoError.notFoundError "gone")) "vpce-1" "rtb-1" = ⟨.nil, "", none⟩
    ∧ waiter.LocalGatewayRouteTableVpcAssociationState
        (fun _ => (none, some (GoError.awsErr "InvalidLocalGatewayRouteTableVpcAssociationID.NotFound" "gone")))
        "lgw-vpc-assoc-1"
        = .ok ⟨.nil, "", some (GoError.awsErr "InvalidLocalGatewayRouteTableVpcAssociationID.NotFound" "gone")⟩
    ∧ waiter.TransitGatewayPrefixListReferenceState
        (fun _ _ => (none, some (GoError.notFoundError "gone"))) "tgw-rtb-1" "pl-1"
        = ⟨.nil, "", some (GoError.notFoundError "gone")⟩
    ∧ waiter.TransitGatewayRouteTablePropagationState
        (fun _ _ => (none, some (GoError.notFoundError "gone"))) "tgw-rtb-1" "tgw-attach-1"
        = ⟨.nil, "", some (GoError.notFoundError "gone")⟩ := by
  obtain ⟨h1, h2, h3, h4, h5, h6, h7, h8, h9, h10, h11, h12, h13, h14, h15, h16, h17, h18,
    h19, h20, h21, h22⟩ := probes_on_notFound_error tfec2.providerErrCodes
  exact ⟨h1 _ _ (by decide), h2 _ _ (by decide), h3 _ _ (by decide), h4 _ _ _ (by decide),
    h5 _ _ (by decide), h6 _ _ (by decide), h7 _ _ (by decide), h8 _ _ _ (by decide),
    h9 _ _ (by decide), h10 _ _ (by decide), h11 _ _ _ (by decide), h12 _ _ _ (by decide),
    h13 _ _ (by decide), h14 _ _ (by decide), h15 _ _ _ (by decide), h16 _ _ (by decide),
    h17 _ _ (by decide), h18 _ _ (by decide), h19 _ _ _ (by decide), h20 _ _ _ rfl,
    h21 _ _ _ _ rfl, h22 _ _ _ _ rfl⟩

/-- C2 (counterexample): `ClientVpnEndpointStatus`, given a successful lookup whose list
holds two records, returns the first record with its status code and a nil error; and
`ClientVpnRouteStatus`, given a successful lookup whose list holds two entries the
first of which is nil, returns "NotFound" with a nil error.  Neither is
(nil, "Unknown", non-nil error). -/
theorem ClientVpn_two_records_no_multiplicity_error :
    waiter.ClientVpnEndpointStatus tfec2.providerErrCodes
        (fun _ => (some ⟨[some ⟨some "cvpn-endpoint-1", some ⟨some "available", none⟩⟩,
                          some ⟨some "cvpn-endpoint-2", some ⟨some "deleting", none⟩⟩]⟩, none))
        "cvpn-endpoint-1"
      = ⟨.of (some ⟨some "cvpn-endpoint-1", some ⟨some "available", none⟩⟩), "available", none⟩
    ∧ waiter.ClientVpnRouteStatus tfec2.providerErrCodes
        (fun _ => (some ⟨[none, some ⟨some "10.0.0.0/16", some ⟨some "active", none⟩⟩]⟩, none))
        "cvpn-endpoint-1,subnet-1,10.0.0.0/16"
      = ⟨.nil, "NotFound", none⟩ := by
  decide

/-- C2 (amended): `ClientVpnAuthorizationRuleStatus` and `ClientVpnRouteStatus`, on a
successful lookup whose list holds more than one record and whose first record is
non-nil, return a nil payload, the status "Unknown" and a non-nil error.
`ClientVpnEndpointStatus` and `ClientVpnNetworkAssociationStatus` make no multiplicity
check: on a successful lookup with a non-empty list they return what they return for
the list cut down to its first entry. -/
theorem ClientVpn_multiple_records (codes : tfec2.ErrCodes) :
    (∀ find id rule second rest, find id = (some ⟨some rule :: second :: rest⟩, none) →
      (waiter.ClientVpnAuthorizationRuleStatus codes find id).payload = .nil
      ∧ (waiter.ClientVpnAuthorizationRuleStatus codes find id).status = "Unknown"
      ∧ (waiter.ClientVpnAuthorizationRuleStatus codes find id).err ≠ none)
    ∧ (∀ find id route second rest, find id = (some ⟨some route :: second :: rest⟩, none) →
      (waiter.ClientVpnRouteStatus codes find id).payload = .nil
      ∧ (waiter.ClientVpnRouteStatus codes find id).status = "Unknown"
      ∧ (waiter.ClientVpnRouteStatus codes find id).err ≠ none)
    ∧ (∀ call id first rest, call ⟨aws.StringSlice [id]⟩ = (some ⟨first :: rest⟩, none) →
      waiter.ClientVpnEndpointStatus codes call id
        = waiter.ClientVpnEndpointStatus codes (fun _ => (some ⟨[first]⟩, none)) id)
    ∧ (∀ call cvnaID cvepID first rest,
      call ⟨some cvepID, [some cvnaID]⟩ = (some ⟨first :: rest⟩, none) →
      waiter.ClientVpnNetworkAssociationStatus codes call cvnaID cvepID
        = waiter.ClientVpnNetworkAssociationStatus codes (fun _ => (some ⟨[first]⟩, none))
            cvnaID cvepID) := by
  refine ⟨?_, ?_, ?_, ?_⟩
  · intro find id rule second rest h
    simp [waiter.ClientVpnAuthorizationRuleStatus, waiter.ClientVpnAuthorizationRuleStatusUnknown,
      h, tfawserr.ErrCodeEquals]
  · intro find id route second rest h
    simp [waiter.ClientVpnRouteStatus, waiter.ClientVpnRouteStatusUnknown, h,
      tfawserr.ErrCodeEquals]
  · intro call id first rest h
    cases first <;> simp [waiter.ClientVpnEndpointStatus, h, tfawserr.ErrCodeEquals]
  · intro call cvnaID cvepID first rest h
    cases first <;> simp [waiter.ClientVpnNetworkAssociationStatus, h, tfawserr.ErrCodeEquals]

/-- C2 (witness): the amended claim at lookups that return two records. -/
theorem ClientVpn_multiple_records_witness :
    ((waiter.ClientVpnAuthorizationRuleStatus tfec2.providerErrCodes
        (fun _ => (some ⟨[some ⟨some "10.0.0.0/16", some ⟨some "active", none⟩⟩,
                          some ⟨some "10.0.0.0/16", some ⟨some "revoking", none⟩⟩]⟩, none))
        "cvpn-endpoint-1,10.0.0.0/16").payload = .nil
      ∧ (waiter.ClientVpnAuthorizationRuleStatus tfec2.providerErrCodes
        (fun _ => (some ⟨[some ⟨some "10.0.0.0/16", some ⟨some "active", none⟩⟩,
                          some ⟨some "10.0.0.0/16", some ⟨some "revoking", none⟩⟩]⟩, none))
        "cvpn-endpoint-1,10.0.0.0/16").status = "Unknown"
      ∧ (waiter.ClientVpnAuthorizationRuleStatus tfec2.providerErrCodes
        (fun _ => (some ⟨[some ⟨some "10.0.0.0/16", some ⟨some "active", none⟩⟩,
                          some ⟨some "10.0.0.0/16", some ⟨some "revoking", none⟩⟩]⟩, none))
        "cvpn-endpoint-1,10.0.0.0/16").err ≠ none)
    ∧ ((waiter.ClientVpnRouteStatus tfec2.providerErrCodes
        (fun _ => (some ⟨[some ⟨some "10.0.0.0/16", none⟩, none]⟩, none))
        "cvpn-endpoint-1,subnet-1,10.0.0.0/16").payload = .nil
      ∧ (waiter.ClientVpnRouteStatus tfec2.providerErrCodes
        (fun _ => (some ⟨[some ⟨some "10.0.0.0/16", none⟩, none]⟩, none))
        "cvpn-endpoint-1,subnet-1,10.0.0.0/16").status = "Unknown"
      ∧ (waiter.ClientVpnRouteStatus tfec2.providerErrCodes
        (fun _ => (some ⟨[some ⟨some "10.0.0.0/16", none⟩, none]⟩, none))
        "cvpn-endpoint-1,subnet-1,10.0.0.0/16").err ≠ none)
    ∧ waiter.ClientVpnEndpointStatus tfec2.providerErrCodes
        (fun _ => (some ⟨[some ⟨some "cvpn-endpoint-1", some ⟨some "available", none⟩⟩,
                          some ⟨some "cvpn-endpoint-2", none⟩]⟩, none)) "cvpn-endpoint-1"
      = waiter.ClientVpnEndpointStatus tfec2.providerErrCodes
        (fun _ => (some ⟨[some ⟨some "cvpn-endpoint-1", some ⟨some "available", none⟩⟩]⟩, none))
        "cvpn-endpoint-1"
    ∧ waiter.ClientVpnNetworkAssociationStatus tfec2.providerErrCodes
        (fun _ => (some ⟨[some ⟨some "cvpn-assoc-1", some ⟨some "associated", none⟩⟩,
                          some ⟨some "cvpn-assoc-2", none⟩]⟩, none))
        "cvpn-assoc-1" "cvpn-endpoint-1"
      = waiter.ClientVpnNetworkAssociationStatus tfec2.providerErrCodes
        (fun _ => (some ⟨[some ⟨some "cvpn-assoc-1", some ⟨some "associated", none⟩⟩]⟩, none))
        "cvpn-assoc-1" "cvpn-endpoint-1" := by
  obtain ⟨h1, h2, h3, h4⟩ := ClientVpn_multiple_records tfec2.providerErrCodes
  exact ⟨h1 _ _ _ _ _ rfl, h2 _ _ _ _ _ rfl, h3 _ _ _ _ rfl, h4 _ _ _ _ _ rfl⟩

/-- C3: each of `ClientVpnEndpointStatus`, `ClientVpnAuthorizationRuleStatus`,
`ClientVpnNetworkAssociationStatus` and `ClientVpnRouteStatus`, on a successful lookup
that returns exactly one non-nil record whose `Status` is unset, or set with an unset
`Code`, returns that record as payload, the status "Unknown" and a nil error. -/
theorem ClientVpn_status_unset_gives_Unknown (codes : tfec2.ErrCodes) :
    (∀ call id (endpoint : ec2.ClientVpnEndpoint),
      call ⟨aws.StringSlice [id]⟩ = (some ⟨[some endpoint]⟩, none) →
      (endpoint.Status = none ∨ ∃ st, endpoint.Status = some st ∧ st.Code = none) →
      waiter.ClientVpnEndpointStatus codes call id = ⟨.of (some endpoint), "Unknown", none⟩)
    ∧ (∀ find id (rule : ec2.AuthorizationRule),
      find id = (some ⟨[some rule]⟩, none) →
      (rule.Status = none ∨ ∃ st, rule.Status = some st ∧ st.Code = none) →
      waiter.ClientVpnAuthorizationRuleStatus codes find id
        = ⟨.of (some rule), "Unknown", none⟩)
    ∧ (∀ call cvnaID cvepID (network : ec2.TargetNetwork),
      call ⟨some cvepID, [some cvnaID]⟩ = (some ⟨[some network]⟩, none) →
      (network.Status = none ∨ ∃ st, network.Status = some st ∧ st.Code = none) →
      waiter.ClientVpnNetworkAssociationStatus codes call cvnaID cvepID
        = ⟨.of (some network), "Unknown", none⟩)
    ∧ (∀ find id (route : ec2.ClientVpnRoute),
      find id = (some ⟨[some route]⟩, none) →
      (route.Status = none ∨ ∃ st, route.Status = some st ∧ st.Code = none) →
      waiter.ClientVpnRouteStatus codes find id = ⟨.of (some route), "Unknown", none⟩) := by
  refine ⟨?_, ?_, ?_, ?_⟩
  · intro call id endpoint h hs
    rcases hs with hs | ⟨st, hs, hc⟩
    · simp [waiter.ClientVpnEndpointStatus, waiter.ClientVpnEndpointStatusUnknown, h, hs,
        tfawserr.ErrCodeEquals]
    · simp [waiter.ClientVpnEndpointStatus, waiter.ClientVpnEndpointStatusUnknown, h, hs, hc,
        tfawserr.ErrCodeEquals]
  · intro find id rule h hs
    rcases hs with hs | ⟨st, hs, hc⟩
    · simp [waiter.ClientVpnAuthorizationRuleStatus,
        waiter.ClientVpnAuthorizationRuleStatusUnknown, h, hs, tfawserr.ErrCodeEquals]
    · simp [waiter.ClientVpnAuthorizationRuleStatus,
        waiter.ClientVpnAuthorizationRuleStatusUnknown, h, hs, hc, tfawserr.ErrCodeEquals]
  · intro call cvnaID cvepID network h hs
    rcases hs with hs | ⟨st, hs, hc⟩
    · simp [waiter.ClientVpnNetworkAssociationStatus,
        waiter.ClientVpnNetworkAssociationStatusUnknown, h, hs, tfawserr.ErrCodeEquals]
    · simp [waiter.ClientVpnNetworkAssociationStatus,
        waiter.ClientVpnNetworkAssociationStatusUnknown, h, hs, hc, tfawserr.ErrCodeEquals]
  · intro find id route h hs
    rcases hs with hs | ⟨st, hs, hc⟩
    · simp [waiter.ClientVpnRouteStatus, waiter.ClientVpnRouteStatusUnknown, h, hs,
        tfawserr.ErrCodeEquals]
    · simp [waiter.ClientVpnRouteStatus, waiter.ClientVpnRouteStatusUnknown, h, hs, hc,
        tfawserr.ErrCodeEquals]

/-- C3 (witness): one record with an unset `Status`, or a `Status` with an unset `Code`,
for each of the four probes. -/
theorem ClientVpn_status_unset_gives_Unknown_witness :
    waiter.ClientVpnEndpointStatus tfec2.providerErrCodes
        (fun _ => (some ⟨[some ⟨some "cvpn-endpoint-1", none⟩]⟩, none)) "cvpn-endpoint-1"
      = ⟨.of (some ⟨some "cvpn-endpoint-1", none⟩), "Unknown", none⟩
    ∧ waiter.ClientVpnAuthorizationRuleStatus tfec2.providerErrCodes
        (fun _ => (some ⟨[some ⟨some "10.0.0.0/16", some ⟨none, some "pending"⟩⟩]⟩, none))
        "cvpn-endpoint-1,10.0.0.0/16"
      = ⟨.of (some ⟨some "10.0.0.0/16", some ⟨none, some "pending"⟩⟩), "Unknown", none⟩
    ∧ waiter.ClientVpnNetworkAssociationStatus tfec2.providerErrCodes
        (fun _ => (some ⟨[some ⟨some "cvpn-assoc-1", none⟩]⟩, none))
        "cvpn-assoc-1" "cvpn-endpoint-1"
      = ⟨.of (some ⟨some "cvpn-assoc-1", none⟩), "Unknown", none⟩
    ∧ waiter.ClientVpnRouteStatus tfec2.providerErrCodes
        (fun _ => (some ⟨[some ⟨some "10.0.0.0/16", some ⟨none, none⟩⟩]⟩, none))
        "cvpn-endpoint-1,subnet-1,10.0.0.0/16"
      = ⟨.of (some ⟨some "10.0.0.0/16", some ⟨none, none⟩⟩), "Unknown", none⟩ := by
  obtain ⟨h1, h2, h3, h4⟩ := ClientVpn_status_unset_gives_Unknown tfec2.providerErrCodes
  exact ⟨h1 _ _ _ rfl (Or.inl rfl), h2 _ _ _ rfl (Or.inr ⟨_, rfl, rfl⟩),
    h3 _ _ _ _ rfl (Or.inl rfl), h4 _ _ _ rfl (Or.inr ⟨_, rfl, rfl⟩)⟩

/-- C4 (counterexample): `VpcPeeringConnectionStatus`, given a peering connection whose
`Status` is present with an unset `Code`, returns the empty status, not "Unknown". -/
theorem VpcPeeringConnectionStatus_unset_code_status_empty :
    waiter.VpcPeeringConnectionStatus tfec2.providerErrCodes
        (fun _ => (some ⟨some "pcx-1", some ⟨none, none⟩⟩, none)) "pcx-1"
      = (⟨.of (some ⟨some "pcx-1", some ⟨none, none⟩⟩), "", none⟩, [])
    ∧ (waiter.VpcPeeringConnectionStatus tfec2.providerErrCodes
        (fun _ => (some ⟨some "pcx-1", some ⟨none, none⟩⟩, none)) "pcx-1").1.status
      ≠ "Unknown" := by
  decide

/-- C4 (amended): `VpcPeeringConnectionStatus`, on a successful lookup that returns a
peering connection whose `Status` is present but whose `Code` is unset or the empty
string, returns the peering connection as payload, the empty status "" and a nil
error (and logs nothing). -/
theorem VpcPeeringConnectionStatus_empty_code (codes : tfec2.ErrCodes)
    (find : String → Option ec2.VpcPeeringConnection × Option GoError) (id : String)
    (pc : ec2.VpcPeeringConnection) (st : ec2.VpcPeeringConnectionStateReason)
    (hfind : find id = (some pc, none)) (hstatus : pc.Status = some st)
    (hcode : st.Code = none ∨ st.Code = some "") :
    waiter.VpcPeeringConnectionStatus codes find id = (⟨.of (some pc), "", none⟩, []) := by
  have hval : aws.StringValue st.Code = "" := by
    rcases hcode with h | h <;> simp [h, aws.StringValue]
  simp [waiter.VpcPeeringConnectionStatus, hfind, hstatus, hval, tfawserr.ErrCodeEquals,
    ec2.VpcPeeringConnectionStateReasonCodeFailed, ec2.VpcPeeringConnectionStateReasonCodeDeleted,
    ec2.VpcPeeringConnectionStateReasonCodeExpired,
    ec2.VpcPeeringConnectionStateReasonCodeRejected]

/-- C4 (witness): a peering connection whose status code is the empty string. -/
theorem VpcPeeringConnectionStatus_empty_code_witness :
    waiter.VpcPeeringConnectionStatus tfec2.providerErrCodes
        (fun _ => (some ⟨some "pcx-1", some ⟨some "", some "no code yet"⟩⟩, none)) "pcx-1"
      = (⟨.of (some ⟨some "pcx-1", some ⟨some "", some "no code yet"⟩⟩), "", none⟩, []) :=
  VpcPeeringConnectionStatus_empty_code tfec2.providerErrCodes _ "pcx-1" _ _ rfl rfl
    (Or.inr rfl)

/-- C5: `VpcPeeringConnectionStatus` returns (nil, "NotFound", nil) for every found
peering connection whose status code is "rejected", "deleted", "expired" or "failed",
and `CarrierGatewayState` returns (nil, "NotFound", nil) for every found carrier gateway
whose state is "deleted"; the record is not passed on as payload. -/
theorem terminal_codes_reported_as_NotFound (codes : tfec2.ErrCodes) :
    (∀ find id (pc : ec2.VpcPeeringConnection) (st : ec2.VpcPeeringConnectionStateReason),
      find id = (some pc, none) → pc.Status = some st →
      (st.Code = some "rejected" ∨ st.Code = some "deleted" ∨ st.Code = some "expired"
        ∨ st.Code = some "failed") →
      (waiter.VpcPeeringConnectionStatus codes find id).1 = ⟨.nil, "NotFound", none⟩)
    ∧ (∀ find id (cg : ec2.CarrierGateway),
      find id = (some cg, none) → cg.State = some "deleted" →
      waiter.CarrierGatewayState codes find id = ⟨.nil, "NotFound", none⟩) := by
  refine ⟨?_, ?_⟩
  · intro find id pc st hfind hstatus hcode
    rcases hcode with h | h | h | h <;>
      simp [waiter.VpcPeeringConnectionStatus, hfind, hstatus, h, aws.StringValue,
        tfawserr.ErrCodeEquals, waiter.vpcPeeringConnectionStatusNotFound,
        ec2.VpcPeeringConnectionStateReasonCodeFailed,
        ec2.VpcPeeringConnectionStateReasonCodeDeleted,
        ec2.VpcPeeringConnectionStateReasonCodeExpired,
        ec2.VpcPeeringConnectionStateReasonCodeRejected]
  · intro find id cg hfind hstate
    simp [waiter.CarrierGatewayState, hfind, hstate, aws.StringValue, tfawserr.ErrCodeEquals,
      waiter.carrierGatewayStateNotFound, ec2.CarrierGatewayStateDeleted]

/-- C5 (witness): a rejected peering connection and a deleted carrier gateway. -/
theorem terminal_codes_reported_as_NotFound_witness :
    (waiter.VpcPeeringConnectionStatus tfec2.providerErrCodes
        (fun _ => (some ⟨some "pcx-1", some ⟨some "rejected", some "by the accepter"⟩⟩, none))
        "pcx-1").1 = ⟨.nil, "NotFound", none⟩
    ∧ waiter.CarrierGatewayState tfec2.providerErrCodes
        (fun _ => (some ⟨some "cagw-1", some "deleted"⟩, none)) "cagw-1"
      = ⟨.nil, "NotFound", none⟩ :=
  ⟨(terminal_codes_reported_as_NotFound tfec2.providerErrCodes).1 _ "pcx-1" _ _ rfl rfl
      (Or.inl rfl),
    (terminal_codes_reported_as_NotFound tfec2.providerErrCodes).2 _ "cagw-1" _ rfl rfl⟩

/-- C6 (counterexample): `SecurityGroupStatus`, on a successful lookup, returns the
status "Created", not "ready". -/
theorem SecurityGroupStatus_success_status_Created :
    waiter.SecurityGroupStatus (fun _ => (some ⟨some "sg-1"⟩, none)) "sg-1"
      = ⟨.of (some ⟨some "sg-1"⟩), "Created", none⟩
    ∧ (waiter.SecurityGroupStatus (fun _ => (some ⟨some "sg-1"⟩, none)) "sg-1").status
      ≠ "ready" := by
  decide

/-- C6 (amended): `RouteStatus`, `RouteTableStatus` and
`VpcEndpointRouteTableAssociationStatus` return the constant status "ready" with a nil
error on every successful lookup; `SecurityGroupStatus` returns the constant status
"Created" with a nil error on every successful lookup.  The payload is what the lookup
returned (the empty string for `VpcEndpointRouteTableAssociationStatus`). -/
theorem existence_probes_constant_status :
    (∀ find rtb dest, (find rtb dest).2 = none →
      waiter.RouteStatus find rtb dest = ⟨.of (find rtb dest).1, "ready", none⟩)
    ∧ (∀ find id, (find id).2 = none →
      waiter.RouteTableStatus find id = ⟨.of (find id).1, "ready", none⟩)
    ∧ (∀ find ep rtb, find ep rtb = none →
      waiter.VpcEndpointRouteTableAssociationStatus find ep rtb = ⟨.of "", "ready", none⟩)
    ∧ (∀ find id, (find id).2 = none →
      waiter.SecurityGroupStatus find id = ⟨.of (find id).1, "Created", none⟩) := by
  refine ⟨?_, ?_, ?_, ?_⟩
  · intro find rtb dest h
    simp [waiter.RouteStatus, h, tfresource.NotFound, waiter.RouteStatusReady]
  · intro find id h
    simp [waiter.RouteTableStatus, h, tfresource.NotFound, waiter.RouteTableStatusReady]
  · intro find ep rtb h
    simp [waiter.VpcEndpointRouteTableAssociationStatus, h, tfresource.NotFound,
      waiter.VpcEndpointRouteTableAssociationStatusReady]
  · intro find id h
    simp [waiter.SecurityGroupStatus, h, tfresource.NotFound, waiter.SecurityGroupStatusCreated]

/-- C6 (witness): one successful lookup for each of the four probes. -/
theorem existence_probes_constant_status_witness :
    waiter.RouteStatus (fun _ _ => (some ⟨some "10.0.0.0/16"⟩, none)) "rtb-1" "10.0.0.0/16"
      = ⟨.of (some ⟨some "10.0.0.0/16"⟩), "ready", none⟩
    ∧ waiter.RouteTableStatus (fun _ => (some ⟨some "rtb-1"⟩, none)) "rtb-1"
      = ⟨.of (some ⟨some "rtb-1"⟩), "ready", none⟩
    ∧ waiter.VpcEndpointRouteTableAssociationStatus (fun _ _ => none) "vpce-1" "rtb-1"
      = ⟨.of "", "ready", none⟩
    ∧ waiter.SecurityGroupStatus (fun _ => (some ⟨some "sg-1"⟩, none)) "sg-1"
      = ⟨.of (some ⟨some "sg-1"⟩), "Created", none⟩ := by
  obtain ⟨h1, h2, h3, h4⟩ := existence_probes_constant_status
  exact ⟨h1 (fun _ _ => (some ⟨some "10.0.0.0/16"⟩, none)) "rtb-1" "10.0.0.0/16" rfl,
    h2 (fun _ => (some ⟨some "rtb-1"⟩, none)) "rtb-1" rfl,
    h3 (fun _ _ => none) "vpce-1" "rtb-1" rfl,
    h4 (fun _ => (some ⟨some "sg-1"⟩, none)) "sg-1" rfl⟩

/-- C7: each probe that defines an Unknown label (`CarrierGatewayState`, the four
`ClientVpn*` probes, `SecurityGroupStatus`, `VpcPeeringConnectionStatus`,
`VpnGatewayVpcAttachmentState`), on a lookup error `e` that is not the resource's
not-found error, returns a nil payload, the status "Unknown" and exactly `e`. -/
theorem other_lookup_errors_give_Unknown (codes : tfec2.ErrCodes) (e : GoError) :
    (∀ find id, (find id).2 = some e →
      tfawserr.ErrCodeEquals (some e) codes.ErrCodeInvalidCarrierGatewayIDNotFound = false →
      waiter.CarrierGatewayState codes find id = ⟨.nil, "Unknown", some e⟩)
    ∧ (∀ call id, (call ⟨aws.StringSlice [id]⟩).2 = some e →
      tfawserr.ErrCodeEquals (some e) codes.ErrCodeClientVpnEndpointIdNotFound = false →
      waiter.ClientVpnEndpointStatus codes call id = ⟨.nil, "Unknown", some e⟩)
    ∧ (∀ find id, (find id).2 = some e →
      tfawserr.ErrCodeEquals (some e) codes.ErrCodeClientVpnAuthorizationRuleNotFound = false →
      waiter.ClientVpnAuthorizationRuleStatus codes find id = ⟨.nil, "Unknown", some e⟩)
    ∧ (∀ call cvnaID cvepID, (call ⟨some cvepID, [some cvnaID]⟩).2 = some e →
      tfawserr.ErrCodeEquals (some e) codes.ErrCodeClientVpnAssociationIdNotFound = false →
      tfawserr.ErrCodeEquals (some e) codes.ErrCodeClientVpnEndpointIdNotFound = false →
      waiter.ClientVpnNetworkAssociationStatus codes call cvnaID cvepID
        = ⟨.nil, "Unknown", some e⟩)
    ∧ (∀ find id, (find id).2 = some e →
      tfawserr.ErrCodeEquals (some e) codes.ErrCodeClientVpnRouteNotFound = false →
      waiter.ClientVpnRouteStatus codes find id = ⟨.nil, "Unknown", some e⟩)
    ∧ (∀ find id, (find id).2 = some e → tfresource.NotFound (some e) = false →
      waiter.SecurityGroupStatus find id = ⟨.nil, "Unknown", some e⟩)
    ∧ (∀ find id, (find id).2 = some e →
      tfawserr.ErrCodeEquals (some e) codes.ErrCodeInvalidVpcPeeringConnectionIDNotFound = false →
      waiter.VpcPeeringConnectionStatus codes find id = (⟨.nil, "Unknown", some e⟩, []))
    ∧ (∀ find gw vpc, (find gw vpc).2 = some e →
      tfawserr.ErrCodeEquals (some e) codes.InvalidVpnGatewayIDNotFound = false →
      waiter.VpnGatewayVpcAttachmentState codes find gw vpc = ⟨.nil, "Unknown", some e⟩) := by
  refine ⟨?_, ?_, ?_, ?_, ?_, ?_, ?_, ?_⟩
  · intro find id h hn
    simp [waiter.CarrierGatewayState, waiter.carrierGatewayStateUnknown, h, hn]
  · intro call id h hn
    simp [waiter.ClientVpnEndpointStatus, waiter.ClientVpnEndpointStatusUnknown, h, hn]
  · intro find id h hn
    simp [waiter.ClientVpnAuthorizationRuleStatus,
      waiter.ClientVpnAuthorizationRuleStatusUnknown, h, hn]
  · intro call cvnaID cvepID h hn1 hn2
    simp [waiter.ClientVpnNetworkAssociationStatus,
      waiter.ClientVpnNetworkAssociationStatusUnknown, h, hn1, hn2]
  · intro find id h hn
    simp [waiter.ClientVpnRouteStatus, waiter.ClientVpnRouteStatusUnknown, h, hn]
  · intro find id h hn
    simp [waiter.SecurityGroupStatus, waiter.SecurityGroupStatusUnknown, h, hn]
  · intro find id h hn
    simp [waiter.VpcPeeringConnectionStatus, waiter.vpcPeeringConnectionStatusUnknown, h, hn]
  · intro find gw vpc h hn
    simp [waiter.VpnGatewayVpcAttachmentState, waiter.attachmentStateUnknown, h, hn]

/-- C7 (witness): a throttling error from the API, which is no probe's not-found error,
comes back unchanged from each of the eight probes. -/
theorem other_lookup_errors_give_Unknown_witness :
    waiter.CarrierGatewayState tfec2.providerErrCodes
        (fun _ => (none, some (GoError.awsErr "RequestLimitExceeded" "slow down"))) "cagw-1"
      = ⟨.nil, "Unknown", some (GoError.awsErr "RequestLimitExceeded" "slow down")⟩
    ∧ waiter.ClientVpnEndpointStatus tfec2.providerErrCodes
        (fun _ => (none, some (GoError.awsErr "RequestLimitExceeded" "slow down")))
        "cvpn-endpoint-1"
      = ⟨.nil, "Unknown", some (GoError.awsErr "RequestLimitExceeded" "slow down")⟩
    ∧ waiter.ClientVpnAuthorizationRuleStatus tfec2.providerErrCodes
        (fun _ => (none, some (GoError.awsErr "RequestLimitExceeded" "slow down")))
        "cvpn-endpoint-1,10.0.0.0/16"
      = ⟨.nil, "Unknown", some (GoError.awsErr "RequestLimitExceeded" "slow down")⟩
    ∧ waiter.ClientVpnNetworkAssociationStatus tfec2.providerErrCodes
        (fun _ => (none, some (GoError.awsErr "RequestLimitExceeded" "slow down")))
        "cvpn-assoc-1" "cvpn-endpoint-1"
      = ⟨.nil, "Unknown", some (GoError.awsErr "RequestLimitExceeded" "slow down")⟩
    ∧ waiter.ClientVpnRouteStatus tfec2.providerErrCodes
        (fun _ => (none, some (GoError.awsErr "RequestLimitExceeded" "slow down")))
        "cvpn-endpoint-1,subnet-1,10.0.0.0/16"
      = ⟨.nil, "Unknown", some (GoError.awsErr "RequestLimitExceeded" "slow down")⟩
    ∧ waiter.SecurityGroupStatus
        (fun _ => (none, some (GoError.awsErr "RequestLimitExceeded" "slow down"))) "sg-1"
      = ⟨.nil, "Unknown", some (GoError.awsErr "RequestLimitExceeded" "slow down")⟩
    ∧ waiter.VpcPeeringConnectionStatus tfec2.providerErrCodes
        (fun _ => (none, some (GoError.awsErr "RequestLimitExceeded" "slow down"))) "pcx-1"
      = (⟨.nil, "Unknown", some (GoError.awsErr "RequestLimitExceeded" "slow down")⟩, [])
    ∧ waiter.VpnGatewayVpcAttachmentState tfec2.providerErrCodes
        (fun _ _ => (none, some (GoError.awsErr "RequestLimitExceeded" "slow down")))
        "vgw-1" "vpc-1"
      = ⟨.nil, "Unknown", some (GoError.awsErr "RequestLimitExceeded" "slow down")⟩ := by
  obtain ⟨h1, h2, h3, h4, h5, h6, h7, h8⟩ :=
    other_lookup_errors_give_Unknown tfec2.providerErrCodes
      (GoError.awsErr "RequestLimitExceeded" "slow down")
  exact ⟨h1 _ _ rfl (by decide), h2 _ _ rfl (by decide), h3 _ _ rfl (by decide),
    h4 _ _ _ rfl (by decide) (by decide), h5 _ _ rfl (by decide), h6 _ _ rfl (by decide),
    h7 _ _ rfl (by decide), h8 _ _ _ rfl (by decide)⟩

/-- C8: a successful lookup with no matching record is reported as absence.  Each of the
four `ClientVpn*` probes returns (nil, "NotFound", nil) when the result is nil, its list
is empty, or the list's first entry is nil; `CarrierGatewayState` and
`VpnGatewayVpcAttachmentState` return (nil, "NotFound", nil) when the finder returns a
nil record with no error. -/
theorem empty_lookup_reported_as_NotFound (codes : tfec2.ErrCodes) :
    (∀ call id,
      (call ⟨aws.StringSlice [id]⟩ = (none, none)
        ∨ ∃ res : ec2.DescribeClientVpnEndpointsOutput, call ⟨aws.StringSlice [id]⟩ = (some res, none)
          ∧ (res.ClientVpnEndpoints = [] ∨ ∃ rest, res.ClientVpnEndpoints = none :: rest)) →
      waiter.ClientVpnEndpointStatus codes call id = ⟨.nil, "NotFound", none⟩)
    ∧ (∀ find id,
      (find id = (none, none)
        ∨ ∃ res : ec2.DescribeClientVpnAuthorizationRulesOutput, find id = (some res, none)
          ∧ (res.AuthorizationRules = [] ∨ ∃ rest, res.AuthorizationRules = none :: rest)) →
      waiter.ClientVpnAuthorizationRuleStatus codes find id = ⟨.nil, "NotFound", none⟩)
    ∧ (∀ call cvnaID cvepID,
      (call ⟨some cvepID, [some cvnaID]⟩ = (none, none)
        ∨ ∃ res : ec2.DescribeClientVpnTargetNetworksOutput,
          call ⟨some cvepID, [some cvnaID]⟩ = (some res, none)
          ∧ (res.ClientVpnTargetNetworks = []
            ∨ ∃ rest, res.ClientVpnTargetNetworks = none :: rest)) →
      waiter.ClientVpnNetworkAssociationStatus codes call cvnaID cvepID
        = ⟨.nil, "NotFound", none⟩)
    ∧ (∀ find id,
      (find id = (none, none)
        ∨ ∃ res : ec2.DescribeClientVpnRoutesOutput, find id = (some res, none)
          ∧ (res.Routes = [] ∨ ∃ rest, res.Routes = none :: rest)) →
      waiter.ClientVpnRouteStatus codes find id = ⟨.nil, "NotFound", none⟩)
    ∧ (∀ find id, find id = (none, none) →
      waiter.CarrierGatewayState codes find id = ⟨.nil, "NotFound", none⟩)
    ∧ (∀ find gw vpc, find gw vpc = (none, none) →
      waiter.VpnGatewayVpcAttachmentState codes find gw vpc = ⟨.nil, "NotFound", none⟩) := by
  refine ⟨?_, ?_, ?_, ?_, ?_, ?_⟩
  · intro call id h
    rcases h with h | ⟨res, h, hl | ⟨rest, hl⟩⟩
    · simp [waiter.ClientVpnEndpointStatus, waiter.ClientVpnEndpointStatusNotFound, h,
        tfawserr.ErrCodeEquals]
    · simp [waiter.ClientVpnEndpointStatus, waiter.ClientVpnEndpointStatusNotFound, h, hl,
        tfawserr.ErrCodeEquals]
    · simp [waiter.ClientVpnEndpointStatus, waiter.ClientVpnEndpointStatusNotFound, h, hl,
        tfawserr.ErrCodeEquals]
  · intro find id h
    rcases h with h | ⟨res, h, hl | ⟨rest, hl⟩⟩
    · simp [waiter.ClientVpnAuthorizationRuleStatus,
        waiter.ClientVpnAuthorizationRuleStatusNotFound, h, tfawserr.ErrCodeEquals]
    · simp [waiter.ClientVpnAuthorizationRuleStatus,
        waiter.ClientVpnAuthorizationRuleStatusNotFound, h, hl, tfawserr.ErrCodeEquals]
    · simp [waiter.ClientVpnAuthorizationRuleStatus,
        waiter.ClientVpnAuthorizationRuleStatusNotFound, h, hl, tfawserr.ErrCodeEquals]
  · intro call cvnaID cvepID h
    rcases h with h | ⟨res, h, hl | ⟨rest, hl⟩⟩
    · simp [waiter.ClientVpnNetworkAssociationStatus,
        waiter.ClientVpnNetworkAssociationStatusNotFound, h, tfawserr.ErrCodeEquals]
    · simp [waiter.ClientVpnNetworkAssociationStatus,
        waiter.ClientVpnNetworkAssociationStatusNotFound, h, hl, tfawserr.ErrCodeEquals]
    · simp [waiter.ClientVpnNetworkAssociationStatus,
        waiter.ClientVpnNetworkAssociationStatusNotFound, h, hl, tfawserr.ErrCodeEquals]
  · intro find id h
    rcases h with h | ⟨res, h, hl | ⟨rest, hl⟩⟩
    · simp [waiter.ClientVpnRouteStatus, waiter.ClientVpnRouteStatusNotFound, h,
        tfawserr.ErrCodeEquals]
    · simp [waiter.ClientVpnRouteStatus, waiter.ClientVpnRouteStatusNotFound, h, hl,
        tfawserr.ErrCodeEquals]
    · simp [waiter.ClientVpnRouteStatus, waiter.ClientVpnRouteStatusNotFound, h, hl,
        tfawserr.ErrCodeEquals]
  · intro find id h
    simp [waiter.CarrierGatewayState, waiter.carrierGatewayStateNotFound, h,
      tfawserr.ErrCodeEquals]
  · intro find gw vpc h
    simp [waiter.VpnGatewayVpcAttachmentState, waiter.attachmentStateNotFound, h,
      tfawserr.ErrCodeEquals]

/-- C8 (witness): a nil result, an empty list, and lists that start with a nil entry. -/
theorem empty_lookup_reported_as_NotFound_witness :
    waiter.ClientVpnEndpointStatus tfec2.providerErrCodes (fun _ => (none, none))
        "cvpn-endpoint-1" = ⟨.nil, "NotFound", none⟩
    ∧ waiter.ClientVpnAuthorizationRuleStatus tfec2.providerErrCodes
        (fun _ => (some ⟨[]⟩, none)) "cvpn-endpoint-1,10.0.0.0/16" = ⟨.nil, "NotFound", none⟩
    ∧ waiter.ClientVpnNetworkAssociationStatus tfec2.providerErrCodes
        (fun _ => (some ⟨[none]⟩, none)) "cvpn-assoc-1" "cvpn-endpoint-1"
      = ⟨.nil, "NotFound", none⟩
    ∧ waiter.ClientVpnRouteStatus tfec2.providerErrCodes
        (fun _ => (some ⟨[none, some ⟨some "10.0.0.0/16", none⟩]⟩, none))
        "cvpn-endpoint-1,subnet-1,10.0.0.0/16" = ⟨.nil, "NotFound", none⟩
    ∧ waiter.CarrierGatewayState tfec2.providerErrCodes (fun _ => (none, none)) "cagw-1"
      = ⟨.nil, "NotFound", none⟩
    ∧ waiter.VpnGatewayVpcAttachmentState tfec2.providerErrCodes (fun _ _ => (none, none))
        "vgw-1" "vpc-1" = ⟨.nil, "NotFound", none⟩ := by
  obtain ⟨h1, h2, h3, h4, h5, h6⟩ := empty_lookup_reported_as_NotFound tfec2.providerErrCodes
  exact ⟨h1 (fun _ => (none, none)) "cvpn-endpoint-1" (Or.inl rfl),
    h2 (fun _ => (some ⟨[]⟩, none)) "cvpn-endpoint-1,10.0.0.0/16"
      (Or.inr ⟨_, rfl, Or.inl rfl⟩),
    h3 (fun _ => (some ⟨[none]⟩, none)) "cvpn-assoc-1" "cvpn-endpoint-1"
      (Or.inr ⟨_, rfl, Or.inr ⟨_, rfl⟩⟩),
    h4 (fun _ => (some ⟨[none, some ⟨some "10.0.0.0/16", none⟩]⟩, none))
      "cvpn-endpoint-1,subnet-1,10.0.0.0/16" (Or.inr ⟨_, rfl, Or.inr ⟨_, rfl⟩⟩),
    h5 (fun _ => (none, none)) "cagw-1" rfl,
    h6 (fun _ _ => (none, none)) "vgw-1" "vpc-1" rfl⟩

/-- C9 (failing input): `RouteTableAssociationState`, given a successful lookup that
returns an association whose `AssociationState` is unset, dereferences the nil
sub-structure and panics instead of returning a result. -/
theorem RouteTableAssociationState_unset_AssociationState_panics :
    waiter.RouteTableAssociationState
        (fun _ => (some ⟨some "rtbassoc-1", none⟩, none)) "rtbassoc-1"
      = .error GoPanic.nilDereference := by
  rfl

/-- C10: for every poll specification with a configured pending set, and every probe
whose first invocation returns, with a nil error, a status outside both the target set
and the pending set, the driver (given any fuel at all) stops after exactly one probe
invocation with an unexpected-status error, which is not a timeout error. -/
theorem StartWait_fast_fail {α : Type} (spec : PollDriver.PollSpec)
    (probe : Nat → RefreshResult α) (pending : List String) (fuel : Nat)
    (hpending : spec.pending = some pending)
    (herr : (probe 0).err = none)
    (htarget : (probe 0).status ∉ spec.target)
    (hnotpending : (probe 0).status ∉ pending) :
    PollDriver.StartWait spec probe (fuel + 1)
      = some (.failed (.unexpectedStatus (probe 0).status (probe 0).payload), 1)
    ∧ ∀ status payload n,
      PollDriver.StartWait spec probe (fuel + 1) ≠ some (.failed (.timeout status payload), n) := by
  have h : PollDriver.StartWait spec probe (fuel + 1)
      = some (.failed (.unexpectedStatus (probe 0).status (probe 0).payload), 1) := by
    simp [PollDriver.StartWait, PollDriver.tick, herr, htarget, hpending, hnotpending]
  refine ⟨h, ?_⟩
  intro status payload n
  rw [h]
  simp

/-- C10 (witness): pending set {"A", "B"}, target set {"C"}, and a probe that always
returns the status "D". -/
theorem StartWait_fast_fail_witness :
    PollDriver.StartWait ⟨["C"], some ["A", "B"], 600, 10, none, none⟩
        (fun _ => (⟨.of "payload", "D", none⟩ : RefreshResult String)) (0 + 1)
      = some (.failed (.unexpectedStatus "D" (.of "payload")), 1)
    ∧ ∀ status payload n,
      PollDriver.StartWait ⟨["C"], some ["A", "B"], 600, 10, none, none⟩
        (fun _ => (⟨.of "payload", "D", none⟩ : RefreshResult String)) (0 + 1)
        ≠ some (.failed (.timeout status payload), n) :=
  StartWait_fast_fail ⟨["C"], some ["A", "B"], 600, 10, none, none⟩
    (fun _ => (⟨.of "payload", "D", none⟩ : RefreshResult String)) ["A", "B"] 0 rfl rfl
    (by decide) (by decide)

/-- C13: every probe of `waiter/status.go`, on a lookup error `e` that it does not
classify as not-found, returns a nil payload and exactly `e` as its error (with the
status "Unknown", "false" or "" that the probe uses on that branch); in particular
`LocalGatewayRouteTableVpcAssociationState` and the two `TransitGateway*` probes, which
classify no error as not-found, propagate every lookup error. -/
theorem lookup_errors_propagated (codes : tfec2.ErrCodes) (e : GoError) :
    (∀ find id, (find id).2 = some e →
      tfawserr.ErrCodeEquals (some e) codes.ErrCodeInvalidCarrierGatewayIDNotFound = false →
      waiter.CarrierGatewayState codes find id = ⟨.nil, "Unknown", some e⟩)
    ∧ (∀ call id, (call ⟨aws.StringSlice [id]⟩).2 = some e →
      waiter.LocalGatewayRouteTableVpcAssociationState call id = .ok ⟨.nil, "", some e⟩)
    ∧ (∀ call id, (call ⟨aws.StringSlice [id]⟩).2 = some e →
      tfawserr.ErrCodeEquals (some e) codes.ErrCodeClientVpnEndpointIdNotFound = false →
      waiter.ClientVpnEndpointStatus codes call id = ⟨.nil, "Unknown", some e⟩)
    ∧ (∀ find id, (find id).2 = some e →
      tfawserr.ErrCodeEquals (some e) codes.ErrCodeClientVpnAuthorizationRuleNotFound = false →
      waiter.ClientVpnAuthorizationRuleStatus codes find id = ⟨.nil, "Unknown", some e⟩)
    ∧ (∀ call cvnaID cvepID, (call ⟨some cvepID, [some cvnaID]⟩).2 = some e →
      tfawserr.ErrCodeEquals (some e) codes.ErrCodeClientVpnAssociationIdNotFound = false →
      tfawserr.ErrCodeEquals (some e) codes.ErrCodeClientVpnEndpointIdNotFound = false →
      waiter.ClientVpnNetworkAssociationStatus codes call cvnaID cvepID
        = ⟨.nil, "Unknown", some e⟩)
    ∧ (∀ find id, (find id).2 = some e →
      tfawserr.ErrCodeEquals (some e) codes.ErrCodeClientVpnRouteNotFound = false →
      waiter.ClientVpnRouteStatus codes find id = ⟨.nil, "Unknown", some e⟩)
    ∧ (∀ find toName id, (find id).2 = some e →
      tfawserr.ErrCodeEquals (some e) codes.ErrCodeInvalidInstanceIDNotFound = false →
      waiter.InstanceIamInstanceProfile codes find toName id = ⟨.nil, "", some e⟩)
    ∧ (∀ find rtb dest, (find rtb dest).2 = some e → tfresource.NotFound (some e) = false →
      waiter.RouteStatus find rtb dest = ⟨.nil, "", some e⟩)
    ∧ (∀ find id, (find id).2 = some e → tfresource.NotFound (some e) = false →
      waiter.RouteTableStatus find id = ⟨.nil, "", some e⟩)
    ∧ (∀ find id, (find id).2 = some e → tfresource.NotFound (some e) = false →
      waiter.RouteTableAssociationState find id = .ok ⟨.nil, "", some e⟩)
    ∧ (∀ find id, (find id).2 = some e → tfresource.NotFound (some e) = false →
      waiter.SecurityGroupStatus find id = ⟨.nil, "Unknown", some e⟩)
    ∧ (∀ find id, (find id).2 = some e →
      tfawserr.ErrCodeEquals (some e) codes.ErrCodeInvalidSubnetIDNotFound = false →
      waiter.SubnetMapCustomerOwnedIpOnLaunch codes find id = ⟨.nil, "false", some e⟩)
    ∧ (∀ find id, (find id).2 = some e →
      tfawserr.ErrCodeEquals (some e) codes.ErrCodeInvalidSubnetIDNotFound = false →
      waiter.SubnetMapPublicIpOnLaunch codes find id = ⟨.nil, "false", some e⟩)
    ∧ (∀ find rtb pl, (find rtb pl).2 = some e →
      waiter.TransitGatewayPrefixListReferenceState find rtb pl = ⟨.nil, "", some e⟩)
    ∧ (∀ find rtb att, (find rtb att).2 = some e →
      waiter.TransitGatewayRouteTablePropagationState find rtb att = ⟨.nil, "", some e⟩)
    ∧ (∀ find id attr, (find id attr).2 = some e →
      tfawserr.ErrCodeEquals (some e) codes.ErrCodeInvalidVpcIDNotFound = false →
      waiter.VpcAttribute codes find id attr = ⟨.nil, "", some e⟩)
    ∧ (∀ find id, (find id).2 = some e →
      tfawserr.ErrCodeEquals (some e) codes.ErrCodeInvalidVpcPeeringConnectionIDNotFound
        = false →
      waiter.VpcPeeringConnectionStatus codes find id = (⟨.nil, "Unknown", some e⟩, []))
    ∧ (∀ find gw vpc, (find gw vpc).2 = some e →
      tfawserr.ErrCodeEquals (some e) codes.InvalidVpnGatewayIDNotFound = false →
      waiter.VpnGatewayVpcAttachmentState codes find gw vpc = ⟨.nil, "Unknown", some e⟩)
    ∧ (∀ find id, (find id).2 = some e → tfresource.NotFound (some e) = false →
      waiter.HostState find id = .ok ⟨.nil, "", some e⟩)
    ∧ (∀ find id, (find id).2 = some e → tfresource.NotFound (some e) = false →
      waiter.ManagedPrefixListState find id = .ok ⟨.nil, "", some e⟩)
    ∧ (∀ find id, (find id).2 = some e → tfresource.NotFound (some e) = false →
      waiter.VpcEndpointState find id = .ok ⟨.nil, "", some e⟩)
    ∧ (∀ find ep rtb, find ep rtb = some e → tfresource.NotFound (some e) = false →
      waiter.VpcEndpointRouteTableAssociationStatus find ep rtb = ⟨.nil, "", some e⟩) := by
  refine ⟨?_, ?_, ?_, ?_, ?_, ?_, ?_, ?_, ?_, ?_, ?_, ?_, ?_, ?_, ?_, ?_, ?_, ?_, ?_, ?_, ?_, ?_⟩
  · intro find id h hn
    simp [waiter.CarrierGatewayState, waiter.carrierGatewayStateUnknown, h, hn]
  · intro call id h
    simp [waiter.LocalGatewayRouteTableVpcAssociationState, h]
  · intro call id h hn
    simp [waiter.ClientVpnEndpointStatus, waiter.ClientVpnEndpointStatusUnknown, h, hn]
  · intro find id h hn
    simp [waiter.ClientVpnAuthorizationRuleStatus,
      waiter.ClientVpnAuthorizationRuleStatusUnknown, h, hn]
  · intro call cvnaID cvepID h hn1 hn2
    simp [waiter.ClientVpnNetworkAssociationStatus,
      waiter.ClientVpnNetworkAssociationStatusUnknown, h, hn1, hn2]
  · intro find id h hn
    simp [waiter.ClientVpnRouteStatus, waiter.ClientVpnRouteStatusUnknown, h, hn]
  · intro find toName id h hn
    simp [waiter.InstanceIamInstanceProfile, h, hn]
  · intro find rtb dest h hn
    simp [waiter.RouteStatus, h, hn]
  · intro find id h hn
    simp [waiter.RouteTableStatus, h, hn]
  · intro find id h hn
    simp [waiter.RouteTableAssociationState, h, hn]
  · intro find id h hn
    simp [waiter.SecurityGroupStatus, waiter.SecurityGroupStatusUnknown, h, hn]
  · intro find id h hn
    simp [waiter.SubnetMapCustomerOwnedIpOnLaunch, h, hn]
  · intro find id h hn
    simp [waiter.SubnetMapPublicIpOnLaunch, h, hn]
  · intro find rtb pl h
    simp [waiter.TransitGatewayPrefixListReferenceState, h]
  · intro find rtb att h
    simp [waiter.TransitGatewayRouteTablePropagationState, h]
  · intro find id attr h hn
    simp [waiter.VpcAttribute, h, hn]
  · intro find id h hn
    simp [waiter.VpcPeeringConnectionStatus, waiter.vpcPeeringConnectionStatusUnknown, h, hn]
  · intro find gw vpc h hn
    simp [waiter.VpnGatewayVpcAttachmentState, waiter.attachmentStateUnknown, h, hn]
  · intro find id h hn
    simp [waiter.HostState, h, hn]
  · intro find id h hn
    simp [waiter.ManagedPrefixListState, h, hn]
  · intro find id h hn
    simp [waiter.VpcEndpointState, h, hn]
  · intro find ep rtb h hn
    simp [waiter.VpcEndpointRouteTableAssociationStatus, h, hn]

/-- C13 (witness): an access-denied error from the API, which no probe classifies as
not-found, comes back unchanged with a nil payload from each probe. -/
theorem lookup_errors_propagated_witness :
    waiter.CarrierGatewayState tfec2.providerErrCodes
        (fun _ => (none, some (GoError.awsErr "UnauthorizedOperation" "denied"))) "cagw-1"
      = ⟨.nil, "Unknown", some (GoError.awsErr "UnauthorizedOperation" "denied")⟩
    ∧ waiter.LocalGatewayRouteTableVpcAssociationState
        (fun _ => (none, some (GoError.awsErr "UnauthorizedOperation" "denied")))
        "lgw-vpc-assoc-1"
      = .ok ⟨.nil, "", some (GoError.awsErr "UnauthorizedOperation" "denied")⟩
    ∧ waiter.ClientVpnEndpointStatus tfec2.providerErrCodes
        (fun _ => (none, some (GoError.awsErr "UnauthorizedOperation" "denied")))
        "cvpn-endpoint-1"
      = ⟨.nil, "Unknown", some (GoError.awsErr "UnauthorizedOperation" "denied")⟩
    ∧ waiter.ClientVpnAuthorizationRuleStatus tfec2.providerErrCodes
        (fun _ => (none, some (GoError.awsErr "UnauthorizedOperation" "denied")))
        "cvpn-endpoint-1,10.0.0.0/16"
      = ⟨.nil, "Unknown", some (GoError.awsErr "UnauthorizedOperation" "denied")⟩
    ∧ waiter.ClientVpnNetworkAssociationStatus tfec2.providerErrCodes
        (fun _ => (none, some (GoError.awsErr "UnauthorizedOperation" "denied")))
        "cvpn-assoc-1" "cvpn-endpoint-1"
      = ⟨.nil, "Unknown", some (GoError.awsErr "UnauthorizedOperation" "denied")⟩
    ∧ waiter.ClientVpnRouteStatus tfec2.providerErrCodes
        (fun _ => (none, some (GoError.awsErr "UnauthorizedOperation" "denied")))
        "cvpn-endpoint-1,subnet-1,10.0.0.0/16"
      = ⟨.nil, "Unknown", some (GoError.awsErr "UnauthorizedOperation" "denied")⟩
    ∧ waiter.InstanceIamInstanceProfile tfec2.providerErrCodes
        (fun _ => (none, some (GoError.awsErr "UnauthorizedOperation" "denied")))
        (fun arn => (arn, none)) "i-1"
      = ⟨.nil, "", some (GoError.awsErr "UnauthorizedOperation" "denied")⟩
    ∧ waiter.RouteStatus
        (fun _ _ => (none, some (GoError.awsErr "UnauthorizedOperation" "denied")))
        "rtb-1" "10.0.0.0/16"
      = ⟨.nil, "", some (GoError.awsErr "UnauthorizedOperation" "denied")⟩
    ∧ waiter.RouteTableStatus
        (fun _ => (none, some (GoError.awsErr "UnauthorizedOperation" "denied"))) "rtb-1"
      = ⟨.nil, "", some (GoError.awsErr "UnauthorizedOperation" "denied")⟩
    ∧ waiter.RouteTableAssociationState
        (fun _ => (none, some (GoError.awsErr "UnauthorizedOperation" "denied"))) "rtbassoc-1"
      = .ok ⟨.nil, "", some (GoError.awsErr "UnauthorizedOperation" "denied")⟩
    ∧ waiter.SecurityGroupStatus
        (fun _ => (none, some (GoError.awsErr "UnauthorizedOperation" "denied"))) "sg-1"
      = ⟨.nil, "Unknown", some (GoError.awsErr "UnauthorizedOperation" "denied")⟩
    ∧ waiter.SubnetMapCustomerOwnedIpOnLaunch tfec2.providerErrCodes
        (fun _ => (none, some (GoError.awsErr "UnauthorizedOperation" "denied"))) "subnet-1"
      = ⟨.nil, "false", some (GoError.awsErr "UnauthorizedOperation" "denied")⟩
    ∧ waiter.SubnetMapPublicIpOnLaunch tfec2.providerErrCodes
        (fun _ => (none, some (GoError.awsErr "UnauthorizedOperation" "denied"))) "subnet-1"
      = ⟨.nil, "false", some (GoError.awsErr "UnauthorizedOperation" "denied")⟩
    ∧ waiter.TransitGatewayPrefixListReferenceState
        (fun _ _ => (none, some (GoError.awsErr "UnauthorizedOperation" "denied")))
        "tgw-rtb-1" "pl-1"
      = ⟨.nil, "", some (GoError.awsErr "UnauthorizedOperation" "denied")⟩
    ∧ waiter.TransitGatewayRouteTablePropagationState
        (fun _ _ => (none, some (GoError.awsErr "UnauthorizedOperation" "denied")))
        "tgw-rtb-1" "tgw-attach-1"
      = ⟨.nil, "", some (GoError.awsErr "UnauthorizedOperation" "denied")⟩
    ∧ waiter.VpcAttribute tfec2.providerErrCodes
        (fun _ _ => (none, some (GoError.awsErr "UnauthorizedOperation" "denied")))
        "vpc-1" "enableDnsSupport"
      = ⟨.nil, "", some (GoError.awsErr "UnauthorizedOperation" "denied")⟩
    ∧ waiter.VpcPeeringConnectionStatus tfec2.providerErrCodes
        (fun _ => (none, some (GoError.awsErr "UnauthorizedOperation" "denied"))) "pcx-1"
      = (⟨.nil, "Unknown", some (GoError.awsErr "UnauthorizedOperation" "denied")⟩, [])
    ∧ waiter.VpnGatewayVpcAttachmentState tfec2.providerErrCodes
        (fun _ _ => (none, some (GoError.awsErr "UnauthorizedOperation" "denied")))
        "vgw-1" "vpc-1"
      = ⟨.nil, "Unknown", some (GoError.awsErr "UnauthorizedOperation" "denied")⟩
    ∧ waiter.HostState
        (fun _ => (none, some (GoError.awsErr "UnauthorizedOperation" "denied"))) "h-1"
      = .ok ⟨.nil, "", some (GoError.awsErr "UnauthorizedOperation" "denied")⟩
    ∧ waiter.ManagedPrefixListState
        (fun _ => (none, some (GoError.awsErr "UnauthorizedOperation" "denied"))) "pl-1"
      = .ok ⟨.nil, "", some (GoError.awsErr "UnauthorizedOperation" "denied")⟩
    ∧ waiter.VpcEndpointState
        (fun _ => (none, some (GoError.awsErr "UnauthorizedOperation" "denied"))) "vpce-1"
      = .ok ⟨.nil, "", some (GoError.awsErr "UnauthorizedOperation" "denied")⟩
    ∧ waiter.VpcEndpointRouteTableAssociationStatus
        (fun _ _ => some (GoError.awsErr "UnauthorizedOperation" "denied")) "vpce-1" "rtb-1"
      = ⟨.nil, "", some (GoError.awsErr "UnauthorizedOperation" "denied")⟩ := by
  obtain ⟨h1, h2, h3, h4, h5, h6, h7, h8, h9, h10, h11, h12, h13, h14, h15, h16, h17, h18,
    h19, h20, h21, h22⟩ := lookup_errors_propagated tfec2.providerErrCodes
      (GoError.awsErr "UnauthorizedOperation" "denied")
  exact ⟨h1 _ _ rfl (by decide), h2 _ _ rfl, h3 _ _ rfl (by decide), h4 _ _ rfl (by decide),
    h5 _ _ _ rfl (by decide) (by decide), h6 _ _ rfl (by decide), h7 _ _ _ rfl (by decide),
    h8 _ _ _ rfl (by decide), h9 _ _ rfl (by decide), h10 _ _ rfl (by decide),
    h11 _ _ rfl (by decide), h12 _ _ rfl (by decide), h13 _ _ rfl (by decide),
    h14 _ _ _ rfl, h15 _ _ _ rfl, h16 _ _ _ rfl (by decide), h17 _ _ rfl (by decide),
    h18 _ _ _ rfl (by decide), h19 _ _ rfl (by decide), h20 _ _ rfl (by decide),
    h21 _ _ rfl (by decide), h22 _ _ _ rfl (by decide)⟩

/-- C14: `ClientVpnAuthorizationRuleStatus` and `ClientVpnRouteStatus` check multiplicity
before extracting a status: on a successful lookup whose list has n >= 2 entries with a
non-nil first entry, the probe returns a nil payload, "Unknown" and the error
"internal error: found n results for Client VPN authorization rule (<id>) status, need 1"
(respectively "... Client VPN route (<id>) ..."), whatever status the first entry
carries. -/
theorem ClientVpn_multiplicity_error_message (codes : tfec2.ErrCodes) :
    (∀ find id (rules : List (Option ec2.AuthorizationRule)) (rule : ec2.AuthorizationRule),
      find id = (some ⟨rules⟩, none) → rules.head? = some (some rule) → 2 ≤ rules.length →
      waiter.ClientVpnAuthorizationRuleStatus codes find id
        = ⟨.nil, "Unknown", some (GoError.errorf ("internal error: found "
            ++ toString rules.length ++ " results for Client VPN authorization rule (" ++ id
            ++ ") status, need 1"))⟩)
    ∧ (∀ find id (routes : List (Option ec2.ClientVpnRoute)) (route : ec2.ClientVpnRoute),
      find id = (some ⟨routes⟩, none) → routes.head? = some (some route) → 2 ≤ routes.length →
      waiter.ClientVpnRouteStatus codes find id
        = ⟨.nil, "Unknown", some (GoError.errorf ("internal error: found "
            ++ toString routes.length ++ " results for Client VPN route (" ++ id
            ++ ") status, need 1"))⟩) := by
  refine ⟨?_, ?_⟩
  · intro find id rules rule h hhead hlen
    match rules, hhead, hlen with
    | some r :: second :: rest, hhead, _ =>
      simp [waiter.ClientVpnAuthorizationRuleStatus,
        waiter.ClientVpnAuthorizationRuleStatusUnknown, h, tfawserr.ErrCodeEquals]
  · intro find id routes route h hhead hlen
    match routes, hhead, hlen with
    | some r :: second :: rest, hhead, _ =>
      simp [waiter.ClientVpnRouteStatus, waiter.ClientVpnRouteStatusUnknown, h,
        tfawserr.ErrCodeEquals]

/-- C14 (witness): three authorization rules and two routes, the first entry active. -/
theorem ClientVpn_multiplicity_error_message_witness :
    waiter.ClientVpnAuthorizationRuleStatus tfec2.providerErrCodes
        (fun _ => (some ⟨[some ⟨some "10.0.0.0/16", some ⟨some "active", none⟩⟩,
                          some ⟨some "10.0.0.0/16", none⟩, none]⟩, none))
        "cvpn-endpoint-1,10.0.0.0/16"
      = ⟨.nil, "Unknown", some (GoError.errorf
          "internal error: found 3 results for Client VPN authorization rule (cvpn-endpoint-1,10.0.0.0/16) status, need 1")⟩
    ∧ waiter.ClientVpnRouteStatus tfec2.providerErrCodes
        (fun _ => (some ⟨[some ⟨some "10.0.0.0/16", some ⟨some "active", none⟩⟩,
                          some ⟨some "10.0.0.0/16", some ⟨some "deleting", none⟩⟩]⟩, none))
        "cvpn-endpoint-1,subnet-1,10.0.0.0/16"
      = ⟨.nil, "Unknown", some (GoError.errorf
          "internal error: found 2 results for Client VPN route (cvpn-endpoint-1,subnet-1,10.0.0.0/16) status, need 1")⟩ := by
  obtain ⟨h1, h2⟩ := ClientVpn_multiplicity_error_message tfec2.providerErrCodes
  exact ⟨h1 _ "cvpn-endpoint-1,10.0.0.0/16"
      [some ⟨some "10.0.0.0/16", some ⟨some "active", none⟩⟩, some ⟨some "10.0.0.0/16", none⟩,
        none]
      ⟨some "10.0.0.0/16", some ⟨some "active", none⟩⟩ rfl rfl (by decide),
    h2 _ "cvpn-endpoint-1,subnet-1,10.0.0.0/16"
      [some ⟨some "10.0.0.0/16", some ⟨some "active", none⟩⟩,
        some ⟨some "10.0.0.0/16", some ⟨some "deleting", none⟩⟩]
      ⟨some "10.0.0.0/16", some ⟨some "active", none⟩⟩ rfl rfl (by decide)⟩

/-- C15: native states are echoed verbatim.  For `CarrierGatewayState`,
`VpcPeeringConnectionStatus` (with a present `Status`), `VpnGatewayVpcAttachmentState`,
`HostState`, `ManagedPrefixListState` and `VpcEndpointState`, whenever the lookup
succeeds with a record whose state string is not one of the probe's reinterpreted codes
("deleted" for carrier gateways; "failed", "deleted", "expired", "rejected" for peering
connections), the probe returns that same record as payload, that same state string as
status, and a nil error. -/
theorem native_state_echoed_verbatim (codes : tfec2.ErrCodes) :
    (∀ find id (cg : ec2.CarrierGateway), find id = (some cg, none) →
      aws.StringValue cg.State ≠ "deleted" →
      waiter.CarrierGatewayState codes find id
        = ⟨.of (some cg), aws.StringValue cg.State, none⟩)
    ∧ (∀ find id (pc : ec2.VpcPeeringConnection) (st : ec2.VpcPeeringConnectionStateReason),
      find id = (some pc, none) → pc.Status = some st →
      aws.StringValue st.Code ≠ "failed" → aws.StringValue st.Code ≠ "deleted" →
      aws.StringValue st.Code ≠ "expired" → aws.StringValue st.Code ≠ "rejected" →
      waiter.VpcPeeringConnectionStatus codes find id
        = (⟨.of (some pc), aws.StringValue st.Code, none⟩, []))
    ∧ (∀ find gw vpc (a : ec2.VpcAttachment), find gw vpc = (some a, none) →
      waiter.VpnGatewayVpcAttachmentState codes find gw vpc
        = ⟨.of (some a), aws.StringValue a.State, none⟩)
    ∧ (∀ find id (host : ec2.Host), find id = (some host, none) →
      waiter.HostState find id = .ok ⟨.of (some host), aws.StringValue host.State, none⟩)
    ∧ (∀ find id (pl : ec2.ManagedPrefixList), find id = (some pl, none) →
      waiter.ManagedPrefixListState find id
        = .ok ⟨.of (some pl), aws.StringValue pl.State, none⟩)
    ∧ (∀ find id (ep : ec2.VpcEndpoint), find id = (some ep, none) →
      waiter.VpcEndpointState find id
        = .ok ⟨.of (some ep), aws.StringValue ep.State, none⟩) := by
  refine ⟨?_, ?_, ?_, ?_, ?_, ?_⟩
  · intro find id cg h hs
    simp [waiter.CarrierGatewayState, h, hs, tfawserr.ErrCodeEquals,
      ec2.CarrierGatewayStateDeleted]
  · intro find id pc st h hst h1 h2 h3 h4
    simp [waiter.VpcPeeringConnectionStatus, h, hst, h1, h2, h3, h4, tfawserr.ErrCodeEquals,
      ec2.VpcPeeringConnectionStateReasonCodeFailed,
      ec2.VpcPeeringConnectionStateReasonCodeDeleted,
      ec2.VpcPeeringConnectionStateReasonCodeExpired,
      ec2.VpcPeeringConnectionStateReasonCodeRejected]
  · intro find gw vpc a h
    simp [waiter.VpnGatewayVpcAttachmentState, h, tfawserr.ErrCodeEquals]
  · intro find id host h
    simp [waiter.HostState, h, tfresource.NotFound]
  · intro find id pl h
    simp [waiter.ManagedPrefixListState, h, tfresource.NotFound]
  · intro find id ep h
    simp [waiter.VpcEndpointState, h, tfresource.NotFound]

/-- C15 (witness): one record with a native state for each of the six probes. -/
theorem native_state_echoed_verbatim_witness :
    waiter.CarrierGatewayState tfec2.providerErrCodes
        (fun _ => (some ⟨some "cagw-1", some "pending"⟩, none)) "cagw-1"
      = ⟨.of (some ⟨some "cagw-1", some "pending"⟩), "pending", none⟩
    ∧ waiter.VpcPeeringConnectionStatus tfec2.providerErrCodes
        (fun _ => (some ⟨some "pcx-1", some ⟨some "pending-acceptance", none⟩⟩, none)) "pcx-1"
      = (⟨.of (some ⟨some "pcx-1", some ⟨some "pending-acceptance", none⟩⟩),
          "pending-acceptance", none⟩, [])
    ∧ waiter.VpnGatewayVpcAttachmentState tfec2.providerErrCodes
        (fun _ _ => (some ⟨some "vpc-1", some "attaching"⟩, none)) "vgw-1" "vpc-1"
      = ⟨.of (some ⟨some "vpc-1", some "attaching"⟩), "attaching", none⟩
    ∧ waiter.HostState (fun _ => (some ⟨some "h-1", some "available"⟩, none)) "h-1"
      = .ok ⟨.of (some ⟨some "h-1", some "available"⟩), "available", none⟩
    ∧ waiter.ManagedPrefixListState
        (fun _ => (some ⟨some "pl-1", some "create-complete"⟩, none)) "pl-1"
      = .ok ⟨.of (some ⟨some "pl-1", some "create-complete"⟩), "create-complete", none⟩
    ∧ waiter.VpcEndpointState (fun _ => (some ⟨some "vpce-1", some "Deleting"⟩, none)) "vpce-1"
      = .ok ⟨.of (some ⟨some "vpce-1", some "Deleting"⟩), "Deleting", none⟩ := by
  obtain ⟨h1, h2, h3, h4, h5, h6⟩ := native_state_echoed_verbatim tfec2.providerErrCodes
  exact ⟨h1 _ "cagw-1" ⟨some "cagw-1", some "pending"⟩ rfl (by decide),
    h2 _ "pcx-1" ⟨some "pcx-1", some ⟨some "pending-acceptance", none⟩⟩
      ⟨some "pending-acceptance", none⟩ rfl rfl (by decide) (by decide) (by decide)
      (by decide),
    h3 _ "vgw-1" "vpc-1" ⟨some "vpc-1", some "attaching"⟩ rfl,
    h4 _ "h-1" ⟨some "h-1", some "available"⟩ rfl,
    h5 _ "pl-1" ⟨some "pl-1", some "create-complete"⟩ rfl,
    h6 _ "vpce-1" ⟨some "vpce-1", some "Deleting"⟩ rfl⟩

/-- The scan returns only an entry of the list, and only one with the requested ID. -/
theorem LocalGateway_scan_some (id : String)
    (entries : List (Option ec2.LocalGatewayRouteTableVpcAssociation))
    (a : ec2.LocalGatewayRouteTableVpcAssociation)
    (h : waiter.LocalGatewayRouteTableVpcAssociationState.scan id entries = some a) :
    some a ∈ entries ∧ aws.StringValue a.LocalGatewayRouteTableVpcAssociationId = id := by
  induction entries with
  | nil => simp [waiter.LocalGatewayRouteTableVpcAssociationState.scan] at h
  | cons x rest ih =>
    cases x with
    | none =>
      simp only [waiter.LocalGatewayRouteTableVpcAssociationState.scan] at h
      exact ⟨List.mem_cons_of_mem _ (ih h).1, (ih h).2⟩
    | some b =>
      simp only [waiter.LocalGatewayRouteTableVpcAssociationState.scan] at h
      by_cases hb : aws.StringValue b.LocalGatewayRouteTableVpcAssociationId = id
      · rw [if_pos hb] at h
        cases h
        exact ⟨List.mem_cons_self _ _, hb⟩
      · rw [if_neg hb] at h
        exact ⟨List.mem_cons_of_mem _ (ih h).1, (ih h).2⟩

/-- The scan skips a prefix of nil entries and entries with other IDs and stops at the
first entry with the requested ID. -/
theorem LocalGateway_scan_first (id : String)
    (before after : List (Option ec2.LocalGatewayRouteTableVpcAssociation))
    (a : ec2.LocalGatewayRouteTableVpcAssociation)
    (hbefore : ∀ b, some b ∈ before →
      aws.StringValue b.LocalGatewayRouteTableVpcAssociationId ≠ id)
    (ha : aws.StringValue a.LocalGatewayRouteTableVpcAssociationId = id) :
    waiter.LocalGatewayRouteTableVpcAssociationState.scan id (before ++ some a :: after)
      = some a := by
  induction before with
  | nil => simp [waiter.LocalGatewayRouteTableVpcAssociationState.scan, ha]
  | cons x rest ih =>
    have hrest : ∀ b, some b ∈ rest →
        aws.StringValue b.LocalGatewayRouteTableVpcAssociationId ≠ id :=
      fun b hb => hbefore b (List.mem_cons_of_mem _ hb)
    cases x with
    | none =>
      simpa [waiter.LocalGatewayRouteTableVpcAssociationState.scan] using ih hrest
    | some b =>
      have hb := hbefore b (List.mem_cons_self _ _)
      simpa [waiter.LocalGatewayRouteTableVpcAssociationState.scan, hb] using ih hrest

/-- The scan finds nothing when no entry has the requested ID. -/
theorem LocalGateway_scan_none (id : String)
    (entries : List (Option ec2.LocalGatewayRouteTableVpcAssociation))
    (h : ∀ b, some b ∈ entries →
      aws.StringValue b.LocalGatewayRouteTableVpcAssociationId ≠ id) :
    waiter.LocalGatewayRouteTableVpcAssociationState.scan id entries = none := by
  cases hscan : waiter.LocalGatewayRouteTableVpcAssociationState.scan id entries with
  | none => rfl
  | some a =>
    have hmem := LocalGateway_scan_some id entries a hscan
    exact absurd hmem.2 (h a hmem.1)

/-- C16: `LocalGatewayRouteTableVpcAssociationState` scans the result list linearly.  On
a successful lookup, if some non-nil entry has the requested ID, the payload is the
first such entry in list order and the status is that entry's `State`; an entry that
is returned as payload is always an entry of the list with the requested ID; and if no
entry matches (an empty list included), the status is "disassociated" with a nil
error. -/
theorem LocalGateway_linear_scan
    (call : waiter.DescribeLocalGatewayRouteTableVpcAssociationsInput →
      Option ec2.DescribeLocalGatewayRouteTableVpcAssociationsOutput × Option GoError)
    (id : String) (entries : List (Option ec2.LocalGatewayRouteTableVpcAssociation))
    (hcall : call ⟨aws.StringSlice [id]⟩ = (some ⟨entries⟩, none)) :
    (∀ before after (a : ec2.LocalGatewayRouteTableVpcAssociation),
      entries = before ++ some a :: after →
      (∀ b, some b ∈ before → aws.StringValue b.LocalGatewayRouteTableVpcAssociationId ≠ id) →
      aws.StringValue a.LocalGatewayRouteTableVpcAssociationId = id →
      waiter.LocalGatewayRouteTableVpcAssociationState call id
        = .ok ⟨.of (some a), aws.StringValue a.State, none⟩)
    ∧ (∀ (a : ec2.LocalGatewayRouteTableVpcAssociation) status err,
      waiter.LocalGatewayRouteTableVpcAssociationState call id
        = .ok ⟨.of (some a), status, err⟩ →
      some a ∈ entries ∧ aws.StringValue a.LocalGatewayRouteTableVpcAssociationId = id)
    ∧ ((∀ b, some b ∈ entries →
        aws.StringValue b.LocalGatewayRouteTableVpcAssociationId ≠ id) →
      waiter.LocalGatewayRouteTableVpcAssociationState call id
        = .ok ⟨.of none, "disassociated", none⟩) := by
  refine ⟨?_, ?_, ?_⟩
  · intro before after a hsplit hbefore ha
    have hscan := LocalGateway_scan_first id before after a hbefore ha
    rw [← hsplit] at hscan
    simp [waiter.LocalGatewayRouteTableVpcAssociationState, hcall, hscan]
  · intro a status err hres
    cases hscan : waiter.LocalGatewayRouteTableVpcAssociationState.scan id entries with
    | none =>
      simp [waiter.LocalGatewayRouteTableVpcAssociationState, hcall, hscan] at hres
    | some b =>
      simp [waiter.LocalGatewayRouteTableVpcAssociationState, hcall, hscan] at hres
      have hmem := LocalGateway_scan_some id entries b hscan
      rw [hres.1] at hmem
      exact hmem
  · intro hnone
    have hscan := LocalGateway_scan_none id entries hnone
    simp [waiter.LocalGatewayRouteTableVpcAssociationState, hcall, hscan,
      ec2.RouteTableAssociationStateCodeDisassociated]

/-- C16 (witness): a list with a nil entry, an entry with another ID, and two entries with
the requested ID gives the first of the two; an empty list gives "disassociated". -/
theorem LocalGateway_linear_scan_witness :
    waiter.LocalGatewayRouteTableVpcAssociationState
        (fun _ => (some ⟨[none, some ⟨some "lgw-vpc-assoc-0", some "associated"⟩,
                          some ⟨some "lgw-vpc-assoc-1", some "associating"⟩,
                          some ⟨some "lgw-vpc-assoc-1", some "associated"⟩]⟩, none))
        "lgw-vpc-assoc-1"
      = .ok ⟨.of (some ⟨some "lgw-vpc-assoc-1", some "associating"⟩), "associating", none⟩
    ∧ waiter.LocalGatewayRouteTableVpcAssociationState
        (fun _ => (some ⟨[]⟩, none)) "lgw-vpc-assoc-1"
      = .ok ⟨.of none, "disassociated", none⟩ :=
  ⟨(LocalGateway_linear_scan _ "lgw-vpc-assoc-1"
      [none, some ⟨some "lgw-vpc-assoc-0", some "associated"⟩,
        some ⟨some "lgw-vpc-assoc-1", some "associating"⟩,
        some ⟨some "lgw-vpc-assoc-1", some "associated"⟩] rfl).1
      [none, some ⟨some "lgw-vpc-assoc-0", some "associated"⟩]
      [some ⟨some "lgw-vpc-assoc-1", some "associated"⟩]
      ⟨some "lgw-vpc-assoc-1", some "associating"⟩ rfl
      (by
        intro b hb
        simp only [List.mem_cons, Option.some.injEq, List.mem_singleton, reduceCtorEq,
          List.not_mem_nil, or_false, false_or] at hb
        subst hb
        decide)
      (by decide),
    (LocalGateway_linear_scan _ "lgw-vpc-assoc-1" [] rfl).2.2 (by simp)⟩

/-! ## Claims about the SageMaker resources -/

/-- C12: flatten undoes expand for the flat flow-definition blocks.  For every
`output_config` map `m` (its keys are "s3_output_path" and "kms_key_id", both holding
strings, the latter possibly empty), expanding `[m]` succeeds and flattening the result
gives `[m]`; and for every `human_loop_request_source` map `m` (its only key is
"aws_managed_human_loop_request_source", holding a string), expanding `[m]` succeeds and
flattening the result gives `[m]`. -/
theorem flatten_expand_flat_blocks :
    (∀ (m : TfMap) (path key : String),
      m "s3_output_path" = some (.string path) → m "kms_key_id" = some (.string key) →
      (∀ k, k ≠ "s3_output_path" → k ≠ "kms_key_id" → m k = none) →
      (expandSagemakerFlowDefinitionOutputConfig [.map m]).map
          flattenSagemakerFlowDefinitionOutputConfig = .ok [m])
    ∧ (∀ (m : TfMap) (source : String),
      m "aws_managed_human_loop_request_source" = some (.string source) →
      (∀ k, k ≠ "aws_managed_human_loop_request_source" → m k = none) →
      (expandSagemakerFlowDefinitionHumanLoopRequestSource [.map m]).map
          flattenSagemakerFlowDefinitionHumanLoopRequestSource = .ok [m]) := by
  refine ⟨?_, ?_⟩
  · intro m path key hpath hkey hother
    have hflat : ∀ kms : Option String, aws.StringValue kms = key →
        flattenSagemakerFlowDefinitionOutputConfig
          (some { S3OutputPath := some path, KmsKeyId := kms }) = [m] := by
      intro kms hk
      simp only [flattenSagemakerFlowDefinitionOutputConfig, hk, List.cons.injEq, and_true]
      funext k
      by_cases h1 : k = "s3_output_path"
      · simp [TfMap.set, h1, hpath, aws.StringValue]
      · by_cases h2 : k = "kms_key_id"
        · simp [TfMap.set, h2, hkey]
        · simp [TfMap.set, TfMap.empty, h1, h2, hother k h1 h2]
    by_cases hempty : key = ""
    · simp [expandSagemakerFlowDefinitionOutputConfig, TfValue.isNil, TfValue.assertMap,
        TfValue.map?, TfValue.assertString, TfValue.string?, TfMap.index, hpath, hkey, hempty,
        bind, Except.bind, Except.map]
      exact hflat none (by simp [aws.StringValue, hempty])
    · simp [expandSagemakerFlowDefinitionOutputConfig, TfValue.isNil, TfValue.assertMap,
        TfValue.map?, TfValue.assertString, TfValue.string?, TfMap.index, hpath, hkey, hempty,
        bind, Except.bind, Except.map]
      exact hflat (some key) (by simp [aws.StringValue])
  · intro m source hsource hother
    simp only [expandSagemakerFlowDefinitionHumanLoopRequestSource, TfValue.isNil,
      TfValue.assertMap, TfValue.map?, TfValue.assertString, TfValue.string?, TfMap.index,
      hsource, bind, Except.bind, Except.map,
      flattenSagemakerFlowDefinitionHumanLoopRequestSource, aws.StringValue]
    simp only [Bool.false_eq_true, ↓reduceIte, Except.ok.injEq, List.cons.injEq, and_true]
    funext k
    by_cases h1 : k = "aws_managed_human_loop_request_source"
    · simp [TfMap.set, h1, hsource]
    · simp [TfMap.set, TfMap.empty, h1, hother k h1]

/-- C12 (witness): an `output_config` block with an empty `kms_key_id` and a
`human_loop_request_source` block. -/
theorem flatten_expand_flat_blocks_witness :
    (expandSagemakerFlowDefinitionOutputConfig
        [.map ((TfMap.empty.set "kms_key_id" (.string "")).set "s3_output_path"
          (.string "s3://bucket/out"))]).map flattenSagemakerFlowDefinitionOutputConfig
      = .ok [(TfMap.empty.set "kms_key_id" (.string "")).set "s3_output_path"
          (.string "s3://bucket/out")]
    ∧ (expandSagemakerFlowDefinitionHumanLoopRequestSource
        [.map (TfMap.empty.set "aws_managed_human_loop_request_source"
          (.string "AWS/Textract/AnalyzeDocument/Forms/V1"))]).map
          flattenSagemakerFlowDefinitionHumanLoopRequestSource
      = .ok [TfMap.empty.set "aws_managed_human_loop_request_source"
          (.string "AWS/Textract/AnalyzeDocument/Forms/V1")] :=
  ⟨flatten_expand_flat_blocks.1 _ "s3://bucket/out" "" rfl rfl
      (by intro k h1 h2; simp [TfMap.set, TfMap.empty, h1, h2]),
    flatten_expand_flat_blocks.2 _ "AWS/Textract/AnalyzeDocument/Forms/V1" rfl
      (by intro k h1; simp [TfMap.set, TfMap.empty, h1])⟩

/-- The two-value assertion `m[key].(int)` succeeds exactly on a key that holds an
`int`. -/
theorem TfMap_index_int (m : TfMap) (key : String) :
    (m.index key).int? = (m key).bind TfValue.int? := by
  unfold TfMap.index
  cases m key with
  | none => rfl
  | some v => rfl

/-- C17: price round trip.  For every map `m`, expanding `[m]` with
`expandSagemakerFlowDefinitionAmountInUsd` succeeds and flattening the result gives a
one-element list whose map holds, of the keys "cents", "dollars" and
"tenth_fractions_of_a_cent", exactly those that hold an integer in `m`, each with the
same number (as an `int64`), and holds no other key: an absent key stays absent and a
present 0 stays 0. -/
theorem flatten_expand_AmountInUsd (m : TfMap) :
    (expandSagemakerFlowDefinitionAmountInUsd [.map m]).map
        flattenSagemakerFlowDefinitionAmountInUsd
      = .ok [fun k =>
          if k = "cents" ∨ k = "dollars" ∨ k = "tenth_fractions_of_a_cent" then
            ((m k).bind TfValue.int?).map TfValue.int64
          else
            none] := by
  simp only [expandSagemakerFlowDefinitionAmountInUsd, TfValue.isNil, TfValue.assertMap,
    TfValue.map?, bind, Except.bind, Except.map, TfMap_index_int]
  simp only [Bool.false_eq_true, ↓reduceIte, Except.ok.injEq]
  have hc : ∀ o : Option Int, (m "cents").bind TfValue.int? = o →
      ∀ d : Option Int, (m "dollars").bind TfValue.int? = d →
      ∀ t : Option Int, (m "tenth_fractions_of_a_cent").bind TfValue.int? = t →
      flattenSagemakerFlowDefinitionAmountInUsd
        (some { Cents := o, Dollars := d, TenthFractionsOfACent := t })
      = [fun k =>
          if k = "cents" ∨ k = "dollars" ∨ k = "tenth_fractions_of_a_cent" then
            ((m k).bind TfValue.int?).map TfValue.int64
          else
            none] := by
    intro o ho d hd t ht
    simp only [flattenSagemakerFlowDefinitionAmountInUsd, List.cons.injEq, and_true]
    funext k
    by_cases h1 : k = "cents"
    · subst h1
      cases o <;> cases d <;> cases t <;>
        simp [TfMap.set, TfMap.empty, ho, aws.Int64Value]
    · by_cases h2 : k = "dollars"
      · subst h2
        cases o <;> cases d <;> cases t <;>
          simp [TfMap.set, TfMap.empty, hd, aws.Int64Value]
      · by_cases h3 : k = "tenth_fractions_of_a_cent"
        · subst h3
          cases o <;> cases d <;> cases t <;>
            simp [TfMap.set, TfMap.empty, ht, aws.Int64Value]
        · cases o <;> cases d <;> cases t <;>
            simp [TfMap.set, TfMap.empty, h1, h2, h3]
  cases ho : (m "cents").bind TfValue.int? <;>
    cases hd : (m "dollars").bind TfValue.int? <;>
    cases ht : (m "tenth_fractions_of_a_cent").bind TfValue.int? <;>
    simp only [] <;>
    exact hc _ ho _ hd _ ht

/-- The loop of the kernel-spec expander translates a list of `kernel_spec` blocks entry
by entry, and the flattener takes the result back to the blocks. -/
theorem KernelSpecs_loop_round_trip (ms : List TfMap)
    (h : ∀ m ∈ ms, ((∃ name, m "name" = some (.string name))
      ∧ (m "display_name" = none ∨ ∃ d, d ≠ "" ∧ m "display_name" = some (.string d))
      ∧ ∀ k, k ≠ "name" → k ≠ "display_name" → m k = none)) :
    ∃ specs,
      expandSagemakerAppImageConfigKernelGatewayImageConfigKernelSpecs.loop
          (ms.map TfValue.map) = .ok specs
      ∧ List.Forall₂
        (fun (m : TfMap) (spec : Option sagemaker.KernelSpec) =>
          ∃ s, spec = some s ∧ m "name" = some (.string (aws.StringValue s.Name))
            ∧ m "display_name" = s.DisplayName.map TfValue.string) ms specs
      ∧ flattenSagemakerAppImageConfigKernelGatewayImageConfigKernelSpecs specs = .ok ms := by
  induction ms with
  | nil =>
    exact ⟨[], rfl, List.Forall₂.nil, rfl⟩
  | cons m rest ih =>
    obtain ⟨specs, hloop, hrel, hflat⟩ := ih (fun x hx => h x (List.mem_cons_of_mem _ hx))
    obtain ⟨⟨name, hname⟩, hdisplay, hother⟩ := h m (List.mem_cons_self _ _)
    rcases hdisplay with hd | ⟨d, hdne, hd⟩
    · refine ⟨some { Name := some name } :: specs, ?_, ?_, ?_⟩
      · simp [expandSagemakerAppImageConfigKernelGatewayImageConfigKernelSpecs.loop,
          TfValue.map?, TfValue.assertString, TfValue.string?, TfMap.index, hname, hd, hloop,
          bind, Except.bind]
      · exact List.Forall₂.cons ⟨_, rfl, by simp [hname, aws.StringValue], by simp [hd]⟩ hrel
      · simp only [flattenSagemakerAppImageConfigKernelGatewayImageConfigKernelSpecs, hflat,
          bind, Except.bind, Except.ok.injEq, List.cons.injEq, and_true]
        funext k
        by_cases h1 : k = "name"
        · simp [TfMap.set, h1, hname, aws.StringValue]
        · by_cases h2 : k = "display_name"
          · simp [TfMap.set, TfMap.empty, h2, hd]
          · simp [TfMap.set, TfMap.empty, h1, h2, hother k h1 h2]
    · refine ⟨some { Name := some name, DisplayName := some d } :: specs, ?_, ?_, ?_⟩
      · simp [expandSagemakerAppImageConfigKernelGatewayImageConfigKernelSpecs.loop,
          TfValue.map?, TfValue.assertString, TfValue.string?, TfMap.index, hname, hd, hdne,
          hloop, bind, Except.bind]
      · exact List.Forall₂.cons ⟨_, rfl, by simp [hname, aws.StringValue], by simp [hd]⟩ hrel
      · simp only [flattenSagemakerAppImageConfigKernelGatewayImageConfigKernelSpecs, hflat,
          bind, Except.bind, Except.ok.injEq, List.cons.injEq, and_true]
        funext k
        by_cases h1 : k = "name"
        · simp [TfMap.set, h1, hname, aws.StringValue]
        · by_cases h2 : k = "display_name"
          · simp [TfMap.set, TfMap.empty, h2, hd, aws.StringValue]
          · simp [TfMap.set, TfMap.empty, h1, h2, hother k h1 h2]

/-- C18: kernel-spec round trip.  For every non-empty list of `kernel_spec` blocks (maps
that hold a string "name", a "display_name" that is absent or a non-empty string, and
nothing else), `expandSagemakerAppImageConfigKernelGatewayImageConfigKernelSpecs`
succeeds with a list of the same length and order, and
`flattenSagemakerAppImageConfigKernelGatewayImageConfigKernelSpecs` applied to it
returns the blocks. -/
theorem KernelSpecs_round_trip (ms : List TfMap) (hne : ms ≠ [])
    (h : ∀ m ∈ ms, ((∃ name, m "name" = some (.string name))
      ∧ (m "display_name" = none ∨ ∃ d, d ≠ "" ∧ m "display_name" = some (.string d))
      ∧ ∀ k, k ≠ "name" → k ≠ "display_name" → m k = none)) :
    ∃ specs,
      expandSagemakerAppImageConfigKernelGatewayImageConfigKernelSpecs (ms.map TfValue.map)
        = .ok specs
      ∧ specs.length = ms.length
      ∧ List.Forall₂
        (fun (m : TfMap) (spec : Option sagemaker.KernelSpec) =>
          ∃ s, spec = some s ∧ m "name" = some (.string (aws.StringValue s.Name))
            ∧ m "display_name" = s.DisplayName.map TfValue.string) ms specs
      ∧ flattenSagemakerAppImageConfigKernelGatewayImageConfigKernelSpecs specs = .ok ms := by
  obtain ⟨specs, hloop, hrel, hflat⟩ := KernelSpecs_loop_round_trip ms h
  refine ⟨specs, ?_, hrel.length_eq.symm, hrel, hflat⟩
  have hlen : (ms.map TfValue.map).length ≠ 0 := by
    simpa using hne
  unfold expandSagemakerAppImageConfigKernelGatewayImageConfigKernelSpecs
  rw [if_neg hlen]
  exact hloop

/-- C18 (witness): a list of two blocks, the second without a display name. -/
theorem KernelSpecs_round_trip_witness :
    ∃ specs,
      expandSagemakerAppImageConfigKernelGatewayImageConfigKernelSpecs
          ([(TfMap.empty.set "name" (.string "python3")).set "display_name"
              (.string "Python 3"),
            TfMap.empty.set "name" (.string "ir")].map TfValue.map)
        = .ok specs
      ∧ specs.length = 2
      ∧ List.Forall₂
        (fun (m : TfMap) (spec : Option sagemaker.KernelSpec) =>
          ∃ s, spec = some s ∧ m "name" = some (.string (aws.StringValue s.Name))
            ∧ m "display_name" = s.DisplayName.map TfValue.string)
          [(TfMap.empty.set "name" (.string "python3")).set "display_name"
              (.string "Python 3"),
            TfMap.empty.set "name" (.string "ir")] specs
      ∧ flattenSagemakerAppImageConfigKernelGatewayImageConfigKernelSpecs specs
        = .ok [(TfMap.empty.set "name" (.string "python3")).set "display_name"
              (.string "Python 3"),
            TfMap.empty.set "name" (.string "ir")] :=
  KernelSpecs_round_trip
    [(TfMap.empty.set "name" (.string "python3")).set "display_name" (.string "Python 3"),
      TfMap.empty.set "name" (.string "ir")]
    (by simp)
    (by
      intro m hm
      simp only [List.mem_cons, List.mem_singleton, List.not_mem_nil, or_false] at hm
      rcases hm with hm | hm
      · subst hm
        refine ⟨⟨"python3", rfl⟩, Or.inr ⟨"Python 3", by decide, rfl⟩, ?_⟩
        intro k h1 h2
        simp [TfMap.set, TfMap.empty, h1, h2]
      · subst hm
        refine ⟨⟨"ir", rfl⟩, Or.inl rfl, ?_⟩
        intro k h1 h2
        simp [TfMap.set, TfMap.empty, h1])

/-- C19 (failing input): for a `human_loop_config` block in which
"task_availability_lifetime_in_seconds" is not configured and so holds the integer 0,
`expandSagemakerFlowDefinitionHumanLoopConfig` sets `TaskAvailabilityLifetimeInSeconds`
to 0, which is neither unset nor between 1 and 864000. -/
theorem HumanLoopConfig_unconfigured_lifetime_sent_as_zero :
    (expandSagemakerFlowDefinitionHumanLoopConfig (fun v => v.map some)
        [.map (((((((((TfMap.empty.set "human_task_ui_arn"
            (.string "arn:aws:sagemaker:us-east-1:123456789012:human-task-ui/example")).set
          "task_count" (.int 1)).set
          "task_description" (.string "example")).set
          "task_title" (.string "example")).set
          "workteam_arn"
            (.string "arn:aws:sagemaker:us-east-1:123456789012:workteam/private-crowd/example")).set
          "public_workforce_task_price" (.list [])).set
          "task_keywords" (.set [])).set
          "task_availability_lifetime_in_seconds" (.int 0)).set
          "task_time_limit_in_seconds" (.int 3600))]).map
        (fun config => config.map (fun c => c.TaskAvailabilityLifetimeInSeconds))
      = .ok (some (some 0))
    ∧ ¬ ((1 : Int) ≤ 0 ∧ (0 : Int) ≤ 864000) := by
  constructor
  · rfl
  · decide

/-- An expression is nullable exactly when it denotes the empty text. -/
theorem regexp_nullable_iff (e : regexp.Expr) :
    e.nullable = true ↔ e.Matches [] := by
  induction e with
  | noMatch => simp [regexp.Expr.nullable, regexp.Expr.Matches]
  | emptyMatch => simp [regexp.Expr.nullable, regexp.Expr.Matches]
  | charClass member => simp [regexp.Expr.nullable, regexp.Expr.Matches]
  | alternate a b iha ihb =>
    simp [regexp.Expr.nullable, regexp.Expr.Matches, iha, ihb]
  | concat a b iha ihb =>
    simp only [regexp.Expr.nullable, regexp.Expr.Matches, Bool.and_eq_true, iha, ihb]
    constructor
    · intro h
      exact ⟨[], [], rfl, h.1, h.2⟩
    · rintro ⟨u, v, huv, hu, hv⟩
      have h := List.append_eq_nil.mp huv.symm
      rw [h.1] at hu
      rw [h.2] at hv
      exact ⟨hu, hv⟩
  | star a _ =>
    simp only [regexp.Expr.nullable, regexp.Expr.Matches, true_iff]
    exact ⟨[], rfl, by simp⟩

/-- The derivative by `c` denotes the texts `w` for which the expression denotes
`c :: w`. -/
theorem regexp_deriv_iff (e : regexp.Expr) (c : Char) (w : List Char) :
    (e.deriv c).Matches w ↔ e.Matches (c :: w) := by
  induction e generalizing w with
  | noMatch => simp [regexp.Expr.deriv, regexp.Expr.Matches]
  | emptyMatch => simp [regexp.Expr.deriv, regexp.Expr.Matches]
  | charClass member =>
    by_cases hm : member c = true
    · simp only [regexp.Expr.deriv, hm, if_true, regexp.Expr.Matches]
      constructor
      · intro hw
        exact ⟨c, by rw [hw], hm⟩
      · rintro ⟨x, hx, _⟩
        simp only [List.cons.injEq] at hx
        exact hx.2
    · simp only [regexp.Expr.deriv, hm, regexp.Expr.Matches, Bool.false_eq_true, if_false,
        false_iff]
      rintro ⟨x, hx, hmx⟩
      simp only [List.cons.injEq] at hx
      rw [← hx.1] at hmx
      exact hm hmx
  | alternate a b iha ihb =>
    simp [regexp.Expr.deriv, regexp.Expr.Matches, iha, ihb]
  | concat a b iha ihb =>
    have key : (∃ u v, c :: w = u ++ v ∧ a.Matches u ∧ b.Matches v)
        ↔ (∃ u v, w = u ++ v ∧ a.Matches (c :: u) ∧ b.Matches v)
          ∨ (a.Matches [] ∧ b.Matches (c :: w)) := by
      constructor
      · rintro ⟨u, v, huv, hu, hv⟩
        cases u with
        | nil =>
          right
          simp only [List.nil_append] at huv
          rw [huv]
          exact ⟨hu, hv⟩
        | cons x u' =>
          left
          simp only [List.cons_append, List.cons.injEq] at huv
          rw [huv.1]
          exact ⟨u', v, huv.2, hu, hv⟩
      · rintro (⟨u, v, huv, hu, hv⟩ | ⟨ha, hb⟩)
        · exact ⟨c :: u, v, by rw [huv]; rfl, hu, hv⟩
        · exact ⟨[], c :: w, rfl, ha, hb⟩
    by_cases hn : a.nullable = true
    · simp only [regexp.Expr.deriv, hn, if_true, regexp.Expr.Matches, iha, ihb, key]
      have ha := (regexp_nullable_iff a).mp hn
      constructor
      · rintro (h | h)
        · exact Or.inl h
        · exact Or.inr ⟨ha, h⟩
      · rintro (h | h)
        · exact Or.inl h
        · exact Or.inr h.2
    · simp only [regexp.Expr.deriv, hn, regexp.Expr.Matches, iha, key, Bool.false_eq_true,
        if_false]
      have ha : ¬ a.Matches [] := fun h => hn ((regexp_nullable_iff a).mpr h)
      constructor
      · intro h
        exact Or.inl h
      · rintro (h | h)
        · exact h
        · exact absurd h.1 ha
  | star a iha =>
    simp only [regexp.Expr.deriv, regexp.Expr.Matches, iha]
    constructor
    · rintro ⟨u, v, huv, hu, parts, hv, hparts⟩
      refine ⟨(c :: u) :: parts, ?_, ?_⟩
      · rw [huv, hv]
        rfl
      · intro x hx
        rcases List.mem_cons.mp hx with hx | hx
        · rw [hx]
          exact ⟨by simp, hu⟩
        · exact hparts x hx
    · rintro ⟨parts, hw, hparts⟩
      cases parts with
      | nil => simp at hw
      | cons first rest =>
        have hfirst := hparts first (List.mem_cons_self _ _)
        cases first with
        | nil => exact absurd rfl hfirst.1
        | cons x u =>
          simp only [List.flatten_cons, List.cons_append, List.cons.injEq] at hw
          refine ⟨u, rest.flatten, hw.2, ?_, rest, rfl, ?_⟩
          · rw [hw.1]
            exact hfirst.2
          · intro y hy
            exact hparts y (List.mem_cons_of_mem _ hy)

/-- The derivative matcher decides the language of the expression. -/
theorem regexp_matchAll_iff (e : regexp.Expr) (w : List Char) :
    e.matchAll w = true ↔ e.Matches w := by
  induction w generalizing e with
  | nil => simpa [regexp.Expr.matchAll] using regexp_nullable_iff e
  | cons c rest ih =>
    simp only [regexp.Expr.matchAll]
    rw [ih (e.deriv c)]
    exact regexp_deriv_iff e c rest

/-- A starred character class denotes the texts made of characters of the class. -/
theorem regexp_star_charClass_iff (member : Char → Bool) (w : List Char) :
    (regexp.Expr.star (.charClass member)).Matches w ↔ ∀ x ∈ w, member x = true := by
  simp only [regexp.Expr.Matches]
  constructor
  · rintro ⟨parts, hw, hparts⟩ x hx
    rw [hw, List.mem_flatten] at hx
    obtain ⟨u, hu, hxu⟩ := hx
    obtain ⟨_, c, huc, hc⟩ := hparts u hu
    rw [huc, List.mem_singleton] at hxu
    rw [hxu]
    exact hc
  · intro h
    refine ⟨w.map (fun x => [x]), ?_, ?_⟩
    · induction w with
      | nil => rfl
      | cons x rest ih =>
        simp only [List.map_cons, List.flatten_cons, List.singleton_append, List.cons.injEq,
          true_and]
        exact ih (fun y hy => h y (List.mem_cons_of_mem _ hy))
    · intro u hu
      rw [List.mem_map] at hu
      obtain ⟨x, hx, hxu⟩ := hu
      rw [← hxu]
      exact ⟨by simp, x, rfl, h x hx⟩

/-- A literal denotes exactly its own text. -/
theorem regexp_literal_iff (cs w : List Char) :
    (regexp.Expr.literal cs).Matches w ↔ w = cs := by
  induction cs generalizing w with
  | nil => simp [regexp.Expr.literal, regexp.Expr.Matches]
  | cons c rest ih =>
    simp only [regexp.Expr.literal, regexp.Expr.Matches, regexp.Expr.char, ih,
      decide_eq_true_eq]
    constructor
    · rintro ⟨u, v, huv, ⟨x, hu, hx⟩, hv⟩
      rw [huv, hu, hx, hv]
      rfl
    · intro h
      exact ⟨[c], rest, by rw [h]; rfl, ⟨c, rfl, rfl⟩, rfl⟩

/-- An expression between `^` and `$` matches a string exactly when it denotes the whole
of the string. -/
theorem regexp_MatchString_anchored (e : regexp.Expr) (s : String) :
    (regexp.Regexp.mk true e true).MatchString s = true ↔ e.Matches s.data := by
  simp only [regexp.Regexp.MatchString, if_true, regexp_matchAll_iff, regexp.Expr.Matches]
  constructor
  · rintro ⟨u, v, huv, hu, v1, v2, hv, hv1, hv2⟩
    rw [huv, hu, hv, hv2]
    simpa using hv1
  · intro h
    exact ⟨[], s.data, rfl, rfl, s.data, [], by simp, h, rfl⟩

/-- The texts denoted by `(-*X)*` for a class `X` without the hyphen: texts of hyphens
and characters of `X` that are empty or end in a character of `X`. -/
theorem regexp_hyphenated_tail_iff (member : Char → Bool) (hhyphen : member '-' = false)
    (t : List Char) :
    (regexp.Expr.star (.concat (.star (regexp.Expr.char '-')) (.charClass member))).Matches t
      ↔ (∀ y ∈ t, member y = true ∨ y = '-')
        ∧ (t = [] ∨ ∃ x, t.getLast? = some x ∧ member x = true) := by
  have hblock : ∀ u : List Char,
      (regexp.Expr.concat (.star (regexp.Expr.char '-')) (.charClass member)).Matches u
        ↔ ∃ hs x, u = hs ++ [x] ∧ (∀ y ∈ hs, y = '-') ∧ member x = true := by
    intro u
    simp only [regexp.Expr.Matches.eq_5, regexp.Expr.char, regexp_star_charClass_iff,
      decide_eq_true_eq, regexp.Expr.Matches.eq_3]
    constructor
    · rintro ⟨hs, v, huv, hhs, x, hv, hx⟩
      exact ⟨hs, x, by rw [huv, hv], hhs, hx⟩
    · rintro ⟨hs, x, hu, hhs, hx⟩
      exact ⟨hs, [x], hu, hhs, x, rfl, hx⟩
  constructor
  · intro h
    rw [regexp.Expr.Matches.eq_6] at h
    obtain ⟨parts, ht, hparts⟩ := h
    rw [ht]
    clear ht
    induction parts with
    | nil => simp
    | cons u rest ih =>
      obtain ⟨hall, hlast⟩ := ih (fun v hv => hparts v (List.mem_cons_of_mem _ hv))
      obtain ⟨hs, x, hu, hhs, hx⟩ := (hblock u).mp (hparts u (List.mem_cons_self _ _)).2
      refine ⟨?_, Or.inr ?_⟩
      · intro y hy
        simp only [List.flatten_cons, List.mem_append] at hy
        rcases hy with hy | hy
        · rw [hu, List.mem_append, List.mem_singleton] at hy
          rcases hy with hy | hy
          · exact Or.inr (hhs y hy)
          · rw [hy]
            exact Or.inl hx
        · exact hall y hy
      · rcases hlast with hnil | ⟨z, hz, hmz⟩
        · refine ⟨x, ?_, hx⟩
          simp [List.flatten_cons, hnil, hu]
        · refine ⟨z, ?_, hmz⟩
          have hne : rest.flatten ≠ [] := by
            intro hnil
            rw [hnil] at hz
            simp at hz
          rw [List.flatten_cons, List.getLast?_append_of_ne_nil _ hne]
          exact hz
  · rintro ⟨hall, hlast⟩
    have gen : ∀ (t hs : List Char), (∀ y ∈ hs, y = '-') → (∀ y ∈ t, member y = true ∨ y = '-') →
        (hs ++ t = [] ∨ ∃ x, (hs ++ t).getLast? = some x ∧ member x = true) →
        ∃ parts : List (List Char), hs ++ t = parts.flatten
          ∧ ∀ u ∈ parts, u ≠ []
            ∧ (regexp.Expr.concat (.star (regexp.Expr.char '-')) (.charClass member)).Matches u := by
      intro t
      induction t with
      | nil =>
        intro hs hhs _ hend
        rcases hend with hnil | ⟨x, hx, hmx⟩
        · exact ⟨[], by simpa using hnil, by simp⟩
        · rw [List.append_nil] at hx
          have hxmem : x ∈ hs := List.mem_of_getLast?_eq_some hx
          rw [hhs x hxmem, hhyphen] at hmx
          exact absurd hmx (by simp)
      | cons y rest ih =>
        intro hs hhs hallowed hend
        have hrest : ∀ z ∈ rest, member z = true ∨ z = '-' :=
          fun z hz => hallowed z (List.mem_cons_of_mem _ hz)
        rcases hallowed y (List.mem_cons_self _ _) with hy | hy
        · have hend' : [] ++ rest = [] ∨ ∃ x, ([] ++ rest).getLast? = some x ∧ member x = true := by
            cases rest with
            | nil => exact Or.inl rfl
            | cons z rest' =>
              right
              rcases hend with hnil | ⟨x, hx, hmx⟩
              · simp at hnil
              · refine ⟨x, ?_, hmx⟩
                have : hs ++ y :: z :: rest' = (hs ++ [y]) ++ (z :: rest') := by simp
                rw [this, List.getLast?_append_of_ne_nil _ (by simp)] at hx
                simpa using hx
          obtain ⟨parts, hflat, hparts⟩ := ih [] (by simp) hrest hend'
          refine ⟨(hs ++ [y]) :: parts, ?_, ?_⟩
          · simp only [List.nil_append] at hflat
            rw [List.flatten_cons, ← hflat]
            simp
          · intro u hu
            rcases List.mem_cons.mp hu with hu | hu
            · rw [hu]
              exact ⟨by simp, (hblock _).mpr ⟨hs, y, rfl, hhs, hy⟩⟩
            · exact hparts u hu
        · have hhs' : ∀ z ∈ hs ++ [y], z = '-' := by
            intro z hz
            rw [List.mem_append, List.mem_singleton] at hz
            rcases hz with hz | hz
            · exact hhs z hz
            · rw [hz, hy]
          have heq : hs ++ y :: rest = (hs ++ [y]) ++ rest := by simp
          rw [heq] at hend ⊢
          exact ih (hs ++ [y]) hhs' hrest hend
    rw [regexp.Expr.Matches.eq_6]
    simpa using gen t [] (by simp) hall (by simpa using hlast)

/-- The texts denoted by `X(-*X)*` for a class `X` without the hyphen: texts of hyphens
and characters of `X` whose first and last characters are in `X`. -/
theorem regexp_hyphenated_name_iff (member : Char → Bool) (hhyphen : member '-' = false)
    (w : List Char) :
    (regexp.Expr.concat (.charClass member)
        (.star (.concat (.star (regexp.Expr.char '-')) (.charClass member)))).Matches w
      ↔ (∀ y ∈ w, member y = true ∨ y = '-')
        ∧ (∃ c, w.head? = some c ∧ member c = true)
        ∧ (∃ c, w.getLast? = some c ∧ member c = true) := by
  rw [regexp.Expr.Matches.eq_5]
  simp only [regexp_hyphenated_tail_iff member hhyphen, regexp.Expr.Matches.eq_3]
  constructor
  · rintro ⟨u, v, hw, ⟨c, hu, hc⟩, hall, hlast⟩
    rw [hw, hu]
    refine ⟨?_, ⟨c, rfl, hc⟩, ?_⟩
    · intro y hy
      rcases List.mem_cons.mp hy with hy | hy
      · rw [hy]
        exact Or.inl hc
      · exact hall y hy
    · rcases hlast with hnil | ⟨x, hx, hmx⟩
      · exact ⟨c, by rw [hnil]; rfl, hc⟩
      · refine ⟨x, ?_, hmx⟩
        have hne : v ≠ [] := by
          intro hnil
          rw [hnil] at hx
          simp at hx
        rw [List.getLast?_append_of_ne_nil _ hne]
        exact hx
  · rintro ⟨hall, ⟨c, hhead, hc⟩, ⟨x, hlast, hx⟩⟩
    cases w with
    | nil => simp at hhead
    | cons c' v =>
      simp only [List.head?_cons, Option.some.injEq] at hhead
      rw [hhead] at hall hlast ⊢
      refine ⟨[c], v, rfl, ⟨c, rfl, hc⟩, fun y hy => hall y (List.mem_cons_of_mem _ hy), ?_⟩
      cases v with
      | nil => exact Or.inl rfl
      | cons z v' =>
        right
        refine ⟨x, ?_, hx⟩
        have : c :: z :: v' = [c] ++ (z :: v') := rfl
        rw [this, List.getLast?_append_of_ne_nil _ (by simp)] at hlast
        exact hlast

/-- The validators combined by `validation.All` all accept exactly when the combination
accepts. -/
theorem validation_All_pair (f g : validation.SchemaValidateFunc) (v k : String) :
    validation.All [f, g] v k = [] ↔ f v k = [] ∧ g v k = [] := by
  simp [validation.All]

/-- The validator `StringLenBetween` accepts exactly the strings whose byte length is
within the bounds. -/
theorem validation_StringLenBetween_iff (min max : Nat) (v k : String) :
    validation.StringLenBetween min max v k = [] ↔ min ≤ len v ∧ len v ≤ max := by
  unfold validation.StringLenBetween
  by_cases h : len v < min ∨ len v > max
  · simp only [h, if_true, List.cons_ne_nil, false_iff]
    omega
  · simp only [h, if_false, true_iff]
    omega

/-- The validator `StringMatch` accepts exactly the strings the pattern matches. -/
theorem validation_StringMatch_iff (r : regexp.Regexp) (message v k : String) :
    validation.StringMatch r message v k = [] ↔ r.MatchString v = true := by
  unfold validation.StringMatch
  by_cases h : r.MatchString v = true <;> simp [h]

/-- A character up to `z` takes one byte in UTF-8. -/
theorem Char_utf8Size_of_le_z (c : Char) (h : c.val.toNat ≤ 122) : c.utf8Size = 1 := by
  have h3 : c.val ≤ UInt32.ofNatCore 127 (by decide) := by
    show c.val.toNat ≤ 127
    omega
  unfold Char.utf8Size
  exact if_pos h3

/-- A string of one-byte characters has as many bytes as characters. -/
theorem len_eq_length_of_one_byte (s : String) (h : ∀ c ∈ s.data, c.utf8Size = 1) :
    len s = s.length := by
  obtain ⟨cs⟩ := s
  unfold len
  show String.utf8ByteSize ⟨cs⟩ = cs.length
  induction cs with
  | nil => rfl
  | cons c rest ih =>
    have hrest := ih (fun x hx => h x (List.mem_cons_of_mem _ hx))
    simp only [String.utf8ByteSize, String.utf8ByteSize.go, List.length_cons] at hrest ⊢
    rw [hrest, h c (List.mem_cons_self _ _)]

/-- A character in one of the ranges a-z, A-Z, 0-9, or a hyphen, takes one byte. -/
theorem name_character_one_byte (c : Char)
    (h : (('a' ≤ c ∧ c ≤ 'z') ∨ ('A' ≤ c ∧ c ≤ 'Z') ∨ ('0' ≤ c ∧ c ≤ '9')) ∨ c = '-') :
    c.utf8Size = 1 := by
  apply Char_utf8Size_of_le_z
  rcases h with (⟨_, h⟩ | ⟨_, h⟩ | ⟨_, h⟩) | h
  · exact h
  · have h' : c.val.toNat ≤ 90 := h
    omega
  · have h' : c.val.toNat ≤ 57 := h
    omega
  · rw [h]
    decide

/-- A name validator built from `StringLenBetween 1 63` and the pattern `^X(-*X)*$`, for
a class `X` of one-byte characters without the hyphen, accepts exactly the strings of 1 to
63 characters made of hyphens and characters of `X` that start and end in `X`. -/
theorem name_validator_iff (member : Char → Bool) (P : Char → Prop)
    (hclass : ∀ c, member c = true ↔ P c) (hhyphen : member '-' = false)
    (hbyte : ∀ c, P c ∨ c = '-' → c.utf8Size = 1) (message s k : String) :
    validation.All
        [validation.StringLenBetween 1 63,
          validation.StringMatch
            ⟨true, .concat (.charClass member)
              (.star (.concat (.star (regexp.Expr.char '-')) (.charClass member))), true⟩
            message] s k = []
      ↔ 1 ≤ s.length ∧ s.length ≤ 63
        ∧ (∀ c ∈ s.data, P c ∨ c = '-')
        ∧ (∃ c, s.data.head? = some c ∧ P c)
        ∧ (∃ c, s.data.getLast? = some c ∧ P c) := by
  rw [validation_All_pair, validation_StringLenBetween_iff, validation_StringMatch_iff,
    regexp_MatchString_anchored, regexp_hyphenated_name_iff member hhyphen]
  simp only [hclass]
  constructor
  · rintro ⟨⟨h1, h2⟩, hall, hhead, hlast⟩
    have hlen := len_eq_length_of_one_byte s (fun c hc => hbyte c (hall c hc))
    rw [hlen] at h1 h2
    exact ⟨h1, h2, hall, hhead, hlast⟩
  · rintro ⟨h1, h2, hall, hhead, hlast⟩
    have hlen := len_eq_length_of_one_byte s (fun c hc => hbyte c (hall c hc))
    rw [← hlen] at h1 h2
    exact ⟨⟨h1, h2⟩, hall, hhead, hlast⟩

/-- C11: the resource-name validators accept exactly the strings their messages describe.
"app_image_config_name" is accepted iff it has 1 to 63 characters, all of them a-z, A-Z,
0-9 or '-', the first and the last alphanumeric; "flow_definition_name" is accepted iff
it has 1 to 63 characters, all of them a-z, 0-9 or '-', the first and the last a
lowercase letter or a digit.  (Such strings are ASCII, so the byte length that Go's `len`
measures is their number of characters.) -/
theorem name_validators_accept_iff (s k : String) :
    (resourceAwsSagemakerAppImageConfig.appImageConfigNameValidateFunc s k = []
      ↔ 1 ≤ s.length ∧ s.length ≤ 63
        ∧ (∀ c ∈ s.data,
            (('a' ≤ c ∧ c ≤ 'z') ∨ ('A' ≤ c ∧ c ≤ 'Z') ∨ ('0' ≤ c ∧ c ≤ '9')) ∨ c = '-')
        ∧ (∃ c, s.data.head? = some c
            ∧ (('a' ≤ c ∧ c ≤ 'z') ∨ ('A' ≤ c ∧ c ≤ 'Z') ∨ ('0' ≤ c ∧ c ≤ '9')))
        ∧ (∃ c, s.data.getLast? = some c
            ∧ (('a' ≤ c ∧ c ≤ 'z') ∨ ('A' ≤ c ∧ c ≤ 'Z') ∨ ('0' ≤ c ∧ c ≤ '9'))))
    ∧ (resourceAwsSagemakerFlowDefinition.flowDefinitionNameValidateFunc s k = []
      ↔ 1 ≤ s.length ∧ s.length ≤ 63
        ∧ (∀ c ∈ s.data, (('a' ≤ c ∧ c ≤ 'z') ∨ ('0' ≤ c ∧ c ≤ '9')) ∨ c = '-')
        ∧ (∃ c, s.data.head? = some c ∧ (('a' ≤ c ∧ c ≤ 'z') ∨ ('0' ≤ c ∧ c ≤ '9')))
        ∧ (∃ c, s.data.getLast? = some c ∧ (('a' ≤ c ∧ c ≤ 'z') ∨ ('0' ≤ c ∧ c ≤ '9')))) := by
  constructor
  · exact name_validator_iff _ _ (fun c => by simp [regexp.Expr.range, or_assoc])
      (by decide) (fun c hc => name_character_one_byte c hc) _ s k
  · exact name_validator_iff _ _ (fun c => by simp [regexp.Expr.range]) (by decide)
      (fun c hc => name_character_one_byte c (by
        rcases hc with (h | h) | h
        · exact Or.inl (Or.inl h)
        · exact Or.inl (Or.inr (Or.inr h))
        · exact Or.inr h)) _ s k

/-- C11 (witness): "Ab-1" passes the app-image-config validator; for the flow-definition
validator "a--b" (consecutive inner hyphens) passes, and "aB" (an uppercase letter),
"-ab" (a leading hyphen) and "ab-" (a trailing hyphen) do not. -/
theorem name_validators_accept_iff_witness :
    resourceAwsSagemakerAppImageConfig.appImageConfigNameValidateFunc "Ab-1"
        "app_image_config_name" = []
    ∧ resourceAwsSagemakerFlowDefinition.flowDefinitionNameValidateFunc "a--b"
        "flow_definition_name" = []
    ∧ resourceAwsSagemakerFlowDefinition.flowDefinitionNameValidateFunc "aB"
        "flow_definition_name" ≠ []
    ∧ resourceAwsSagemakerFlowDefinition.flowDefinitionNameValidateFunc "-ab"
        "flow_definition_name" ≠ []
    ∧ resourceAwsSagemakerFlowDefinition.flowDefinitionNameValidateFunc "ab-"
        "flow_definition_name" ≠ [] := by
  refine ⟨?_, ?_, ?_, ?_, ?_⟩
  · exact (name_validators_accept_iff "Ab-1" "app_image_config_name").1.mpr
      ⟨by decide, by decide, by decide, ⟨'A', rfl, by decide⟩, ⟨'1', rfl, by decide⟩⟩
  · exact (name_validators_accept_iff "a--b" "flow_definition_name").2.mpr
      ⟨by decide, by decide, by decide, ⟨'a', rfl, by decide⟩, ⟨'b', rfl, by decide⟩⟩
  · intro h
    have hall := ((name_validators_accept_iff "aB" "flow_definition_name").2.mp h).2.2.1
    exact absurd (hall 'B' (by decide)) (by decide)
  · intro h
    obtain ⟨c, hc, hclass⟩ :=
      ((name_validators_accept_iff "-ab" "flow_definition_name").2.mp h).2.2.2.1
    have hc' : c = '-' := by
      simpa using hc.symm
    rw [hc'] at hclass
    exact absurd hclass (by decide)
  · intro h
    obtain ⟨c, hc, hclass⟩ :=
      ((name_validators_accept_iff "ab-" "flow_definition_name").2.mp h).2.2.2.2
    have hc' : c = '-' := by
      simpa using hc.symm
    rw [hc'] at hclass
    exact absurd hclass (by decide)

/-- The texts denoted by `(https|s3)://([^/])/?(.*)`: "https://" or "s3://", then one
character other than '/', then anything without a newline. -/
theorem s3OutputPath_expr_iff (w : List Char) :
    resourceAwsSagemakerFlowDefinition.s3OutputPathPattern.expr.Matches w
      ↔ ∃ c rest, (w = "s3://".data ++ c :: rest ∨ w = "https://".data ++ c :: rest)
          ∧ c ≠ '/' ∧ ∀ x ∈ rest, x ≠ '\n' := by
  simp only [resourceAwsSagemakerFlowDefinition.s3OutputPathPattern, regexp.Expr.Matches.eq_5,
    regexp.Expr.Matches.eq_4, regexp.Expr.Matches.eq_3, regexp.Expr.Matches.eq_2,
    regexp_literal_iff, regexp.Expr.quest, regexp.Expr.char, regexp.Expr.anyCharNotNL,
    regexp_star_charClass_iff, decide_eq_true_eq]
  constructor
  · rintro ⟨u1, v1, hw, hscheme, u2, v2, hv1, hu2, u3, v3, hv2, ⟨c, hu3, hc⟩, u4, v4, hv3,
      hslash, hrest⟩
    refine ⟨c, u4 ++ v4, ?_, hc, ?_⟩
    · rw [hw, hv1, hu2, hv2, hu3, hv3]
      rcases hscheme with h | h
      · right
        rw [h]
        rfl
      · left
        rw [h]
        rfl
    · intro x hx
      rcases List.mem_append.mp hx with hx | hx
      · rcases hslash with ⟨y, hu4, hy⟩ | hu4
        · rw [hu4, List.mem_singleton] at hx
          rw [hx, hy]
          decide
        · rw [hu4] at hx
          simp at hx
      · exact hrest x hx
  · rintro ⟨c, rest, hw, hc, hrest⟩
    rcases hw with hw | hw
    · exact ⟨"s3".data, "://".data ++ c :: rest, by rw [hw]; rfl, Or.inr rfl, "://".data,
        c :: rest, rfl, rfl, [c], rest, rfl, ⟨c, rfl, hc⟩, [], rest, rfl, Or.inr rfl, hrest⟩
    · exact ⟨"https".data, "://".data ++ c :: rest, by rw [hw]; rfl, Or.inl rfl, "://".data,
        c :: rest, rfl, rfl, [c], rest, rfl, ⟨c, rfl, hc⟩, [], rest, rfl, Or.inr rfl, hrest⟩

/-- A string with at least one character has at least one byte. -/
theorem one_le_len_of_data_ne_nil (s : String) (h : s.data ≠ []) : 1 ≤ len s := by
  obtain ⟨cs⟩ := s
  cases cs with
  | nil => exact absurd rfl h
  | cons c rest =>
    unfold len
    simp only [String.utf8ByteSize, String.utf8ByteSize.go]
    have := Char.utf8Size_pos c
    omega

/-- C20: the "s3_output_path" validator accepts a string iff its length (in bytes, as Go's
`len` counts) is between 1 and 512 and it begins with "s3://" or "https://" immediately
followed by a character other than '/', with no newline anywhere after that character.
In particular every path "s3://<bucket>/<key>" of at most 512 bytes whose bucket name
is non-empty and does not start with '/', without a newline after the first character
of the bucket name, is accepted; and "s3://", "s3:///key" and every string with another
scheme are rejected. -/
theorem s3_output_path_accept_iff (k : String) :
    (∀ s : String,
      resourceAwsSagemakerFlowDefinition.s3OutputPathValidateFunc s k = []
        ↔ 1 ≤ len s ∧ len s ≤ 512
          ∧ ∃ c rest, (s.data = "s3://".data ++ c :: rest
              ∨ s.data = "https://".data ++ c :: rest)
            ∧ c ≠ '/' ∧ ∀ x ∈ rest, x ≠ '\n')
    ∧ (∀ (bucket key : String) (c : Char) (rest : List Char),
      bucket.data = c :: rest → c ≠ '/' → (∀ x ∈ rest, x ≠ '\n') → (∀ x ∈ key.data, x ≠ '\n') →
      len ("s3://" ++ bucket ++ "/" ++ key) ≤ 512 →
      resourceAwsSagemakerFlowDefinition.s3OutputPathValidateFunc
        ("s3://" ++ bucket ++ "/" ++ key) k = [])
    ∧ resourceAwsSagemakerFlowDefinition.s3OutputPathValidateFunc "s3://" k ≠ []
    ∧ resourceAwsSagemakerFlowDefinition.s3OutputPathValidateFunc "s3:///key" k ≠ []
    ∧ (∀ s : String, (∀ rest, s.data ≠ "s3://".data ++ rest) →
      (∀ rest, s.data ≠ "https://".data ++ rest) →
      resourceAwsSagemakerFlowDefinition.s3OutputPathValidateFunc s k ≠ []) := by
  have hiff : ∀ s : String,
      resourceAwsSagemakerFlowDefinition.s3OutputPathValidateFunc s k = []
        ↔ 1 ≤ len s ∧ len s ≤ 512
          ∧ ∃ c rest, (s.data = "s3://".data ++ c :: rest
              ∨ s.data = "https://".data ++ c :: rest)
            ∧ c ≠ '/' ∧ ∀ x ∈ rest, x ≠ '\n' := by
    intro s
    unfold resourceAwsSagemakerFlowDefinition.s3OutputPathValidateFunc
    rw [validation_All_pair, validation_StringLenBetween_iff, validation_StringMatch_iff]
    have hm := regexp_MatchString_anchored
      resourceAwsSagemakerFlowDefinition.s3OutputPathPattern.expr s
    rw [s3OutputPath_expr_iff] at hm
    constructor
    · rintro ⟨h1, h2, h3⟩
      exact ⟨h2, h3, hm.mp h1⟩
    · rintro ⟨h2, h3, h1⟩
      exact ⟨hm.mpr h1, h2, h3⟩
  refine ⟨hiff, ?_, ?_, ?_, ?_⟩
  · intro bucket key c rest hbucket hc hrest hkey hlen
    have hdata : ("s3://" ++ bucket ++ "/" ++ key).data
        = "s3://".data ++ c :: (rest ++ '/' :: key.data) := by
      simp [String.data_append, hbucket]
    refine (hiff _).mpr ⟨?_, hlen, c, rest ++ '/' :: key.data, Or.inl hdata, hc, ?_⟩
    · apply one_le_len_of_data_ne_nil
      rw [hdata]
      simp
    · intro x hx
      rcases List.mem_append.mp hx with hx | hx
      · exact hrest x hx
      · rcases List.mem_cons.mp hx with hx | hx
        · rw [hx]
          decide
        · exact hkey x hx
  · intro h
    obtain ⟨_, _, c, rest, hdata, _, _⟩ := (hiff "s3://").mp h
    rcases hdata with hdata | hdata
    · have h1 : ("s3://".data ++ c :: rest).length = 5 + (rest.length + 1) := by
        rw [List.length_append]
        rfl
      rw [← hdata] at h1
      have h2 : "s3://".data.length = 5 := rfl
      omega
    · have h1 : ("https://".data ++ c :: rest).head? = some 'h' := rfl
      rw [← hdata] at h1
      exact absurd h1 (by decide)
  · intro h
    obtain ⟨_, _, c, rest, hdata, hc, _⟩ := (hiff "s3:///key").mp h
    rcases hdata with hdata | hdata
    · have h1 : "s3:///key".data = "s3://".data ++ '/' :: "key".data := by decide
      rw [h1] at hdata
      have h2 := List.append_cancel_left hdata
      simp only [List.cons.injEq] at h2
      exact hc h2.1.symm
    · have h1 : ("https://".data ++ c :: rest).head? = some 'h' := rfl
      rw [← hdata] at h1
      exact absurd h1 (by decide)
  · intro s hs3 hhttps h
    obtain ⟨_, _, c, rest, hdata, _, _⟩ := (hiff s).mp h
    rcases hdata with hdata | hdata
    · exact hs3 _ hdata
    · exact hhttps _ hdata

/-- C20 (witness): "s3://my-bucket/out/dir" is accepted and "ftp://bucket/key" is
rejected. -/
theorem s3_output_path_accept_iff_witness :
    resourceAwsSagemakerFlowDefinition.s3OutputPathValidateFunc
        ("s3://" ++ "my-bucket" ++ "/" ++ "out/dir") "s3_output_path" = []
    ∧ resourceAwsSagemakerFlowDefinition.s3OutputPathValidateFunc "ftp://bucket/key"
        "s3_output_path" ≠ [] :=
  ⟨(s3_output_path_accept_iff "s3_output_path").2.1 "my-bucket" "out/dir" 'm'
      "y-bucket".data rfl (by decide) (by decide) (by decide) (by decide),
    (s3_output_path_accept_iff "s3_output_path").2.2.2.2 "ftp://bucket/key"
      (by
        intro rest h
        have h1 : ("s3://".data ++ rest).head? = some 's' := rfl
        rw [← h] at h1
        exact absurd h1 (by decide))
      (by
        intro rest h
        have h1 : ("https://".data ++ rest).head? = some 'h' := rfl
        rw [← h] at h1
        exact absurd h1 (by decide))⟩

/-- C24: the boolean-attribute probes only ever report a boolean literal.  For every
lookup outcome `SubnetMapCustomerOwnedIpOnLaunch` and `SubnetMapPublicIpOnLaunch` return
the status "true" or "false", and "true" exactly when the lookup succeeds with a subnet
whose attribute is set and true (a not-found error, another lookup error, a nil subnet
and an unset attribute all give "false"); `VpcAttribute` returns "true" or "false"
according to the attribute value when the lookup succeeds with one, and the empty status
otherwise. -/
theorem boolean_probes_status (codes : tfec2.ErrCodes) :
    (∀ find id,
      ((waiter.SubnetMapCustomerOwnedIpOnLaunch codes find id).status = "true"
        ∨ (waiter.SubnetMapCustomerOwnedIpOnLaunch codes find id).status = "false")
      ∧ ((waiter.SubnetMapCustomerOwnedIpOnLaunch codes find id).status = "true"
        ↔ ∃ subnet : ec2.Subnet, find id = (some subnet, none)
            ∧ subnet.MapCustomerOwnedIpOnLaunch = some true))
    ∧ (∀ find id,
      ((waiter.SubnetMapPublicIpOnLaunch codes find id).status = "true"
        ∨ (waiter.SubnetMapPublicIpOnLaunch codes find id).status = "false")
      ∧ ((waiter.SubnetMapPublicIpOnLaunch codes find id).status = "true"
        ↔ ∃ subnet : ec2.Subnet, find id = (some subnet, none)
            ∧ subnet.MapPublicIpOnLaunch = some true))
    ∧ (∀ find id attr,
      (∀ value : Bool, find id attr = (some value, none) →
        waiter.VpcAttribute codes find id attr
          = ⟨.of (some value), if value then "true" else "false", none⟩)
      ∧ (((find id attr).1 = none ∨ (find id attr).2 ≠ none) →
        (waiter.VpcAttribute codes find id attr).status = "")) := by
  refine ⟨?_, ?_, ?_⟩
  · intro find id
    rcases hf : find id with ⟨subnet, err⟩
    cases err with
    | some e =>
      by_cases hnf : tfawserr.ErrCodeEquals (some e) codes.ErrCodeInvalidSubnetIDNotFound = true
      · simp [waiter.SubnetMapCustomerOwnedIpOnLaunch, hf, hnf]
      · simp [waiter.SubnetMapCustomerOwnedIpOnLaunch, hf, hnf]
    | none =>
      cases subnet with
      | none => simp [waiter.SubnetMapCustomerOwnedIpOnLaunch, hf, tfawserr.ErrCodeEquals]
      | some s =>
        rcases ha : s.MapCustomerOwnedIpOnLaunch with _ | _ | _ <;>
          simp [waiter.SubnetMapCustomerOwnedIpOnLaunch, hf, tfawserr.ErrCodeEquals, ha,
            aws.BoolValue, strconv.FormatBool]
  · intro find id
    rcases hf : find id with ⟨subnet, err⟩
    cases err with
    | some e =>
      by_cases hnf : tfawserr.ErrCodeEquals (some e) codes.ErrCodeInvalidSubnetIDNotFound = true
      · simp [waiter.SubnetMapPublicIpOnLaunch, hf, hnf]
      · simp [waiter.SubnetMapPublicIpOnLaunch, hf, hnf]
    | none =>
      cases subnet with
      | none => simp [waiter.SubnetMapPublicIpOnLaunch, hf, tfawserr.ErrCodeEquals]
      | some s =>
        rcases ha : s.MapPublicIpOnLaunch with _ | _ | _ <;>
          simp [waiter.SubnetMapPublicIpOnLaunch, hf, tfawserr.ErrCodeEquals, ha,
            aws.BoolValue, strconv.FormatBool]
  · intro find id attr
    refine ⟨?_, ?_⟩
    · intro value hf
      cases value <;>
        simp [waiter.VpcAttribute, hf, tfawserr.ErrCodeEquals, aws.BoolValue,
          strconv.FormatBool]
    · intro h
      rcases hf : find id attr with ⟨value, err⟩
      rw [hf] at h
      cases err with
      | some e =>
        by_cases hnf : tfawserr.ErrCodeEquals (some e) codes.ErrCodeInvalidVpcIDNotFound = true
        · simp [waiter.VpcAttribute, hf, hnf]
        · simp [waiter.VpcAttribute, hf, hnf]
      | none =>
        cases value with
        | none => simp [waiter.VpcAttribute, hf, tfawserr.ErrCodeEquals]
        | some b => simp at h

/-- C24 (witness): a subnet with the attribute set and true gives "true", and a VPC
attribute that is false gives "false". -/
theorem boolean_probes_status_witness :
    (waiter.SubnetMapCustomerOwnedIpOnLaunch tfec2.providerErrCodes
        (fun _ => (some ⟨some "subnet-1", some true, none⟩, none)) "subnet-1").status = "true"
    ∧ (waiter.SubnetMapPublicIpOnLaunch tfec2.providerErrCodes
        (fun _ => (some ⟨some "subnet-1", none, some true⟩, none)) "subnet-1").status = "true"
    ∧ waiter.VpcAttribute tfec2.providerErrCodes (fun _ _ => (some false, none))
        "vpc-1" "enableDnsSupport"
      = ⟨.of (some false), "false", none⟩ :=
  ⟨((boolean_probes_status tfec2.providerErrCodes).1
        (fun _ => (some ⟨some "subnet-1", some true, none⟩, none)) "subnet-1").2.mpr
      ⟨⟨some "subnet-1", some true, none⟩, rfl, rfl⟩,
    ((boolean_probes_status tfec2.providerErrCodes).2.1
        (fun _ => (some ⟨some "subnet-1", none, some true⟩, none)) "subnet-1").2.mpr
      ⟨⟨some "subnet-1", none, some true⟩, rfl, rfl⟩,
    ((boolean_probes_status tfec2.providerErrCodes).2.2
        (fun _ _ => (some false, none)) "vpc-1" "enableDnsSupport").1 false rfl⟩

/-- The validator `IntBetween` accepts exactly the integers within the bounds. -/
theorem validation_IntBetween_iff (min max v : Int) (k : String) :
    validation.IntBetween min max v k = [] ↔ min ≤ v ∧ v ≤ max := by
  unfold validation.IntBetween
  by_cases h : v < min ∨ v > max
  · simp only [h, if_true, List.cons_ne_nil, false_iff]
    omega
  · simp only [h, if_false, true_iff]
    omega

/-- The validator `IntInSlice` accepts exactly the listed integers. -/
theorem validation_IntInSlice_iff (valid : List Int) (v : Int) (k : String) :
    validation.IntInSlice valid v k = [] ↔ v ∈ valid := by
  unfold validation.IntInSlice
  by_cases h : v ∈ valid
  · have hany : valid.any (fun validInt => decide (v = validInt)) = true := by
      rw [List.any_eq_true]
      exact ⟨v, h, by simp⟩
    simp [hany, h]
  · have hany : valid.any (fun validInt => decide (v = validInt)) = false := by
      rw [List.any_eq_false]
      intro x hx
      have hne : v ≠ x := fun hvx => h (hvx ▸ hx)
      simp [hne]
    simp [hany, h]

/-- The "mount_path" validator accepts exactly the strings of 1 to 1024 bytes that start
with '/'. -/
theorem mountPath_accept_iff (s k : String) :
    resourceAwsSagemakerAppImageConfig.mountPathValidateFunc s k = []
      ↔ 1 ≤ len s ∧ len s ≤ 1024 ∧ s.data.head? = some '/' := by
  unfold resourceAwsSagemakerAppImageConfig.mountPathValidateFunc
  rw [validation_All_pair, validation_StringLenBetween_iff, validation_StringMatch_iff]
  have hm : resourceAwsSagemakerAppImageConfig.mountPathPattern.MatchString s = true
      ↔ s.data.head? = some '/' := by
    simp only [regexp.Regexp.MatchString,
      resourceAwsSagemakerAppImageConfig.mountPathPattern, if_true, Bool.false_eq_true,
      if_false, regexp_matchAll_iff, regexp.Expr.Matches.eq_5, regexp.Expr.Matches.eq_2,
      regexp.Expr.anyCharNotNL, regexp.Expr.anyChar, regexp.Expr.char,
      regexp_star_charClass_iff, regexp.Expr.Matches.eq_3, decide_eq_true_eq]
    constructor
    · rintro ⟨u, v, hs, hu, u1, v1, hv, ⟨u2, v2, hu1, ⟨c, hu2, hc⟩, _⟩, _⟩
      rw [hs, hu, hv, hu1, hu2, hc]
      rfl
    · intro hhead
      cases hdata : s.data with
      | nil =>
        rw [hdata] at hhead
        simp at hhead
      | cons c rest =>
        rw [hdata] at hhead
        simp only [List.head?_cons, Option.some.injEq] at hhead
        exact ⟨[], c :: rest, rfl, rfl, [c], rest, rfl,
          ⟨[c], [], rfl, ⟨c, rfl, hhead⟩, by simp⟩, by simp⟩
  rw [hm]
  constructor
  · rintro ⟨⟨h1, h2⟩, h3⟩
    exact ⟨h1, h2, h3⟩
  · rintro ⟨h1, h2, h3⟩
    exact ⟨⟨h1, h2⟩, h3⟩

/-- C21: every default value declared in the two SageMaker resource schemas passes the
validator declared on the same attribute: "default_gid" 100 is in {0, 100},
"default_uid" 1000 is in {0, 1000}, "mount_path" "/home/sagemaker-user" has a length
between 1 and 1024 and starts with '/', and "task_time_limit_in_seconds" 3600 lies in
30..28800. -/
theorem schema_defaults_pass_validators :
    resourceAwsSagemakerAppImageConfig.defaultGidValidateFunc
        resourceAwsSagemakerAppImageConfig.defaultGidDefault "default_gid" = []
    ∧ resourceAwsSagemakerAppImageConfig.defaultGidDefault ∈ [(0 : Int), 100]
    ∧ resourceAwsSagemakerAppImageConfig.defaultUidValidateFunc
        resourceAwsSagemakerAppImageConfig.defaultUidDefault "default_uid" = []
    ∧ resourceAwsSagemakerAppImageConfig.defaultUidDefault ∈ [(0 : Int), 1000]
    ∧ resourceAwsSagemakerAppImageConfig.mountPathValidateFunc
        resourceAwsSagemakerAppImageConfig.mountPathDefault "mount_path" = []
    ∧ 1 ≤ len resourceAwsSagemakerAppImageConfig.mountPathDefault
    ∧ len resourceAwsSagemakerAppImageConfig.mountPathDefault ≤ 1024
    ∧ resourceAwsSagemakerAppImageConfig.mountPathDefault.data.head? = some '/'
    ∧ resourceAwsSagemakerFlowDefinition.taskTimeLimitInSecondsValidateFunc
        resourceAwsSagemakerFlowDefinition.taskTimeLimitInSecondsDefault
        "task_time_limit_in_seconds" = []
    ∧ 30 ≤ resourceAwsSagemakerFlowDefinition.taskTimeLimitInSecondsDefault
    ∧ resourceAwsSagemakerFlowDefinition.taskTimeLimitInSecondsDefault ≤ 28800 := by
  have hgid : resourceAwsSagemakerAppImageConfig.defaultGidDefault ∈ [(0 : Int), 100] := by
    decide
  have huid : resourceAwsSagemakerAppImageConfig.defaultUidDefault ∈ [(0 : Int), 1000] := by
    decide
  have hpath : 1 ≤ len resourceAwsSagemakerAppImageConfig.mountPathDefault
      ∧ len resourceAwsSagemakerAppImageConfig.mountPathDefault ≤ 1024
      ∧ resourceAwsSagemakerAppImageConfig.mountPathDefault.data.head? = some '/' := by
    decide
  have htime : (30 : Int) ≤ resourceAwsSagemakerFlowDefinition.taskTimeLimitInSecondsDefault
      ∧ resourceAwsSagemakerFlowDefinition.taskTimeLimitInSecondsDefault ≤ 28800 := by
    decide
  exact ⟨(validation_IntInSlice_iff _ _ _).mpr hgid, hgid,
    (validation_IntInSlice_iff _ _ _).mpr huid, huid,
    (mountPath_accept_iff _ _).mpr hpath, hpath.1, hpath.2.1, hpath.2.2,
    (validation_IntBetween_iff _ _ _ _).mpr htime, htime.1, htime.2⟩

/-- C22: deleting an already-deleted resource succeeds.
`resourceAwsSagemakerFlowDefinitionDelete` returns nil, having made the delete call only
and not the deletion waiter, whenever the delete call fails with the error code
"ResourceNotFound"; `resourceAwsSagemakerAppImageConfigDelete` returns nil whenever the
delete call fails with the code "ResourceNotFound" and a message containing "does not
exist"; for every other delete error both handlers return a non-nil error that wraps
it. -/
theorem Delete_handlers_on_delete_error :
    (∀ del wait (d : schema.ResourceData),
      tfawserr.ErrCodeEquals (del ⟨some d.id⟩) "ResourceNotFound" = true →
      (resourceAwsSagemakerFlowDefinitionDelete del wait d).err = none
      ∧ (resourceAwsSagemakerFlowDefinitionDelete del wait d).calls
        = [sagemaker.Call.DeleteFlowDefinition ⟨some d.id⟩]
      ∧ ∀ name, sagemaker.Call.FlowDefinitionDeleted name
          ∉ (resourceAwsSagemakerFlowDefinitionDelete del wait d).calls)
    ∧ (∀ del (d : schema.ResourceData),
      isAWSErr (del ⟨some d.id⟩) "ResourceNotFound" "does not exist" = true →
      (resourceAwsSagemakerAppImageConfigDelete del d).err = none)
    ∧ (∀ del wait (d : schema.ResourceData) (e : GoError),
      del ⟨some d.id⟩ = some e →
      tfawserr.ErrCodeEquals (some e) "ResourceNotFound" = false →
      (resourceAwsSagemakerFlowDefinitionDelete del wait d).err
        = some (.wrapped ("error deleting SageMaker Flow Definition (" ++ d.id ++ "): ") e))
    ∧ (∀ del (d : schema.ResourceData) (e : GoError),
      del ⟨some d.id⟩ = some e →
      isAWSErr (some e) "ResourceNotFound" "does not exist" = false →
      (resourceAwsSagemakerAppImageConfigDelete del d).err
        = some (.wrapped ("error deleting SageMaker App Image Config (" ++ d.id ++ "): ")
            e)) := by
  refine ⟨?_, ?_, ?_, ?_⟩
  · intro del wait d h
    simp [resourceAwsSagemakerFlowDefinitionDelete, schema.ResourceData.Id,
      sagemaker.ErrCodeResourceNotFound, h]
  · intro del d h
    cases hdel : del ⟨some d.id⟩ with
    | none =>
      rw [hdel] at h
      simp [isAWSErr, tfawserr.ErrMessageContains] at h
    | some e =>
      rw [hdel] at h
      simp [resourceAwsSagemakerAppImageConfigDelete, schema.ResourceData.Id,
        sagemaker.ErrCodeResourceNotFound, hdel, h]
  · intro del wait d e hdel h
    simp [resourceAwsSagemakerFlowDefinitionDelete, schema.ResourceData.Id,
      sagemaker.ErrCodeResourceNotFound, hdel, h]
  · intro del d e hdel h
    simp [resourceAwsSagemakerAppImageConfigDelete, schema.ResourceData.Id,
      sagemaker.ErrCodeResourceNotFound, hdel, h]

/-- C22 (witness): a flow definition and an app image config that are already gone, and
an access-denied error on each delete call. -/
theorem Delete_handlers_on_delete_error_witness :
    ((resourceAwsSagemakerFlowDefinitionDelete
          (fun _ => some (GoError.awsErr "ResourceNotFound" "Flow definition not found"))
          (fun _ => some (GoError.errorf "timeout")) ⟨"fd-1", false, TfMap.empty⟩).err = none
      ∧ (resourceAwsSagemakerFlowDefinitionDelete
          (fun _ => some (GoError.awsErr "ResourceNotFound" "Flow definition not found"))
          (fun _ => some (GoError.errorf "timeout")) ⟨"fd-1", false, TfMap.empty⟩).calls
        = [sagemaker.Call.DeleteFlowDefinition ⟨some "fd-1"⟩]
      ∧ ∀ name, sagemaker.Call.FlowDefinitionDeleted name
          ∉ (resourceAwsSagemakerFlowDefinitionDelete
            (fun _ => some (GoError.awsErr "ResourceNotFound" "Flow definition not found"))
            (fun _ => some (GoError.errorf "timeout")) ⟨"fd-1", false, TfMap.empty⟩).calls)
    ∧ (resourceAwsSagemakerAppImageConfigDelete
        (fun _ => some (GoError.awsErr "ResourceNotFound"
          "AppImageConfig aic-1 does not exist")) ⟨"aic-1", false, TfMap.empty⟩).err = none
    ∧ (resourceAwsSagemakerFlowDefinitionDelete
        (fun _ => some (GoError.awsErr "AccessDeniedException" "denied"))
        (fun _ => none) ⟨"fd-1", false, TfMap.empty⟩).err
      = some (.wrapped "error deleting SageMaker Flow Definition (fd-1): "
          (GoError.awsErr "AccessDeniedException" "denied"))
    ∧ (resourceAwsSagemakerAppImageConfigDelete
        (fun _ => some (GoError.awsErr "ResourceNotFound" "no such thing"))
        ⟨"aic-1", false, TfMap.empty⟩).err
      = some (.wrapped "error deleting SageMaker App Image Config (aic-1): "
          (GoError.awsErr "ResourceNotFound" "no such thing")) :=
  ⟨Delete_handlers_on_delete_error.1 _ _ ⟨"fd-1", false, TfMap.empty⟩ (by decide),
    Delete_handlers_on_delete_error.2.1 _ ⟨"aic-1", false, TfMap.empty⟩ (by decide),
    Delete_handlers_on_delete_error.2.2.1 _ _ ⟨"fd-1", false, TfMap.empty⟩ _ rfl (by decide),
    Delete_handlers_on_delete_error.2.2.2 _ ⟨"aic-1", false, TfMap.empty⟩ _ rfl (by decide)⟩

/-- C23: Read removes a vanished resource from state instead of failing.
`resourceAwsSagemakerFlowDefinitionRead` sets the ID to "" and returns nil when the lookup
reports not-found and the resource is not newly created, and only then (it calls
`d.SetId` in no other case); a not-found on a newly created resource, like any other
lookup error, is returned wrapped in an error and the ID is kept.
`resourceAwsSagemakerAppImageConfigRead` sets the ID to "" and returns nil when the lookup
fails with the code "ResourceNotFound" and a message containing "does not exist"; any
other lookup error is returned wrapped in an error and the ID is kept. -/
theorem Read_handlers_on_lookup_error {Found : Type}
    (rest : schema.ResourceData → Option Found →
      Except GoPanic (TfMap × Option GoError × List String)) :
    (∀ (find : String → Option Found × Option GoError) (d : schema.ResourceData),
      d.isNewResource = false → tfresource.NotFound (find d.id).2 = true →
      resourceAwsSagemakerFlowDefinitionRead find rest d
        = .ok ⟨none, { d with id := "" },
            ["[WARN] SageMaker Flow Definition (" ++ d.id
              ++ ") not found, removing from state"], [""]⟩)
    ∧ (∀ (find : String → Option Found × Option GoError) (d : schema.ResourceData)
        (out : ReadOutcome),
      resourceAwsSagemakerFlowDefinitionRead find rest d = .ok out →
      "" ∈ out.setIdCalls →
      tfresource.NotFound (find d.id).2 = true ∧ d.isNewResource = false)
    ∧ (∀ (find : String → Option Found × Option GoError) (d : schema.ResourceData)
        (e : GoError),
      (find d.id).2 = some e → (d.isNewResource = true ∨ tfresource.NotFound (some e) = false) →
      resourceAwsSagemakerFlowDefinitionRead find rest d
        = .ok ⟨some (.wrapped ("error reading SageMaker Flow Definition (" ++ d.id ++ "): ")
            e), d, [], []⟩)
    ∧ (∀ (find : String → Option Found × Option GoError) (d : schema.ResourceData),
      isAWSErr (find d.id).2 "ResourceNotFound" "does not exist" = true →
      resourceAwsSagemakerAppImageConfigRead find rest d
        = .ok ⟨none, { d with id := "" },
            ["[WARN] Unable to find SageMaker App Image Config (); removing from state"],
            [""]⟩)
    ∧ (∀ (find : String → Option Found × Option GoError) (d : schema.ResourceData)
        (e : GoError),
      (find d.id).2 = some e → isAWSErr (some e) "ResourceNotFound" "does not exist" = false →
      resourceAwsSagemakerAppImageConfigRead find rest d
        = .ok ⟨some (.wrapped ("error reading SageMaker App Image Config (" ++ d.id ++ "): ")
            e), d, [], []⟩) := by
  refine ⟨?_, ?_, ?_, ?_, ?_⟩
  · intro find d hnew hnf
    simp [resourceAwsSagemakerFlowDefinitionRead, schema.ResourceData.Id,
      schema.ResourceData.IsNewResource, schema.ResourceData.SetId, hnew, hnf]
  · intro find d out hread hset
    by_cases hcond : (!d.isNewResource && tfresource.NotFound (find d.id).2) = true
    · simp only [Bool.and_eq_true, Bool.not_eq_true'] at hcond
      exact ⟨hcond.2, hcond.1⟩
    · exfalso
      unfold resourceAwsSagemakerFlowDefinitionRead at hread
      have hcond' : (!d.isNewResource && tfresource.NotFound (find d.id).2) = false := by
        simpa using hcond
      simp only [schema.ResourceData.Id, schema.ResourceData.IsNewResource, hcond',
        Bool.false_eq_true, ↓reduceIte] at hread
      cases hfind : (find d.id).2 with
      | some e =>
        simp only [hfind, Except.ok.injEq] at hread
        rw [← hread] at hset
        simp at hset
      | none =>
        simp only [hfind] at hread
        cases hrest : rest d (find d.id).1 with
        | error p =>
          simp only [hrest] at hread
          cases hread
        | ok r =>
          obtain ⟨attributes, err, log⟩ := r
          simp only [hrest, Except.ok.injEq] at hread
          rw [← hread] at hset
          simp at hset
  · intro find d e hfind hcase
    have hcond : (!d.isNewResource && tfresource.NotFound (some e)) = false := by
      rcases hcase with h | h <;> simp [h]
    unfold resourceAwsSagemakerFlowDefinitionRead
    simp only [schema.ResourceData.Id, schema.ResourceData.IsNewResource, hfind, hcond,
      Bool.false_eq_true, ↓reduceIte]
  · intro find d h
    cases hfind : (find d.id).2 with
    | none =>
      rw [hfind] at h
      simp [isAWSErr, tfawserr.ErrMessageContains] at h
    | some e =>
      rw [hfind] at h
      simp [resourceAwsSagemakerAppImageConfigRead, schema.ResourceData.Id,
        schema.ResourceData.SetId, sagemaker.ErrCodeResourceNotFound, hfind, h]
  · intro find d e hfind h
    simp [resourceAwsSagemakerAppImageConfigRead, schema.ResourceData.Id,
      sagemaker.ErrCodeResourceNotFound, hfind, h]

/-- C23 (witness): a vanished flow definition read for an existing and for a newly
created resource, and a vanished and an unreadable app image config. -/
theorem Read_handlers_on_lookup_error_witness :
    resourceAwsSagemakerFlowDefinitionRead
        (fun _ => ((none : Option String), some (GoError.notFoundError "gone")))
        (fun _ _ => .ok (TfMap.empty, none, [])) ⟨"fd-1", false, TfMap.empty⟩
      = .ok ⟨none, ⟨"", false, TfMap.empty⟩,
          ["[WARN] SageMaker Flow Definition (fd-1) not found, removing from state"], [""]⟩
    ∧ (tfresource.NotFound (some (GoError.notFoundError "gone")) = true ∧ false = false)
    ∧ resourceAwsSagemakerFlowDefinitionRead
        (fun _ => ((none : Option String), some (GoError.notFoundError "gone")))
        (fun _ _ => .ok (TfMap.empty, none, [])) ⟨"fd-1", true, TfMap.empty⟩
      = .ok ⟨some (.wrapped "error reading SageMaker Flow Definition (fd-1): "
          (GoError.notFoundError "gone")), ⟨"fd-1", true, TfMap.empty⟩, [], []⟩
    ∧ resourceAwsSagemakerAppImageConfigRead
        (fun _ => ((none : Option String),
          some (GoError.awsErr "ResourceNotFound" "AppImageConfig aic-1 does not exist")))
        (fun _ _ => .ok (TfMap.empty, none, [])) ⟨"aic-1", false, TfMap.empty⟩
      = .ok ⟨none, ⟨"", false, TfMap.empty⟩,
          ["[WARN] Unable to find SageMaker App Image Config (); removing from state"],
          [""]⟩
    ∧ resourceAwsSagemakerAppImageConfigRead
        (fun _ => ((none : Option String), some (GoError.awsErr "ThrottlingException" "slow")))
        (fun _ _ => .ok (TfMap.empty, none, [])) ⟨"aic-1", false, TfMap.empty⟩
      = .ok ⟨some (.wrapped "error reading SageMaker App Image Config (aic-1): "
          (GoError.awsErr "ThrottlingException" "slow")), ⟨"aic-1", false, TfMap.empty⟩, [],
          []⟩ :=
  ⟨(Read_handlers_on_lookup_error (fun _ _ => .ok (TfMap.empty, none, []))).1
      (fun _ => ((none : Option String), some (GoError.notFoundError "gone")))
      ⟨"fd-1", false, TfMap.empty⟩ rfl (by decide),
    (Read_handlers_on_lookup_error (fun _ _ => .ok (TfMap.empty, none, []))).2.1
      (fun _ => ((none : Option String), some (GoError.notFoundError "gone")))
      ⟨"fd-1", false, TfMap.empty⟩
      ⟨none, ⟨"", false, TfMap.empty⟩,
        ["[WARN] SageMaker Flow Definition (fd-1) not found, removing from state"], [""]⟩
      rfl (by decide),
    (Read_handlers_on_lookup_error (fun _ _ => .ok (TfMap.empty, none, []))).2.2.1
      (fun _ => ((none : Option String), some (GoError.notFoundError "gone")))
      ⟨"fd-1", true, TfMap.empty⟩ (GoError.notFoundError "gone") rfl (Or.inl rfl),
    (Read_handlers_on_lookup_error (fun _ _ => .ok (TfMap.empty, none, []))).2.2.2.1
      (fun _ => ((none : Option String),
        some (GoError.awsErr "ResourceNotFound" "AppImageConfig aic-1 does not exist")))
      ⟨"aic-1", false, TfMap.empty⟩ (by decide),
    (Read_handlers_on_lookup_error (fun _ _ => .ok (TfMap.empty, none, []))).2.2.2.2
      (fun _ => ((none : Option String), some (GoError.awsErr "ThrottlingException" "slow")))
      ⟨"aic-1", false, TfMap.empty⟩ (GoError.awsErr "ThrottlingException" "slow") rfl
      (by decide)⟩
